import Mathlib

/-!
# UAVO to MSP bridge

A shallow embedding of `flight/Modules/UAVOMSPBridge/UAVOMSPBridge.c`: the MSP
frame codec, the byte-at-a-time parser `msp_receive_byte`, the dispatcher
`msp_state_checksum` with its response encoders, and the driver loop
`uavoMSPBridgeTask`.

Conventions of the embedding:

* `uint8_t` values are natural numbers; a value that the C type cannot hold is
  never produced by the model from in-range inputs, and `% 256` is written
  where the C arithmetic can wrap (`cmd_i++`, the cast `(uint8_t)len`).
* Multi-byte fields of the packed payload unions are laid out little-endian, as
  on the Cortex-M targets of the firmware.
* `float` values are the rationals they denote; every arithmetic operation is
  followed by `roundF32`, IEEE-754 binary32 round-to-nearest-even (overflow to
  infinity and NaN are outside the model). Where C lets the build choose, the
  choice is a field of `Env`: an expression `a * b + c` may be contracted into
  a fused multiply-add, which rounds once (`fmadd`), and the conversion of a
  `float` whose integral part the integer type cannot hold is undefined, so
  its result is taken from `Env` (`floatToInt`) and theorems about converted
  values state the range on which the conversion is defined.
* The transport, the port-ownership registry and the stores into the payload
  buffer are recorded in `World`.
-/

namespace UAVOMSPBridge

/-! ## Constants of the source file -/

def MSP_SENSOR_ACC : Nat := 1
def MSP_SENSOR_BARO : Nat := 2
def MSP_SENSOR_MAG : Nat := 4
def MSP_SENSOR_GPS : Nat := 8

def MSP_API_VERSION : Nat := 1
def MSP_FC_VARIANT : Nat := 2
def MSP_FC_VERSION : Nat := 3
def MSP_BOARD_INFO : Nat := 4
def MSP_BUILD_INFO : Nat := 5
def MSP_NAME : Nat := 10
def MSP_FEATURE : Nat := 36
def MSP_IDENT : Nat := 100
def MSP_STATUS : Nat := 101
def MSP_MOTOR : Nat := 104
def MSP_RC : Nat := 105
def MSP_RAW_GPS : Nat := 106
def MSP_COMP_GPS : Nat := 107
def MSP_ATTITUDE : Nat := 108
def MSP_ALTITUDE : Nat := 109
def MSP_ANALOG : Nat := 110
def MSP_MISC : Nat := 114
def MSP_BOXIDS : Nat := 119
def MSP_UID : Nat := 160
def MSP_ALARMS : Nat := 242
def MSP_SET_4WAY_IF : Nat := 245

def MSP_PROTOCOL_VERSION : Nat := 0
def MSP_API_VERSION_MAJOR : Nat := 1
def MSP_API_VERSION_MINOR : Nat := 31

def MAX_ALARM_LEN : Nat := 30
def BOOT_DISPLAY_TIME_MS : Nat := 10 * 1000

def ALARM_OK : Nat := 0
def ALARM_WARN : Nat := 1
def ALARM_ERROR : Nat := 2
def ALARM_CRIT : Nat := 3

def FEATURE_TELEMETRY : Nat := 1 <<< 10

def PROTOCOL_4WAY : Nat := 0xff

/-- The enumeration `msp_box_t`, by numeric value. -/
def MSP_BOX_ARM : Nat := 0
def MSP_BOX_ANGLE : Nat := 1
def MSP_BOX_HORIZON : Nat := 2
def MSP_BOX_BARO : Nat := 3
def MSP_BOX_VARIO : Nat := 4
def MSP_BOX_MAG : Nat := 5
def MSP_BOX_GPSHOME : Nat := 6
def MSP_BOX_GPSHOLD : Nat := 7
def MSP_BOX_LAST : Nat := 8

/-- The enumeration `msp_state` of parser states. -/
inductive msp_state where
  | MSP_IDLE
  | MSP_HEADER_START
  | MSP_HEADER_M
  | MSP_HEADER_SIZE
  | MSP_HEADER_CMD
  | MSP_FILLBUF
  | MSP_CHECKSUM
  | MSP_DISCARD
  | MSP_MAYBE_UAVTALK2
  | MSP_MAYBE_UAVTALK3
  | MSP_MAYBE_UAVTALK4
deriving DecidableEq, Repr

open msp_state

/-- The session `struct msp_bridge`. `cmd_data` is the payload union, whose
size is that of `struct msp_cmddata_escserial`: a packed one-byte enumeration
and a `uint8_t`. -/
structure msp_bridge where
  com : Nat
  state : msp_state
  cmd_size : Nat
  cmd_id : Nat
  cmd_i : Nat
  checksum : Nat
  cmd_data : List Nat
deriving DecidableEq, Repr

/-- The value of `sizeof(m->cmd_data)`. -/
def sizeof_cmd_data : Nat := 2

/-- The session as `uavoMSPBridgeInitialize` leaves it: `memset` to zero, then
`com` set to the port id. -/
def msp_init (pios_com_msp_id : Nat) : msp_bridge :=
  { com := pios_com_msp_id, state := MSP_IDLE, cmd_size := 0, cmd_id := 0,
    cmd_i := 0, checksum := 0, cmd_data := List.replicate sizeof_cmd_data 0 }

/-- What the bridge can touch: its session, the bytes handed to the transport
(oldest first), the port-ownership registry entry `PIOS_COM_TELEM_RF`, and the
indices at which `msp_state_fill_buf` has stored into the payload buffer. -/
structure World where
  m : msp_bridge
  sent : List Nat
  telem_rf : Nat
  stores : List Nat
deriving DecidableEq, Repr

/-- The world at the start of `uavoMSPBridgeTask`. -/
def World.init (pios_com_msp_id telem_rf : Nat) : World :=
  { m := msp_init pios_com_msp_id, sent := [], telem_rf := telem_rf, stores := [] }

/-! ## Integer and floating-point helpers -/

/-- The `len` bytes found at a pointer into `buf`. -/
def readBytes (buf : List Nat) (len : Nat) : List Nat :=
  (List.range len).map (fun i => buf.getD i 0)

/-- Little-endian bytes of a 16-bit field. -/
def le16 (n : Nat) : List Nat := [n % 256, n / 256 % 256]

/-- Little-endian bytes of a 32-bit field. -/
def le32 (n : Nat) : List Nat :=
  [n % 256, n / 256 % 256, n / 65536 % 256, n / 16777216 % 256]

/-- The bit pattern of an integer stored in a `w`-bit field. -/
def toBits (w : Nat) (z : Int) : Nat := (z % (2 : Int) ^ w).toNat

/-- Round to the nearest integer, ties to the even one. -/
def roundHalfEven (q : ℚ) : Int :=
  let f := Int.floor q
  let r := q - f
  if r < 1 / 2 then f else if 1 / 2 < r then f + 1 else if f % 2 = 0 then f else f + 1

/-- The binary exponent used for `q`: that of its leading bit, and the
subnormal exponent below `2 ^ (-126)`. -/
def expF32 (q : ℚ) : Int := max (Int.log 2 |q|) (-126)

/-- Unit in the last place of the binary32 numbers in the binade of `q`. -/
def ulpF32 (q : ℚ) : ℚ := (2 : ℚ) ^ (expF32 q - 23)

/-- The binary32 value nearest to `q`, ties to even. -/
def roundF32 (q : ℚ) : ℚ := roundHalfEven (q / ulpF32 q) * ulpF32 q

/-- Single-precision product. -/
def fmul (a b : ℚ) : ℚ := roundF32 (a * b)

/-- Single-precision sum. -/
def fadd (a b : ℚ) : ℚ := roundF32 (a + b)

/-- Conversion of a `float` to an integer type: the fraction is discarded. -/
def truncf (q : ℚ) : Int := if 0 ≤ q then Int.floor q else Int.ceil q

/-- The C library `roundf`/`lroundf`: nearest integer, ties away from zero. -/
def roundf (q : ℚ) : Int :=
  if 0 ≤ q then Int.floor (q + 1 / 2) else -Int.floor (-q + 1 / 2)

/-- Copy of `strncpy(dest, src, n)`: the characters of the string `src` (given
without its terminator) up to `n`, then zero padding up to `n`. -/
def strncpy (src : List Nat) (n : Nat) : List Nat :=
  let s := (src.takeWhile (fun c => c != 0)).take n
  s ++ List.replicate (n - s.length) 0

/-- The C library `strlen` on a buffer. -/
def strlen (buf : List Nat) : Nat := (buf.takeWhile (fun c => c != 0)).length

/-! ## The flight-data model and other external declarations -/

/-- Everything the bridge reads that is declared outside its source file: the
enumeration values of the UAVObject headers, `physical_constants.h`,
`LONG_MAX` of `limits.h`, the build target name, the C library, PiOS, the UAVObject fields at the time of the
call, what `AlarmBootReason` and `AlarmString` return, the indeterminate
contents of automatic storage that an encoder sends without writing it, and
what the build makes of the two things C leaves open in the arithmetic of the
encoders: whether an expression `a * b + c` is contracted into one fused
multiply-add (`FP_CONTRACT`; for a sum of two products, which of them is
fused), and the value that results when a `float` is converted to an integer
type that cannot hold its integral part (`float_conversion_undefined`, given
the bounds of the type and the `float`). -/
structure Env where
  FP_CONTRACT : Bool
  FP_CONTRACT_SECOND_PRODUCT : Bool
  float_conversion_undefined : Int → Int → ℚ → Int
  LONG_MAX : Int
  FLIGHTSTATUS_FLIGHTMODE_LEVELING : Nat
  FLIGHTSTATUS_FLIGHTMODE_HORIZON : Nat
  FLIGHTSTATUS_FLIGHTMODE_ALTITUDEHOLD : Nat
  FLIGHTSTATUS_FLIGHTMODE_RETURNTOHOME : Nat
  FLIGHTSTATUS_FLIGHTMODE_POSITIONHOLD : Nat
  FLIGHTSTATUS_ARMED_ARMED : Nat
  GPSPOSITION_STATUS_NOGPS : Nat
  GPSPOSITION_STATUS_FIX2D : Nat
  FLIGHTBATTERYSETTINGS_VOLTAGEPIN_NONE : Nat
  FLIGHTBATTERYSETTINGS_CURRENTPIN_NONE : Nat
  HOMELOCATION_SET_FALSE : Nat
  SYSTEMALARMS_ALARM_WARNING : Nat
  SYSTEMALARMS_ALARM_ERROR : Nat
  SYSTEMALARMS_ALARM_CRITICAL : Nat
  WGS84_RADIUS_EARTH_KM : ℚ
  DEG2RAD : ℚ
  RAD2DEG : ℚ
  DRONIN_TARGET : List Nat
  cosf : ℚ → ℚ
  sqrtf : ℚ → ℚ
  atan2f : ℚ → ℚ → ℚ
  PIOS_SYS_SerialNumber : List Nat
  PIOS_Thread_Systime : Nat
  PIOS_SENSOR_ACCEL_registered : Bool
  PIOS_SENSOR_BARO_registered : Bool
  PIOS_SENSOR_MAG_registered : Bool
  AttitudeActual_Roll : ℚ
  AttitudeActual_Pitch : ℚ
  AttitudeActual_Yaw : ℚ
  GPSPositionHandle : Bool
  GPSPosition_Status : Nat
  GPSPosition_Satellites : Int
  GPSPosition_Latitude : Int
  GPSPosition_Longitude : Int
  GPSPosition_Altitude : ℚ
  GPSPosition_Groundspeed : ℚ
  GPSPosition_Heading : ℚ
  HomeLocationHandle : Bool
  HomeLocation_Set : Nat
  HomeLocation_Latitude : Int
  HomeLocation_Longitude : Int
  FlightStatusHandle : Bool
  FlightStatus_Armed : Nat
  FlightStatus_FlightMode : Nat
  FlightBatteryStateHandle : Bool
  FlightBatteryState_Voltage : ℚ
  FlightBatteryState_Current : ℚ
  FlightBatteryState_ConsumedEnergy : ℚ
  FlightBatterySettingsHandle : Bool
  FlightBatterySettings_VoltagePin : Nat
  FlightBatterySettings_CurrentPin : Nat
  ManualControlCommand_Roll : ℚ
  ManualControlCommand_Pitch : ℚ
  ManualControlCommand_Yaw : ℚ
  ManualControlCommand_Throttle : ℚ
  ManualControlCommand_Accessory0 : ℚ
  ManualControlCommand_Accessory1 : ℚ
  ManualControlCommand_Accessory2 : ℚ
  ManualControlCommand_Rssi : Int
  PositionActualHandle : Bool
  PositionActual_Down : ℚ
  SystemAlarms_RebootCause : Nat
  AlarmBootReason : Nat → List Nat
  AlarmString_msg : List Nat
  AlarmString_len : Nat
  AlarmString_state : Nat
  stack_analog_vbat : Nat
  stack_analog_current : Nat
  stack_altitude_vario : Nat

/-- One row of the table `msp_boxes`. -/
structure msp_box where
  mode : Nat
  mwboxid : Nat
  tlmode : Nat
deriving DecidableEq, Repr

/-- The table `msp_boxes`, sentinel included. -/
def msp_boxes (env : Env) : List msp_box :=
  [ { mode := MSP_BOX_ARM, mwboxid := 0, tlmode := 0 },
    { mode := MSP_BOX_ANGLE, mwboxid := 1, tlmode := env.FLIGHTSTATUS_FLIGHTMODE_LEVELING },
    { mode := MSP_BOX_HORIZON, mwboxid := 2, tlmode := env.FLIGHTSTATUS_FLIGHTMODE_HORIZON },
    { mode := MSP_BOX_BARO, mwboxid := 3, tlmode := env.FLIGHTSTATUS_FLIGHTMODE_ALTITUDEHOLD },
    { mode := MSP_BOX_VARIO, mwboxid := 4, tlmode := 0 },
    { mode := MSP_BOX_MAG, mwboxid := 5, tlmode := 0 },
    { mode := MSP_BOX_GPSHOME, mwboxid := 10, tlmode := env.FLIGHTSTATUS_FLIGHTMODE_RETURNTOHOME },
    { mode := MSP_BOX_GPSHOLD, mwboxid := 11, tlmode := env.FLIGHTSTATUS_FLIGHTMODE_POSITIONHOLD },
    { mode := MSP_BOX_LAST, mwboxid := 0xff, tlmode := 0 } ]

/-! ## Arithmetic that depends on the build -/

/-- The expression `a * b + c` in single precision: product and sum each
rounded, or, in a build that contracts, the exact `a * b + c` rounded once. -/
def fmadd (env : Env) (a b c : ℚ) : ℚ :=
  if env.FP_CONTRACT then roundF32 (a * b + c) else fadd (fmul a b) c

/-- The expression `a * b + c * d` in single precision: both products and the
sum rounded, or, in a build that contracts, one of the products fused with
the sum. -/
def fmadd2 (env : Env) (a b c d : ℚ) : ℚ :=
  if env.FP_CONTRACT then
    if env.FP_CONTRACT_SECOND_PRODUCT then roundF32 (fmul a b + c * d)
    else roundF32 (a * b + fmul c d)
  else fadd (fmul a b) (fmul c d)

/-- Conversion of a `float` to an integer type with the values `lo` to `hi`:
the fraction is discarded. When the integral part is not a value of the type
the conversion is undefined in C; the result is then the one the environment
gives. -/
def floatToInt (env : Env) (lo hi : Int) (q : ℚ) : Int :=
  if lo ≤ truncf q ∧ truncf q ≤ hi then truncf q
  else env.float_conversion_undefined lo hi q

/-- Conversion of a `float` to `uint16_t`, as the stored bit pattern. -/
def f2u16 (env : Env) (q : ℚ) : Nat := toBits 16 (floatToInt env 0 65535 q)

/-- Conversion of a `float` to `int16_t`, as the stored bit pattern. -/
def f2i16 (env : Env) (q : ℚ) : Nat := toBits 16 (floatToInt env (-32768) 32767 q)

/-- Conversion of a `float` to `int32_t`, as the stored bit pattern. -/
def f2i32 (env : Env) (q : ℚ) : Nat :=
  toBits 32 (floatToInt env (-2147483648) 2147483647 q)

/-- The C library `lroundf`: the nearest integer, ties away from zero, as a
`long`; outside the range of `long` the result is unspecified. -/
def lroundf (env : Env) (q : ℚ) : Int :=
  if -env.LONG_MAX - 1 ≤ roundf q ∧ roundf q ≤ env.LONG_MAX then roundf q
  else env.float_conversion_undefined (-env.LONG_MAX - 1) env.LONG_MAX q

/-! ## Frame codec -/

/-- The transport call `PIOS_COM_SendBuffer(m->com, buf, len)`. -/
def PIOS_COM_SendBuffer (w : World) (buf : List Nat) (len : Nat) : World :=
  { w with sent := w.sent ++ readBytes buf len }

def msp_send_error (w : World) (cmd : Nat) : World :=
  let buf := [36, 77, 124, 0, cmd, cmd]
  PIOS_COM_SendBuffer w buf 6

/-- The checksum loop of `msp_send`: `for (i = 0; i < len; i++) cs ^= data[i]`. -/
def msp_send_loop (data : List Nat) (len : Nat) (cs : Nat) : Nat :=
  (List.range len).foldl (fun cs i => cs ^^^ data.getD i 0) cs

def msp_send (w : World) (cmd : Nat) (data : List Nat) (len : Nat) : World :=
  let cs := (len % 256) ^^^ cmd
  let buf := [36, 77, 62, len % 256, cmd]
  let w := PIOS_COM_SendBuffer w buf 5
  let w := PIOS_COM_SendBuffer w data len
  let cs := msp_send_loop data len cs
  let cs := cs ^^^ 0
  PIOS_COM_SendBuffer w [cs] 1

/-! ## Parser states that only touch the session -/

def msp_state_size (w : World) (b : Nat) : World × msp_state :=
  ({ w with m := { w.m with cmd_size := b, checksum := b } }, MSP_HEADER_CMD)

def msp_state_cmd (w : World) (b : Nat) : World × msp_state :=
  let m := { w.m with cmd_i := 0, cmd_id := b, checksum := w.m.checksum ^^^ b }
  ({ w with m := m },
    if m.cmd_size > sizeof_cmd_data then MSP_DISCARD
    else if m.cmd_size = 0 then MSP_CHECKSUM else MSP_FILLBUF)

def msp_state_fill_buf (w : World) (b : Nat) : World × msp_state :=
  let i := w.m.cmd_i
  let m := { w.m with cmd_data := w.m.cmd_data.set i b, cmd_i := (i + 1) % 256,
                      checksum := w.m.checksum ^^^ b }
  ({ w with m := m, stores := w.stores ++ [i] },
    if m.cmd_i = m.cmd_size then MSP_CHECKSUM else MSP_FILLBUF)

def msp_state_discard (w : World) (_b : Nat) : World × msp_state :=
  let i := w.m.cmd_i
  ({ w with m := { w.m with cmd_i := (i + 1) % 256 } },
    if i = w.m.cmd_size then MSP_IDLE else MSP_DISCARD)

/-! ## Response encoders

Each encoder builds the bytes of its payload union `data.buf` and hands them
to `msp_send` with the length the source passes. -/

def msp_send_name (w : World) : World :=
  let hardcoded_name := [100, 82, 111, 110, 105, 110, 0]
  msp_send w MSP_NAME hardcoded_name (strlen hardcoded_name)

def msp_send_motor (w : World) : World :=
  msp_send w MSP_MOTOR (List.replicate 8 0) 8

def msp_send_feature (w : World) : World :=
  msp_send w MSP_FEATURE (le32 FEATURE_TELEMETRY) 4

def msp_send_misc (w : World) : World :=
  let mid_rc := 1500
  let min_command := 1000
  let min_throt := 1150
  let max_throt := 2000
  let data := le16 mid_rc ++ le16 min_throt ++ le16 max_throt ++ le16 min_command
    ++ List.replicate 3 0 ++ List.replicate 3 0 ++ le16 0 ++ List.replicate 4 0
  msp_send w MSP_MISC data 20

def msp_send_fc_version (w : World) : World :=
  msp_send w MSP_FC_VERSION [1, 0, 0] 3

def msp_send_fc_variant (w : World) : World :=
  msp_send w MSP_FC_VARIANT (strncpy [68, 82, 79, 78] 4) 4

def msp_send_board_info (env : Env) (w : World) : World :=
  msp_send w MSP_BOARD_INFO (strncpy env.DRONIN_TARGET 4 ++ le16 0) 6

def msp_send_build_info (w : World) : World :=
  msp_send w MSP_BUILD_INFO (List.replicate 26 0) 26

def msp_send_uid (env : Env) (w : World) : World :=
  msp_send w MSP_UID (readBytes env.PIOS_SYS_SerialNumber 12) 12

def msp_send_api_version (w : World) : World :=
  msp_send w MSP_API_VERSION
    [MSP_PROTOCOL_VERSION, MSP_API_VERSION_MAJOR, MSP_API_VERSION_MINOR] 3

def msp_send_attitude (env : Env) (w : World) : World :=
  let x := f2i16 env (fmul env.AttitudeActual_Roll 10)
  let y := f2i16 env (fmul env.AttitudeActual_Pitch (-10))
  let h := f2i16 env env.AttitudeActual_Yaw
  msp_send w MSP_ATTITUDE (le16 x ++ le16 y ++ le16 h) 6

/-- The loop of `msp_send_status` over the rows from index `i` on, `boxes`
being the rows not yet visited. -/
def msp_send_status_loop (flightMode : Nat) : List msp_box → Nat → Nat → Nat
  | [], _, flags => flags
  | b :: rest, i, flags =>
    if b.mode = MSP_BOX_LAST then flags
    else msp_send_status_loop flightMode rest (i + 1)
      (if flightMode = b.tlmode then flags ||| (1 <<< i) else flags)

def msp_send_status (env : Env) (w : World) : World :=
  let cycleTime := 0
  let i2cErrors := 0
  let gpsStatus := if env.GPSPositionHandle then env.GPSPosition_Status else 0
  let sensors :=
    (if env.PIOS_SENSOR_ACCEL_registered then MSP_SENSOR_ACC else 0) |||
    (if env.PIOS_SENSOR_BARO_registered then MSP_SENSOR_BARO else 0) |||
    (if env.PIOS_SENSOR_MAG_registered then MSP_SENSOR_MAG else 0) |||
    (if gpsStatus ≠ env.GPSPOSITION_STATUS_NOGPS then MSP_SENSOR_GPS else 0)
  let setting := 0
  let flags :=
    if env.FlightStatusHandle then
      msp_send_status_loop env.FlightStatus_FlightMode ((msp_boxes env).drop 1) 1
        (if env.FlightStatus_Armed = env.FLIGHTSTATUS_ARMED_ARMED then 1 else 0)
    else 0
  msp_send w MSP_STATUS
    (le16 cycleTime ++ le16 i2cErrors ++ le16 sensors ++ le32 flags ++ [setting]) 11

def msp_send_analog (env : Env) (w : World) : World :=
  let powerMeterSum0 := 0
  let voltage := if env.FlightBatteryStateHandle then env.FlightBatteryState_Voltage else 0
  let current := if env.FlightBatteryStateHandle then env.FlightBatteryState_Current else 0
  let consumed :=
    if env.FlightBatteryStateHandle then env.FlightBatteryState_ConsumedEnergy else 0
  let voltagePin :=
    if env.FlightBatterySettingsHandle then env.FlightBatterySettings_VoltagePin else 0
  let currentPin :=
    if env.FlightBatterySettingsHandle then env.FlightBatterySettings_CurrentPin else 0
  let vbat :=
    if voltagePin ≠ env.FLIGHTBATTERYSETTINGS_VOLTAGEPIN_NONE then
      toBits 8 (lroundf env (fmul voltage 10))
    else env.stack_analog_vbat
  let cur :=
    if currentPin ≠ env.FLIGHTBATTERYSETTINGS_CURRENTPIN_NONE then
      toBits 16 (lroundf env (fmul current 100))
    else env.stack_analog_current
  let powerMeterSum :=
    if currentPin ≠ env.FLIGHTBATTERYSETTINGS_CURRENTPIN_NONE then
      toBits 16 (lroundf env consumed)
    else powerMeterSum0
  let rssi :=
    if env.ManualControlCommand_Rssi ≤ 0 then 0
    else if env.ManualControlCommand_Rssi ≥ 100 then 1023
    else toBits 16 (env.ManualControlCommand_Rssi * 10)
  msp_send w MSP_ANALOG ([vbat] ++ le16 powerMeterSum ++ le16 rssi ++ le16 cur) 7

def msp_send_raw_gps (env : Env) (w : World) : World :=
  let data :=
    if env.GPSPositionHandle then
      let fix := if env.GPSPosition_Status ≥ env.GPSPOSITION_STATUS_FIX2D then 1 else 0
      let num_sat := toBits 8 env.GPSPosition_Satellites
      let lat := toBits 32 env.GPSPosition_Latitude
      let lon := toBits 32 env.GPSPosition_Longitude
      let alt := f2u16 env env.GPSPosition_Altitude
      let speed := f2u16 env (fmul env.GPSPosition_Groundspeed 100)
      let ground_course := f2i16 env (fmul env.GPSPosition_Heading 10)
      [fix, num_sat] ++ le32 lat ++ le32 lon ++ le16 alt ++ le16 speed ++ le16 ground_course
    else
      [0, 0] ++ le32 0 ++ le32 0 ++ le16 0 ++ le16 0 ++ le16 0
  msp_send w MSP_RAW_GPS data 16

/-- The value an `int32_t` holds after an arithmetic result is stored in it. -/
def wrap32 (z : Int) : Int := (z + 2 ^ 31) % 2 ^ 32 - 2 ^ 31

def msp_send_comp_gps (env : Env) (w : World) : World :=
  let data :=
    if !env.GPSPositionHandle || !env.HomeLocationHandle then
      le16 0 ++ le16 0 ++ [0]
    else if env.GPSPosition_Status < env.GPSPOSITION_STATUS_FIX2D
        ∨ env.HomeLocation_Set = env.HOMELOCATION_SET_FALSE then
      le16 0 ++ le16 0 ++ [0]
    else
      let home_position_valid := 1
      let delta_lon := wrap32 (env.HomeLocation_Longitude - env.GPSPosition_Longitude)
      let delta_lat := wrap32 (env.HomeLocation_Latitude - env.GPSPosition_Latitude)
      let delta_y := fmul (fmul (roundF32 delta_lon) env.WGS84_RADIUS_EARTH_KM) env.DEG2RAD
      let delta_x := fmul (fmul (roundF32 delta_lat) env.WGS84_RADIUS_EARTH_KM) env.DEG2RAD
      let delta_y := fmul delta_y
        (env.cosf (fmul (fmul (roundF32 env.HomeLocation_Latitude) (roundF32 (1 / 10 ^ 7)))
          (roundF32 env.DEG2RAD)))
      let distance_to_home := f2u16 env
        (fmul (env.sqrtf (fmadd2 env delta_x delta_x delta_y delta_y))
          (roundF32 (1 / 10 ^ 4)))
      let direction_to_home :=
        if delta_lon = 0 ∧ delta_lat = 0 then 0
        else f2i16 env (fmul (env.atan2f delta_y delta_x) env.RAD2DEG)
      le16 distance_to_home ++ le16 direction_to_home ++ [home_position_valid]
  msp_send w MSP_COMP_GPS data 5

def msp_send_altitude (env : Env) (w : World) : World :=
  if env.PositionActualHandle then
    let tmp := -env.PositionActual_Down
    let alt := f2i32 env (roundf (fmul tmp 100))
    msp_send w MSP_ALTITUDE (le32 alt ++ le16 env.stack_altitude_vario) 6
  else w

def msp_scale_rc (env : Env) (percent : ℚ) : Nat :=
  f2u16 env (fmadd env percent 500 1500)

def msp_scale_rc_thr (env : Env) (percent : ℚ) : Nat :=
  f2u16 env (if percent ≤ 0 then 1100 else fmadd env percent 800 1100)

/-- The array `channels` that `msp_send_channels` fills. -/
def msp_channels (env : Env) : List Nat :=
  [ msp_scale_rc env env.ManualControlCommand_Roll,
    msp_scale_rc env (fmul env.ManualControlCommand_Pitch (-1)),
    msp_scale_rc env env.ManualControlCommand_Yaw,
    msp_scale_rc_thr env env.ManualControlCommand_Throttle,
    msp_scale_rc env env.ManualControlCommand_Accessory0,
    msp_scale_rc env env.ManualControlCommand_Accessory1,
    msp_scale_rc env env.ManualControlCommand_Accessory2,
    1000 ]

def msp_send_channels (env : Env) (w : World) : World :=
  msp_send w MSP_RC ((msp_channels env).flatMap le16) 16

/-- The loop of `msp_send_boxids`: the ids of the rows before the sentinel. -/
def msp_send_boxids_loop : List msp_box → List Nat
  | [] => []
  | b :: rest => if b.mode = MSP_BOX_LAST then [] else b.mwboxid :: msp_send_boxids_loop rest

def msp_send_boxids (env : Env) (w : World) : World :=
  let boxes := msp_send_boxids_loop (msp_boxes env)
  msp_send w MSP_BOXIDS boxes boxes.length

def msp_handle_4wif (w : World) : World :=
  let num_esc := 0
  let _protocol := if w.m.cmd_size ≥ 2 then w.m.cmd_data.getD 0 0 else PROTOCOL_4WAY
  msp_send w MSP_SET_4WAY_IF [num_esc] 1

def msp_send_alarms (env : Env) (w : World) : World :=
  if env.PIOS_Thread_Systime < BOOT_DISPLAY_TIME_MS then
    let state := ALARM_CRIT
    let boot_reason := env.AlarmBootReason env.SystemAlarms_RebootCause
    let msg := (strncpy boot_reason MAX_ALARM_LEN).set (MAX_ALARM_LEN - 1) 0
    msp_send w MSP_ALARMS ([state] ++ msg) (strlen msg + 1)
  else
    let state :=
      if env.AlarmString_state = env.SYSTEMALARMS_ALARM_WARNING then ALARM_WARN
      else if env.AlarmString_state = env.SYSTEMALARMS_ALARM_ERROR then ALARM_OK
      else if env.AlarmString_state = env.SYSTEMALARMS_ALARM_CRITICAL then ALARM_CRIT
      else ALARM_OK
    msp_send w MSP_ALARMS ([state] ++ readBytes env.AlarmString_msg MAX_ALARM_LEN)
      (env.AlarmString_len + 1)

/-! ## Dispatcher, parser and driver loop -/

def msp_state_checksum (env : Env) (w : World) (b : Nat) : World × msp_state :=
  if (w.m.checksum ^^^ b) ≠ 0 then (w, MSP_IDLE)
  else
    let id := w.m.cmd_id
    let w :=
      if id = MSP_API_VERSION then msp_send_api_version w
      else if id = MSP_FC_VERSION then msp_send_fc_version w
      else if id = MSP_FC_VARIANT then msp_send_fc_variant w
      else if id = MSP_BOARD_INFO then msp_send_board_info env w
      else if id = MSP_BUILD_INFO then msp_send_build_info w
      else if id = MSP_NAME then msp_send_name w
      else if id = MSP_FEATURE then msp_send_feature w
      else if id = MSP_UID then msp_send_uid env w
      else if id = MSP_MOTOR then msp_send_motor w
      else if id = MSP_RAW_GPS then msp_send_raw_gps env w
      else if id = MSP_COMP_GPS then msp_send_comp_gps env w
      else if id = MSP_ALTITUDE then msp_send_altitude env w
      else if id = MSP_ATTITUDE then msp_send_attitude env w
      else if id = MSP_STATUS then msp_send_status env w
      else if id = MSP_ANALOG then msp_send_analog env w
      else if id = MSP_RC then msp_send_channels env w
      else if id = MSP_MISC then msp_send_misc w
      else if id = MSP_BOXIDS then msp_send_boxids env w
      else if id = MSP_ALARMS then msp_send_alarms env w
      else if id = MSP_SET_4WAY_IF then msp_handle_4wif w
      else msp_send_error w id
    (w, MSP_IDLE)

/-- The assignment `m->state = s`. -/
def setState (w : World) (s : msp_state) : World :=
  { w with m := { w.m with state := s } }

/-- The assignment `m->state = f(m, b)` for a state function `f`. -/
def assignState (r : World × msp_state) : World := setState r.1 r.2

/-- One call of `msp_receive_byte`: the world afterwards and the value
returned, `true` when byte processing should go on. -/
def msp_receive_byte (env : Env) (w : World) (b : Nat) : World × Bool :=
  match w.m.state with
  | MSP_IDLE =>
    (setState w (if b = 60 then MSP_MAYBE_UAVTALK2
                 else if b = 36 then MSP_HEADER_START else MSP_IDLE), true)
  | MSP_HEADER_START => (setState w (if b = 77 then MSP_HEADER_M else MSP_IDLE), true)
  | MSP_HEADER_M => (setState w (if b = 60 then MSP_HEADER_SIZE else MSP_IDLE), true)
  | MSP_HEADER_SIZE => (assignState (msp_state_size w b), true)
  | MSP_HEADER_CMD => (assignState (msp_state_cmd w b), true)
  | MSP_FILLBUF => (assignState (msp_state_fill_buf w b), true)
  | MSP_CHECKSUM => (assignState (msp_state_checksum env w b), true)
  | MSP_DISCARD => (assignState (msp_state_discard w b), true)
  | MSP_MAYBE_UAVTALK2 =>
    (setState w (if b &&& 0xf0 = 0x20 then MSP_MAYBE_UAVTALK3 else MSP_IDLE), true)
  | MSP_MAYBE_UAVTALK3 => (setState w MSP_MAYBE_UAVTALK4, true)
  | MSP_MAYBE_UAVTALK4 =>
    let w := setState w MSP_IDLE
    if b &&& 0xf0 = 0 then ({ w with telem_rf := w.m.com }, false)
    else (w, true)

/-- The parser fed the bytes `bs` one call after the other, whatever the calls
return. -/
def feed (env : Env) (w : World) (bs : List Nat) : World :=
  bs.foldl (fun w b => (msp_receive_byte env w b).1) w

/-- The values returned by the successive calls of `msp_receive_byte` on `bs`. -/
def feedReturns (env : Env) : World → List Nat → List Bool
  | _, [] => []
  | w, b :: bs => (msp_receive_byte env w b).2 :: feedReturns env (msp_receive_byte env w b).1 bs

/-- What one call of `PIOS_COM_ReceiveBuffer(msp->com, &b, 1, 3000)` yields: a
count of zero after the wait, or one byte. -/
inductive Rx where
  | timeout
  | byte (b : Nat)
deriving DecidableEq, Repr

/-- The state of `uavoMSPBridgeTask`: the world, and whether the task has
entered its inner `while (1) PIOS_Thread_Sleep(60*1000)` loop. -/
structure Task where
  w : World
  parked : Bool
deriving DecidableEq, Repr

/-- One iteration of the outer loop of `uavoMSPBridgeTask`; once parked the
task never receives again. -/
def uavoMSPBridgeTask_step (env : Env) (t : Task) (rx : Rx) : Task :=
  if t.parked then t
  else
    match rx with
    | Rx.timeout => t
    | Rx.byte b =>
      let r := msp_receive_byte env t.w b
      { w := r.1, parked := !r.2 }

/-- The task run over a sequence of receive results. -/
def uavoMSPBridgeTask (env : Env) (t : Task) (rxs : List Rx) : Task :=
  rxs.foldl (uavoMSPBridgeTask_step env) t

/-- XOR of a byte sequence onto an initial value. -/
def xorAll (init : Nat) (p : List Nat) : Nat := p.foldl (fun a b => a ^^^ b) init

/-- An inbound frame: header, declared length, command, payload, checksum. -/
def inFrame (len cmd : Nat) (payload : List Nat) (cs : Nat) : List Nat :=
  [36, 77, 60, len, cmd] ++ payload ++ [cs]

/-- An outbound response frame for `cmd` carrying `payload`. -/
def outFrame (cmd : Nat) (payload : List Nat) : List Nat :=
  [36, 77, 62, payload.length, cmd] ++ payload ++ [xorAll (payload.length ^^^ cmd) payload]

/-- The 20 command ids that `msp_state_checksum` dispatches to an encoder. -/
def dispatched : List Nat :=
  [1, 2, 3, 4, 5, 10, 36, 101, 104, 105, 106, 107, 108, 109, 110, 114, 119, 160, 242, 245]

/-- The relation between the worlds before and after a piece of code that touches
the transport only: the later world is the earlier one with bytes appended to
what was sent. -/
def OnlySends (w w' : World) : Prop :=
  w'.m = w.m ∧ w'.telem_rf = w.telem_rf ∧ w'.stores = w.stores
    ∧ ∃ out, w'.sent = w.sent ++ out

/-- The bound that keeps `msp_state_fill_buf` inside the payload buffer: every
store made so far was below the capacity, and in `MSP_FILLBUF` the fill index
is below the declared length, itself at most the capacity. -/
def BufferSafe (w : World) : Prop :=
  (∀ i ∈ w.stores, i < sizeof_cmd_data)
    ∧ (w.m.state = MSP_FILLBUF → w.m.cmd_i < w.m.cmd_size ∧ w.m.cmd_size ≤ sizeof_cmd_data)

/-! ## Sample inputs -/

/-- A flight-data model with every source present and every reading zero; the
enumeration values are sample values, the C library functions are stand-ins. -/
def sampleEnv : Env :=
  { FP_CONTRACT := false
    FP_CONTRACT_SECOND_PRODUCT := false
    float_conversion_undefined := fun lo hi q => if q < lo then lo else hi
    LONG_MAX := 2147483647
    FLIGHTSTATUS_FLIGHTMODE_LEVELING := 2
    FLIGHTSTATUS_FLIGHTMODE_HORIZON := 3
    FLIGHTSTATUS_FLIGHTMODE_ALTITUDEHOLD := 8
    FLIGHTSTATUS_FLIGHTMODE_RETURNTOHOME := 10
    FLIGHTSTATUS_FLIGHTMODE_POSITIONHOLD := 9
    FLIGHTSTATUS_ARMED_ARMED := 2
    GPSPOSITION_STATUS_NOGPS := 0
    GPSPOSITION_STATUS_FIX2D := 2
    FLIGHTBATTERYSETTINGS_VOLTAGEPIN_NONE := 8
    FLIGHTBATTERYSETTINGS_CURRENTPIN_NONE := 8
    HOMELOCATION_SET_FALSE := 0
    SYSTEMALARMS_ALARM_WARNING := 2
    SYSTEMALARMS_ALARM_ERROR := 3
    SYSTEMALARMS_ALARM_CRITICAL := 4
    WGS84_RADIUS_EARTH_KM := 6371008 / 1000
    DEG2RAD := 314159265 / 18000000000
    RAD2DEG := 18000000000 / 314159265
    DRONIN_TARGET := [83, 112, 97, 114]
    cosf := fun _ => 1
    sqrtf := fun q => q
    atan2f := fun _ _ => 0
    PIOS_SYS_SerialNumber := List.replicate 12 0
    PIOS_Thread_Systime := 20000
    PIOS_SENSOR_ACCEL_registered := true
    PIOS_SENSOR_BARO_registered := true
    PIOS_SENSOR_MAG_registered := true
    AttitudeActual_Roll := 0
    AttitudeActual_Pitch := 0
    AttitudeActual_Yaw := 0
    GPSPositionHandle := true
    GPSPosition_Status := 3
    GPSPosition_Satellites := 7
    GPSPosition_Latitude := 0
    GPSPosition_Longitude := 0
    GPSPosition_Altitude := 0
    GPSPosition_Groundspeed := 0
    GPSPosition_Heading := 0
    HomeLocationHandle := true
    HomeLocation_Set := 1
    HomeLocation_Latitude := 0
    HomeLocation_Longitude := 0
    FlightStatusHandle := true
    FlightStatus_Armed := 0
    FlightStatus_FlightMode := 0
    FlightBatteryStateHandle := true
    FlightBatteryState_Voltage := 0
    FlightBatteryState_Current := 0
    FlightBatteryState_ConsumedEnergy := 0
    FlightBatterySettingsHandle := true
    FlightBatterySettings_VoltagePin := 0
    FlightBatterySettings_CurrentPin := 0
    ManualControlCommand_Roll := 0
    ManualControlCommand_Pitch := 0
    ManualControlCommand_Yaw := 0
    ManualControlCommand_Throttle := 0
    ManualControlCommand_Accessory0 := 0
    ManualControlCommand_Accessory1 := 0
    ManualControlCommand_Accessory2 := 0
    ManualControlCommand_Rssi := 0
    PositionActualHandle := true
    PositionActual_Down := 0
    SystemAlarms_RebootCause := 0
    AlarmBootReason := fun _ => [66, 111, 111, 116]
    AlarmString_msg := [0]
    AlarmString_len := 0
    AlarmString_state := 0
    stack_analog_vbat := 0
    stack_analog_current := 0
    stack_altitude_vario := 0 }

/-- The sample model without a position-estimate source. -/
def sampleEnvNoPosition : Env := { sampleEnv with PositionActualHandle := false }

/-- The sample model with the pitch stick at one half. -/
def sampleEnvPitchHalf : Env := { sampleEnv with ManualControlCommand_Pitch := 1 / 2 }

/-- The world at task start with port id 1 and an empty registry entry. -/
def sampleWorld : World := World.init 1 0

/-- A world in `MSP_CHECKSUM` holding a zero-length request for `MSP_IDENT`. -/
def sampleWorldIdent : World :=
  { sampleWorld with m := { sampleWorld.m with
      state := MSP_CHECKSUM, cmd_id := MSP_IDENT, checksum := MSP_IDENT } }

/-- The bytes handed to the transport between the worlds `w` and `w'`. -/
def sentBy (w w' : World) : List Nat := w'.sent.drop w.sent.length

/-- The payload bytes of an outbound frame: what lies between the five header
bytes and the checksum. -/
def framePayload (frame : List Nat) : List Nat := (frame.drop 5).dropLast

/-- The little-endian 16-bit field at offset `off`. -/
def u16le (bs : List Nat) (off : Nat) : Nat := bs.getD off 0 + 256 * bs.getD (off + 1) 0

/-- The little-endian 32-bit field at offset `off`. -/
def u32le (bs : List Nat) (off : Nat) : Nat :=
  bs.getD off 0 + 256 * bs.getD (off + 1) 0 + 65536 * bs.getD (off + 2) 0
    + 16777216 * bs.getD (off + 3) 0


/-- The sample model with an RSSI reading of 50. -/
def sampleEnvRssi50 : Env := { sampleEnv with ManualControlCommand_Rssi := 50 }

/-- The sample model with an RSSI reading of 150. -/
def sampleEnvRssi150 : Env := { sampleEnv with ManualControlCommand_Rssi := 150 }

/-- The sample model in the flight mode of the HORIZON box, disarmed. -/
def sampleEnvHorizon : Env := { sampleEnv with FlightStatus_FlightMode := 3 }

/-- The sample model with voltage sensing disabled and the byte 170 left on
the stack where `msp_send_analog` keeps its payload. -/
def sampleEnvNoVoltagePin : Env :=
  { sampleEnv with FlightBatterySettings_VoltagePin := 8, stack_analog_vbat := 170 }

/-- The sample model with current sensing disabled and the value 48879 left on
the stack where `msp_send_analog` keeps the current field of its payload. -/
def sampleEnvNoCurrentPin : Env :=
  { sampleEnv with FlightBatterySettings_CurrentPin := 8, stack_analog_current := 48879 }

/-- The sample model without a home-location source. -/
def sampleEnvNoHome : Env := { sampleEnv with HomeLocationHandle := false }

/-- The sample model with the vehicle and home at the same coordinates, away
from the origin. -/
def sampleEnvAtHome : Env :=
  { sampleEnv with GPSPosition_Latitude := 481234567, GPSPosition_Longitude := -1234567,
                   HomeLocation_Latitude := 481234567, HomeLocation_Longitude := -1234567,
                   sqrtf := fun q => if q = 0 then 0 else 1 }

/-- The sample model without a GPS source. -/
def sampleEnvNoGps : Env := { sampleEnv with GPSPositionHandle := false }

/-- The sample model after the boot window with `AlarmString` reporting the
ERROR state and the text "E". -/
def sampleEnvAlarmError : Env :=
  { sampleEnv with AlarmString_state := 3, AlarmString_msg := [69, 0], AlarmString_len := 1 }

/-- The sample model inside the boot window, the boot reason being "Boot". -/
def sampleEnvBooting : Env := { sampleEnv with PIOS_Thread_Systime := 5000 }

/-- A world in the parser state `s`, otherwise as at task start. -/
def sampleWorldIn (s : msp_state) : World :=
  { sampleWorld with m := { sampleWorld.m with state := s } }

/-- The states the parser is in while it is inside a frame: after `'$'` and
before the byte that ends the frame. -/
def inFrameStates : List msp_state :=
  [MSP_HEADER_START, MSP_HEADER_M, MSP_HEADER_SIZE, MSP_HEADER_CMD, MSP_FILLBUF, MSP_CHECKSUM,
    MSP_DISCARD]

/-- A lower bound on the number of calls of `msp_receive_byte` that must be
made from a state before a call can send: sending happens in `MSP_CHECKSUM`
only, which is five bytes away from `MSP_IDLE`. -/
def sendDistance : msp_state → Nat
  | MSP_CHECKSUM => 0
  | MSP_FILLBUF => 1
  | MSP_HEADER_CMD => 1
  | MSP_HEADER_SIZE => 2
  | MSP_HEADER_M => 3
  | MSP_HEADER_START => 4
  | MSP_IDLE => 5
  | MSP_DISCARD => 6
  | MSP_MAYBE_UAVTALK2 => 6
  | MSP_MAYBE_UAVTALK3 => 7
  | MSP_MAYBE_UAVTALK4 => 6

/-- The sample model in flight mode 0, disarmed. -/
def sampleEnvModeZero : Env := { sampleEnv with FlightStatus_FlightMode := 0 }

/-- The sample model in a flight mode that is no predicate of the Box Table,
armed. -/
def sampleEnvModeOther : Env :=
  { sampleEnv with FlightStatus_FlightMode := 1, FlightStatus_Armed := 2 }

/-- The sample model in a build that contracts `a * b + c` into a fused
multiply-add. -/
def sampleEnvFused : Env := { sampleEnv with FP_CONTRACT := true }

/-- The sample model with a position estimate 1.25 m above the origin. -/
def sampleEnvDown : Env := { sampleEnv with PositionActual_Down := -5 / 4 }

/-- The sample model with the position estimate at the binary32 value nearest
to 5 mm above the origin, `5368709 / 2 ^ 30`. -/
def sampleEnvHalfCm : Env :=
  { sampleEnv with PositionActual_Down := -5368709 / 1073741824 }

/-! ## Lemmas on the codec -/

theorem readBytes_length (buf : List Nat) (len : Nat) : (readBytes buf len).length = len := by
  simp [readBytes]

theorem readBytes_self (p : List Nat) : readBytes p p.length = p := by
  apply List.ext_getElem
  · simp [readBytes]
  · intro i h1 h2
    simp [readBytes, List.getD_eq_getElem?_getD, List.getElem?_eq_getElem h2]

theorem msp_send_loop_eq (data : List Nat) (len cs : Nat) :
    msp_send_loop data len cs = xorAll cs (readBytes data len) := by
  simp [msp_send_loop, xorAll, readBytes, List.foldl_map]

theorem msp_send_sent (w : World) (cmd : Nat) (data : List Nat) (len : Nat) :
    (msp_send w cmd data len).sent
      = w.sent ++ ([36, 77, 62, len % 256, cmd] ++ readBytes data len
          ++ [xorAll ((len % 256) ^^^ cmd) (readBytes data len)]) := by
  simp [msp_send, PIOS_COM_SendBuffer, msp_send_loop_eq, readBytes, List.range_succ]

theorem msp_send_rest (w : World) (cmd : Nat) (data : List Nat) (len : Nat) :
    (msp_send w cmd data len).m = w.m ∧ (msp_send w cmd data len).telem_rf = w.telem_rf
      ∧ (msp_send w cmd data len).stores = w.stores := by
  simp [msp_send, PIOS_COM_SendBuffer]

theorem msp_send_isFrame (w : World) (cmd : Nat) (data : List Nat) (len : Nat)
    (h : len ≤ 255) :
    ∃ p, p.length ≤ 255 ∧ (msp_send w cmd data len).sent = w.sent ++ outFrame cmd p := by
  refine ⟨readBytes data len, by simpa [readBytes_length] using h, ?_⟩
  have h256 : len % 256 = len := Nat.mod_eq_of_lt (by omega)
  rw [msp_send_sent, outFrame, readBytes_length, h256]

/-! ## Lemmas on the parser -/

theorem feed_append (env : Env) (w : World) (a b : List Nat) :
    feed env w (a ++ b) = feed env (feed env w a) b := by
  simp [feed, List.foldl_append]

theorem feed_cons (env : Env) (w : World) (a : Nat) (bs : List Nat) :
    feed env w (a :: bs) = feed env (msp_receive_byte env w a).1 bs := by
  simp [feed]

theorem feed_nil (env : Env) (w : World) : feed env w [] = w := rfl

/-- The world after the five header bytes of a frame, fed from `MSP_IDLE`. -/
theorem feed_header (env : Env) (w : World) (L c : Nat) (h : w.m.state = MSP_IDLE) :
    feed env w [36, 77, 60, L, c]
      = { w with m := { w.m with
            state := if L > sizeof_cmd_data then MSP_DISCARD
                     else if L = 0 then MSP_CHECKSUM else MSP_FILLBUF,
            cmd_size := L, cmd_id := c, cmd_i := 0, checksum := L ^^^ c } } := by
  simp [feed, msp_receive_byte, h, setState, assignState, msp_state_size, msp_state_cmd]

/-- Header and payload of a frame that fits the buffer leave the parser in
`MSP_CHECKSUM` with the frame's fields in the session and nothing sent. -/
theorem feed_to_checksum (env : Env) (w : World) (L c : Nat) (payload : List Nat)
    (h : w.m.state = MSP_IDLE) (hL : L ≤ sizeof_cmd_data) (hp : payload.length = L) :
    (feed env w ([36, 77, 60, L, c] ++ payload)).m.state = MSP_CHECKSUM
      ∧ (feed env w ([36, 77, 60, L, c] ++ payload)).m.cmd_id = c
      ∧ (feed env w ([36, 77, 60, L, c] ++ payload)).m.cmd_size = L
      ∧ (feed env w ([36, 77, 60, L, c] ++ payload)).m.checksum = xorAll (L ^^^ c) payload
      ∧ (feed env w ([36, 77, 60, L, c] ++ payload)).m.cmd_data
          = (List.range L).foldl (fun buf i => buf.set i (payload.getD i 0)) w.m.cmd_data
      ∧ (feed env w ([36, 77, 60, L, c] ++ payload)).m.com = w.m.com
      ∧ (feed env w ([36, 77, 60, L, c] ++ payload)).sent = w.sent
      ∧ (feed env w ([36, 77, 60, L, c] ++ payload)).telem_rf = w.telem_rf := by
  rw [feed_append, feed_header env w L c h]
  have hL2 : L = 0 ∨ L = 1 ∨ L = 2 := by simp [sizeof_cmd_data] at hL; omega
  rcases hL2 with rfl | rfl | rfl
  · have : payload = [] := List.length_eq_zero.mp hp
    subst this
    simp [feed, sizeof_cmd_data, xorAll]
  · obtain ⟨a, rfl⟩ := List.length_eq_one.mp hp
    simp [feed, sizeof_cmd_data, xorAll, msp_receive_byte, setState, assignState,
      msp_state_fill_buf, List.range_succ]
  · obtain ⟨a, b, rfl⟩ := List.length_eq_two.mp hp
    simp [feed, sizeof_cmd_data, xorAll, msp_receive_byte, setState, assignState,
      msp_state_fill_buf, List.range_succ]

/-- A checksum byte that differs from the accumulator drops the frame. -/
theorem checksum_mismatch (env : Env) (w : World) (b : Nat)
    (hs : w.m.state = MSP_CHECKSUM) (hb : b ≠ w.m.checksum) :
    msp_receive_byte env w b = (setState w MSP_IDLE, true) := by
  have hx : w.m.checksum ^^^ b ≠ 0 := fun h0 => hb (Nat.xor_eq_zero.mp h0).symm
  simp [msp_receive_byte, hs, assignState, msp_state_checksum, hx]

/-- A checksum byte equal to the accumulator runs the dispatcher. -/
theorem checksum_match (env : Env) (w : World) (hs : w.m.state = MSP_CHECKSUM) :
    msp_receive_byte env w w.m.checksum
      = (setState (msp_state_checksum env w w.m.checksum).1 MSP_IDLE, true) := by
  simp [msp_receive_byte, hs, assignState, msp_state_checksum]

/-- The dispatcher's output for a command id outside the dispatched ones. -/
theorem dispatch_unsupported (env : Env) (w : World) (hx : w.m.cmd_id ∉ dispatched) :
    (msp_state_checksum env w w.m.checksum).1
      = { w with sent := w.sent ++ [36, 77, 124, 0, w.m.cmd_id, w.m.cmd_id] } := by
  simp [dispatched] at hx
  simp [msp_state_checksum, MSP_API_VERSION, MSP_FC_VERSION, MSP_FC_VARIANT, MSP_BOARD_INFO,
    MSP_BUILD_INFO, MSP_NAME, MSP_FEATURE, MSP_UID, MSP_MOTOR, MSP_RAW_GPS, MSP_COMP_GPS,
    MSP_ALTITUDE, MSP_ATTITUDE, MSP_STATUS, MSP_ANALOG, MSP_RC, MSP_MISC, MSP_BOXIDS,
    MSP_ALARMS, MSP_SET_4WAY_IF, hx, msp_send_error, PIOS_COM_SendBuffer, readBytes,
    List.range_succ]


theorem strncpy_length (src : List Nat) (n : Nat) : (strncpy src n).length = n := by
  simp [strncpy]

theorem strlen_le_of_zero : ∀ (buf : List Nat) (i : Nat), buf.getD i 1 = 0 → strlen buf ≤ i
  | [], _, _ => by simp [strlen]
  | a :: t, 0, h => by
    have ha : a = 0 := by simpa using h
    simp [strlen, ha]
  | a :: t, j + 1, h => by
    have ht : strlen t ≤ j := strlen_le_of_zero t j (by simpa using h)
    by_cases ha : a = 0
    · simp [strlen, ha]
    · simp only [strlen] at ht ⊢
      simp [List.takeWhile_cons, ha]
      omega

/-- The boot-window alarm message never fills the whole buffer: its last byte
is the terminator written by the encoder. -/
theorem strlen_boot_msg (src : List Nat) :
    strlen ((strncpy src MAX_ALARM_LEN).set (MAX_ALARM_LEN - 1) 0) ≤ MAX_ALARM_LEN - 1 := by
  apply strlen_le_of_zero
  have hl := strncpy_length src MAX_ALARM_LEN
  simp [MAX_ALARM_LEN] at hl ⊢
  simp [List.getD_eq_getElem?_getD, List.getElem?_set, hl]

/-- Every encoder but the altitude one without a position source hands exactly
one frame for its command to the transport. -/
theorem dispatch_supported (env : Env) (w : World) (hc : w.m.cmd_id ∈ dispatched)
    (halt : w.m.cmd_id = MSP_ALTITUDE → env.PositionActualHandle = true)
    (halarm : env.AlarmString_len < MAX_ALARM_LEN) :
    ∃ p, p.length ≤ 255
      ∧ (msp_state_checksum env w w.m.checksum).1.sent = w.sent ++ outFrame w.m.cmd_id p := by
  have hb := strlen_boot_msg (env.AlarmBootReason env.SystemAlarms_RebootCause)
  have hname : strlen [100, 82, 111, 110, 105, 110, 0] = 6 := by decide
  have hbox : (msp_send_boxids_loop (msp_boxes env)).length = 8 := by
    simp [msp_send_boxids_loop, msp_boxes, MSP_BOX_ARM, MSP_BOX_ANGLE, MSP_BOX_HORIZON,
      MSP_BOX_BARO, MSP_BOX_VARIO, MSP_BOX_MAG, MSP_BOX_GPSHOME, MSP_BOX_GPSHOLD, MSP_BOX_LAST]
  simp only [MAX_ALARM_LEN] at halarm hb
  simp only [dispatched, List.mem_cons, List.mem_singleton, List.not_mem_nil, or_false] at hc
  rcases hc with h | h | h | h | h | h | h | h | h | h | h | h | h | h | h | h | h | h | h | h
  all_goals
    simp only [h, MSP_ALTITUDE] at halt ⊢
    simp only [msp_state_checksum, Nat.xor_self, ne_eq, not_true_eq_false, if_false, h,
      MSP_API_VERSION, MSP_FC_VERSION, MSP_FC_VARIANT, MSP_BOARD_INFO,
      MSP_BUILD_INFO, MSP_NAME, MSP_FEATURE, MSP_UID, MSP_MOTOR, MSP_RAW_GPS, MSP_COMP_GPS,
      MSP_ALTITUDE, MSP_ATTITUDE, MSP_STATUS, MSP_ANALOG, MSP_RC, MSP_MISC, MSP_BOXIDS,
      MSP_ALARMS, MSP_SET_4WAY_IF, if_true, Nat.reduceEqDiff, ↓reduceIte,
      msp_send_api_version, msp_send_fc_version, msp_send_fc_variant, msp_send_board_info,
      msp_send_build_info, msp_send_name, msp_send_feature, msp_send_uid, msp_send_motor,
      msp_send_raw_gps, msp_send_comp_gps, msp_send_altitude, msp_send_attitude,
      msp_send_status, msp_send_analog, msp_send_channels, msp_send_misc, msp_send_boxids,
      msp_send_alarms, msp_handle_4wif, MAX_ALARM_LEN]
    first
      | (refine msp_send_isFrame _ _ _ _ ?_
         omega)
      | (have hh := halt trivial
         simp only [hh, if_true]
         refine msp_send_isFrame _ _ _ _ ?_
         omega)
      | (split <;> (refine msp_send_isFrame _ _ _ _ ?_; omega))

theorem onlySends_refl (w : World) : OnlySends w w :=
  ⟨rfl, rfl, rfl, [], by simp⟩

theorem onlySends_send (w : World) (cmd : Nat) (data : List Nat) (len : Nat) :
    OnlySends w (msp_send w cmd data len) := by
  obtain ⟨h1, h2, h3⟩ := msp_send_rest w cmd data len
  exact ⟨h1, h2, h3, _, msp_send_sent w cmd data len⟩

theorem onlySends_error (w : World) (cmd : Nat) : OnlySends w (msp_send_error w cmd) :=
  ⟨rfl, rfl, rfl, _, rfl⟩

theorem onlySends_ite (w a b : World) (c : Prop) [Decidable c]
    (ha : OnlySends w a) (hb : OnlySends w b) : OnlySends w (if c then a else b) := by
  split <;> assumption

/-- The dispatcher only sends: the session, the registry and the record of
buffer stores are unchanged. -/
theorem msp_state_checksum_onlySends (env : Env) (w : World) (b : Nat) :
    OnlySends w (msp_state_checksum env w b).1 := by
  unfold msp_state_checksum
  by_cases hb : (w.m.checksum ^^^ b) ≠ 0
  · rw [if_pos hb]
    exact onlySends_refl _
  · rw [if_neg hb]
    dsimp only
    repeat' apply onlySends_ite
    all_goals first
      | exact onlySends_refl _
      | exact onlySends_send _ _ _ _
      | exact onlySends_error _ _

theorem msp_state_checksum_snd (env : Env) (w : World) (b : Nat) :
    (msp_state_checksum env w b).2 = MSP_IDLE := by
  unfold msp_state_checksum
  by_cases hb : (w.m.checksum ^^^ b) ≠ 0
  · rw [if_pos hb]
  · rw [if_neg hb]


/-- The last byte of a frame that fits the buffer is examined in
`MSP_CHECKSUM`: feeding the whole frame is feeding header and payload and then
one call on the checksum byte. -/
theorem feed_inFrame (env : Env) (w : World) (L c : Nat) (payload : List Nat) (cs : Nat) :
    feed env w (inFrame L c payload cs)
      = (msp_receive_byte env (feed env w ([36, 77, 60, L, c] ++ payload)) cs).1 := by
  rw [inFrame, feed_append]
  rfl

/-- One call of `msp_receive_byte` keeps the buffer bound. -/
theorem bufferSafe_step (env : Env) (w : World) (b : Nat) (h : BufferSafe w) :
    BufferSafe (msp_receive_byte env w b).1 := by
  obtain ⟨hst, hfill⟩ := h
  unfold msp_receive_byte
  split
  case h_7 hs =>
    obtain ⟨hm, -, hstores, -⟩ := msp_state_checksum_onlySends env w b
    refine ⟨?_, ?_⟩
    · simpa [assignState, setState, hstores] using hst
    · simp [assignState, setState, msp_state_checksum_snd]
  case h_6 hs =>
    obtain ⟨hi, hsz⟩ := hfill hs
    have hlt : (w.m.cmd_i + 1) % 256 = w.m.cmd_i + 1 :=
      Nat.mod_eq_of_lt (by simp [sizeof_cmd_data] at hsz; omega)
    refine ⟨?_, ?_⟩
    · intro i hi'
      simp only [assignState, setState, msp_state_fill_buf, List.mem_append,
        List.mem_singleton] at hi'
      rcases hi' with hi' | rfl
      · exact hst i hi'
      · omega
    · simp only [assignState, setState, msp_state_fill_buf, hlt]
      split_ifs with heq
      · simp
      · intro _
        exact ⟨by omega, hsz⟩
  case h_5 hs =>
    refine ⟨by simpa [assignState, setState, msp_state_cmd] using hst, ?_⟩
    simp only [assignState, setState, msp_state_cmd]
    split_ifs with h1 h2
    · simp
    · simp
    · intro _
      exact ⟨by omega, by omega⟩
  case h_11 hs =>
    split_ifs
    · exact ⟨by simpa [setState] using hst, by simp [setState]⟩
    · exact ⟨by simpa [setState] using hst, by simp [setState]⟩
  all_goals
    refine ⟨by simpa [assignState, setState, msp_state_size, msp_state_discard] using hst, ?_⟩
    simp only [assignState, setState, msp_state_size, msp_state_discard]
    try split_ifs
    all_goals simp

/-- The buffer bound holds along every byte sequence. -/
theorem bufferSafe_feed (env : Env) (bs : List Nat) :
    ∀ w, BufferSafe w → BufferSafe (feed env w bs) := by
  induction bs with
  | nil => intro w h; exact h
  | cons b bs ih =>
    intro w h
    rw [feed_cons]
    exact ih _ (bufferSafe_step env w b h)

/-- A parked task ignores whatever the transport delivers. -/
theorem task_parked (env : Env) (rxs : List Rx) :
    ∀ t, t.parked = true → uavoMSPBridgeTask env t rxs = t := by
  induction rxs with
  | nil => intro t _; rfl
  | cons rx rxs ih =>
    intro t ht
    have hstep : uavoMSPBridgeTask_step env t rx = t := by
      simp [uavoMSPBridgeTask_step, ht]
    simp only [uavoMSPBridgeTask, List.foldl_cons, hstep]
    exact ih t ht

theorem task_append (env : Env) (t : Task) (a b : List Rx) :
    uavoMSPBridgeTask env t (a ++ b) = uavoMSPBridgeTask env (uavoMSPBridgeTask env t a) b := by
  simp [uavoMSPBridgeTask, List.foldl_append]

/-- While in `MSP_DISCARD` with room left before the declared length, bytes
only advance the counter. -/
theorem feed_discard (env : Env) (bs : List Nat) :
    ∀ w, w.m.state = MSP_DISCARD → w.m.cmd_i + bs.length ≤ w.m.cmd_size →
      w.m.cmd_size ≤ 255 →
      feed env w bs = { w with m := { w.m with cmd_i := w.m.cmd_i + bs.length } } := by
  induction bs with
  | nil => intro w _ _ _; rfl
  | cons b bs ih =>
    intro w hs hlen h255
    simp only [List.length_cons] at hlen
    have hmod : (w.m.cmd_i + 1) % 256 = w.m.cmd_i + 1 := Nat.mod_eq_of_lt (by omega)
    have hne : w.m.cmd_i ≠ w.m.cmd_size := by omega
    have hstep : (msp_receive_byte env w b).1
        = { w with m := { w.m with cmd_i := w.m.cmd_i + 1 } } := by
      simp [msp_receive_byte, hs, assignState, setState, msp_state_discard, hmod, hne]
    rw [feed_cons, hstep, ih _ (by simpa using hs) (by simp; omega) (by simpa using h255)]
    simp [Nat.add_assoc, Nat.add_comm 1]

/-- From `MSP_DISCARD` with the counter at zero, the payload and one more byte
bring the parser back to `MSP_IDLE`, and only state and counter change. -/
theorem feed_discard_all (env : Env) (w : World) (payload : List Nat) (cs : Nat)
    (hs : w.m.state = MSP_DISCARD) (h0 : w.m.cmd_i = 0) (hp : payload.length = w.m.cmd_size)
    (h255 : w.m.cmd_size ≤ 255) :
    feed env w (payload ++ [cs])
      = { w with m := { w.m with state := MSP_IDLE, cmd_i := (w.m.cmd_size + 1) % 256 } } := by
  rw [feed_append, feed_discard env payload w hs (by omega) h255, h0, Nat.zero_add, hp]
  simp [feed, msp_receive_byte, hs, assignState, setState, msp_state_discard]

/-! ## Lemmas on single-precision rounding -/

theorem roundHalfEven_intCast (z : ℤ) : roundHalfEven (z : ℚ) = z := by
  simp [roundHalfEven]

theorem roundHalfEven_bounds (q : ℚ) :
    (roundHalfEven q : ℚ) - 1 / 2 ≤ q ∧ q ≤ roundHalfEven q + 1 / 2 := by
  have h1 := Int.floor_le q
  have h2 := Int.lt_floor_add_one q
  unfold roundHalfEven
  simp only []
  split_ifs <;> push_cast <;> constructor <;> linarith

theorem roundHalfEven_mono {a b : ℚ} (h : a ≤ b) : roundHalfEven a ≤ roundHalfEven b := by
  by_contra hlt
  push_neg at hlt
  have h1 : roundHalfEven b + 1 ≤ roundHalfEven a := hlt
  have h1q : (roundHalfEven b : ℚ) + 1 ≤ roundHalfEven a := by exact_mod_cast h1
  obtain ⟨ha1, -⟩ := roundHalfEven_bounds a
  obtain ⟨-, hb2⟩ := roundHalfEven_bounds b
  have hab : a = b := le_antisymm h (by linarith)
  subst hab
  exact lt_irrefl _ hlt

theorem ulpF32_pos (q : ℚ) : 0 < ulpF32 q := by
  unfold ulpF32
  exact zpow_pos (by norm_num) _

theorem abs_lt_two_zpow_expF32 (q : ℚ) : |q| < (2 : ℚ) ^ (expF32 q + 1) := by
  have h := Int.lt_zpow_succ_log_self (b := 2) (by norm_num) |q|
  have hle : (2 : ℚ) ^ (Int.log 2 |q| + 1) ≤ (2 : ℚ) ^ (expF32 q + 1) :=
    zpow_le_zpow_right₀ (by norm_num) (by unfold expF32; omega)
  have h' : |q| < (2 : ℚ) ^ (Int.log 2 |q| + 1) := by simpa using h
  exact lt_of_lt_of_le h' hle

theorem two_zpow_expF32_le (q : ℚ) (hq : q ≠ 0) (h : -126 ≤ Int.log 2 |q|) :
    (2 : ℚ) ^ expF32 q ≤ |q| := by
  have h1 := Int.zpow_log_le_self (b := 2) (r := |q|) (by norm_num) (abs_pos.mpr hq)
  have he : expF32 q = Int.log 2 |q| := max_eq_left h
  rw [he]
  simpa using h1

theorem expF32_mono {a b : ℚ} (ha : a ≠ 0) (h : |a| ≤ |b|) : expF32 a ≤ expF32 b := by
  unfold expF32
  exact max_le_max (Int.log_mono_right (abs_pos.mpr ha) h) le_rfl

/-- A grid point of the binade of `q` that lies above `q` lies above its rounding. -/
theorem roundF32_le_grid (q : ℚ) (m : ℤ) (h : q ≤ m * ulpF32 q) :
    roundF32 q ≤ m * ulpF32 q := by
  have hu := ulpF32_pos q
  have h1 : q / ulpF32 q ≤ (m : ℚ) := by rwa [div_le_iff₀ hu]
  have h2 := roundHalfEven_mono h1
  rw [roundHalfEven_intCast] at h2
  unfold roundF32
  exact mul_le_mul_of_nonneg_right (by exact_mod_cast h2) hu.le

/-- A grid point of the binade of `q` that lies below `q` lies below its rounding. -/
theorem grid_le_roundF32 (q : ℚ) (m : ℤ) (h : m * ulpF32 q ≤ q) :
    m * ulpF32 q ≤ roundF32 q := by
  have hu := ulpF32_pos q
  have h1 : (m : ℚ) ≤ q / ulpF32 q := by rwa [le_div_iff₀ hu]
  have h2 := roundHalfEven_mono h1
  rw [roundHalfEven_intCast] at h2
  unfold roundF32
  exact mul_le_mul_of_nonneg_right (by exact_mod_cast h2) hu.le

theorem two_zpow_succ_eq (q : ℚ) : (2 : ℚ) ^ (expF32 q + 1) = ((2 ^ 24 : ℤ) : ℚ) * ulpF32 q := by
  unfold ulpF32
  have : expF32 q + 1 = (24 : ℤ) + (expF32 q - 23) := by ring
  rw [this, zpow_add₀ (by norm_num)]
  norm_num

theorem two_zpow_eq (q : ℚ) : (2 : ℚ) ^ expF32 q = ((2 ^ 23 : ℤ) : ℚ) * ulpF32 q := by
  unfold ulpF32
  have : expF32 q = (23 : ℤ) + (expF32 q - 23) := by ring
  nth_rewrite 1 [this]
  rw [zpow_add₀ (by norm_num)]
  norm_num


theorem roundF32_nonneg {q : ℚ} (h : 0 ≤ q) : 0 ≤ roundF32 q := by
  have := grid_le_roundF32 q 0 (by simpa using h)
  simpa using this

theorem roundF32_nonpos {q : ℚ} (h : q ≤ 0) : roundF32 q ≤ 0 := by
  have := roundF32_le_grid q 0 (by simpa using h)
  simpa using this

/-- Rounding within one binade is monotone. -/
theorem roundF32_mono_same {a b : ℚ} (h : a ≤ b) (he : expF32 a = expF32 b) :
    roundF32 a ≤ roundF32 b := by
  have hu := ulpF32_pos b
  have hub : ulpF32 a = ulpF32 b := by unfold ulpF32; rw [he]
  unfold roundF32
  rw [hub]
  have h1 : a / ulpF32 b ≤ b / ulpF32 b := div_le_div_of_nonneg_right h hu.le
  exact mul_le_mul_of_nonneg_right (by exact_mod_cast roundHalfEven_mono h1) hu.le

/-- Single-precision rounding is monotone. -/
theorem roundF32_mono {a b : ℚ} (h : a ≤ b) : roundF32 a ≤ roundF32 b := by
  by_cases hab : a ≤ 0 ∧ 0 ≤ b
  · exact le_trans (roundF32_nonpos hab.1) (roundF32_nonneg hab.2)
  · by_cases ha : 0 < a
    · -- both positive
      have hb : 0 < b := lt_of_lt_of_le ha h
      have hexp : expF32 a ≤ expF32 b :=
        expF32_mono ha.ne' (by rw [abs_of_pos ha, abs_of_pos hb]; exact h)
      rcases hexp.eq_or_lt with he | hlt
      · exact roundF32_mono_same h he
      · have hlog : -126 ≤ Int.log 2 |b| := by
          have h126 : -126 ≤ expF32 a := by unfold expF32; exact le_max_right _ _
          have : expF32 b = Int.log 2 |b| := by
            unfold expF32 at hlt ⊢
            apply max_eq_left
            by_contra hcon
            push_neg at hcon
            rw [max_eq_right hcon.le] at hlt
            omega
          omega
        have hup : roundF32 a ≤ (2 : ℚ) ^ (expF32 a + 1) := by
          rw [two_zpow_succ_eq]
          apply roundF32_le_grid
          rw [← two_zpow_succ_eq]
          have := abs_lt_two_zpow_expF32 a
          rw [abs_of_pos ha] at this
          exact this.le
        have hlo : (2 : ℚ) ^ expF32 b ≤ roundF32 b := by
          rw [two_zpow_eq]
          apply grid_le_roundF32
          rw [← two_zpow_eq]
          have := two_zpow_expF32_le b hb.ne' hlog
          rwa [abs_of_pos hb] at this
        have hmid : (2 : ℚ) ^ (expF32 a + 1) ≤ (2 : ℚ) ^ expF32 b :=
          zpow_le_zpow_right₀ (by norm_num) (by omega)
        linarith
    · -- both negative
      have ha' : a ≤ 0 := not_lt.mp ha
      have hb : b < 0 := by
        by_contra hcon
        exact hab ⟨ha', not_lt.mp hcon⟩
      have ha'' : a < 0 := lt_of_le_of_lt h hb
      have hexp : expF32 b ≤ expF32 a :=
        expF32_mono hb.ne (by rw [abs_of_neg ha'', abs_of_neg hb]; linarith)
      rcases hexp.eq_or_lt with he | hlt
      · exact roundF32_mono_same h he.symm
      · have hlog : -126 ≤ Int.log 2 |a| := by
          have h126 : -126 ≤ expF32 b := by unfold expF32; exact le_max_right _ _
          have : expF32 a = Int.log 2 |a| := by
            unfold expF32 at hlt ⊢
            apply max_eq_left
            by_contra hcon
            push_neg at hcon
            rw [max_eq_right hcon.le] at hlt
            omega
          omega
        have hlo : -(2 : ℚ) ^ (expF32 b + 1) ≤ roundF32 b := by
          have h2 : -(2 : ℚ) ^ (expF32 b + 1) = ((-(2 ^ 24) : ℤ) : ℚ) * ulpF32 b := by
            rw [two_zpow_succ_eq]; push_cast; ring
          rw [h2]
          apply grid_le_roundF32
          rw [← h2]
          have := abs_lt_two_zpow_expF32 b
          rw [abs_of_neg hb] at this
          linarith
        have hup : roundF32 a ≤ -(2 : ℚ) ^ expF32 a := by
          have h2 : -(2 : ℚ) ^ expF32 a = ((-(2 ^ 23) : ℤ) : ℚ) * ulpF32 a := by
            rw [two_zpow_eq]; push_cast; ring
          rw [h2]
          apply roundF32_le_grid
          rw [← h2]
          have := two_zpow_expF32_le a ha''.ne hlog
          rw [abs_of_neg ha''] at this
          linarith
        have hmid : (2 : ℚ) ^ (expF32 b + 1) ≤ (2 : ℚ) ^ expF32 a :=
          zpow_le_zpow_right₀ (by norm_num) (by omega)
        linarith

/-- A number with a significand below `2 ^ 24` and an exponent of at least
`-149` is a binary32 value: rounding leaves it unchanged. -/
theorem roundF32_exact (m k : ℤ) (hm : |m| < 2 ^ 24) (hk : -149 ≤ k) :
    roundF32 (m * (2 : ℚ) ^ k) = m * (2 : ℚ) ^ k := by
  by_cases hm0 : m = 0
  · subst hm0
    simp [roundF32, roundHalfEven]
  · have h2 : (2 : ℚ) ≠ 0 := by norm_num
    have hq : (m : ℚ) * (2 : ℚ) ^ k ≠ 0 :=
      mul_ne_zero (by exact_mod_cast hm0) (zpow_ne_zero _ h2)
    have habs : |(m : ℚ) * (2 : ℚ) ^ k| < (2 : ℚ) ^ (24 + k) := by
      rw [abs_mul, abs_of_pos (zpow_pos (by norm_num : (0 : ℚ) < 2) k), zpow_add₀ h2]
      apply mul_lt_mul_of_pos_right _ (zpow_pos (by norm_num) k)
      have : ((|m| : ℤ) : ℚ) < ((2 ^ 24 : ℤ) : ℚ) := by exact_mod_cast hm
      push_cast at this
      norm_num
      exact this
    have hlog : Int.log 2 |(m : ℚ) * (2 : ℚ) ^ k| < 24 + k := by
      have := (Int.lt_zpow_iff_log_lt (b := 2) (by norm_num) (abs_pos.mpr hq)
        (x := 24 + k)).mp (by simpa using habs)
      exact this
    have he : expF32 (m * (2 : ℚ) ^ k) - 23 ≤ k := by
      unfold expF32
      have := max_le (show Int.log 2 |(m : ℚ) * (2 : ℚ) ^ k| ≤ 23 + k by omega)
        (show (-126 : ℤ) ≤ 23 + k by omega)
      omega
    obtain ⟨j, hj⟩ : ∃ j : ℕ, k = (expF32 (m * (2 : ℚ) ^ k) - 23) + j :=
      ⟨(k - (expF32 (m * (2 : ℚ) ^ k) - 23)).toNat, by omega⟩
    have hdiv : (m : ℚ) * (2 : ℚ) ^ k / ulpF32 (m * (2 : ℚ) ^ k) = ((m * 2 ^ j : ℤ) : ℚ) := by
      have hu := ulpF32_pos (m * (2 : ℚ) ^ k)
      rw [div_eq_iff hu.ne']
      unfold ulpF32
      nth_rewrite 1 [hj]
      rw [zpow_add₀ h2, zpow_natCast]
      push_cast
      ring
    unfold roundF32
    rw [hdiv, roundHalfEven_intCast, ← hdiv]
    exact div_mul_cancel₀ _ (ulpF32_pos _).ne'

/-- Integers below `2 ^ 24` in magnitude are binary32 values. -/
theorem roundF32_int (n : ℤ) (h : |n| < 2 ^ 24) : roundF32 (n : ℚ) = n := by
  simpa using roundF32_exact n 0 h (by norm_num)


/-! ## Lemmas on the stick scaling -/

theorem truncf_intCast (z : ℤ) : truncf (z : ℚ) = z := by
  unfold truncf
  split_ifs <;> simp

theorem truncf_mono {a b : ℚ} (h : a ≤ b) : truncf a ≤ truncf b := by
  unfold truncf
  split_ifs with ha hb hb
  · exact Int.floor_le_floor h
  · exact absurd (le_trans ha h) hb
  · have h1 : Int.ceil a ≤ 0 := Int.ceil_le.mpr (by push_cast; linarith)
    have h2 : 0 ≤ Int.floor b := Int.le_floor.mpr (by push_cast; linarith)
    omega
  · exact Int.ceil_le_ceil h

theorem toBits16_of_range (z : ℤ) (h0 : 0 ≤ z) (h1 : z < 65536) : (toBits 16 z : ℤ) = z := by
  unfold toBits
  rw [Int.toNat_of_nonneg (Int.emod_nonneg _ (by norm_num))]
  exact Int.emod_eq_of_lt h0 (by norm_num; exact h1)

/-- Where the integral part is a value of the integer type, the conversion is
the truncation. -/
theorem floatToInt_of_range (env : Env) (lo hi : ℤ) (q : ℚ)
    (h1 : lo ≤ truncf q) (h2 : truncf q ≤ hi) : floatToInt env lo hi q = truncf q := by
  unfold floatToInt
  rw [if_pos ⟨h1, h2⟩]

theorem f2u16_of_range (env : Env) (q : ℚ) (h0 : 0 ≤ truncf q) (h1 : truncf q < 65536) :
    (f2u16 env q : ℤ) = truncf q := by
  unfold f2u16
  rw [floatToInt_of_range env 0 65535 q h0 (by omega)]
  exact toBits16_of_range _ h0 h1

theorem f2u16_intCast (env : Env) (z : ℤ) (h0 : 0 ≤ z) (h1 : z < 65536) :
    (f2u16 env (z : ℚ) : ℤ) = z := by
  have h := f2u16_of_range env (z : ℚ) (by rw [truncf_intCast]; exact h0)
    (by rw [truncf_intCast]; exact h1)
  rw [h, truncf_intCast]

/-- Rounding to binary32 moves a number by at most half a unit in the last
place. -/
theorem roundF32_error (x : ℚ) : |roundF32 x - x| ≤ ulpF32 x / 2 := by
  have hu := ulpF32_pos x
  obtain ⟨h1, h2⟩ := roundHalfEven_bounds (x / ulpF32 x)
  have hx : x = x / ulpF32 x * ulpF32 x := (div_mul_cancel₀ _ hu.ne').symm
  unfold roundF32
  rw [abs_le]
  constructor
  · have : (↑(roundHalfEven (x / ulpF32 x)) - x / ulpF32 x) * ulpF32 x
        ≥ (-(1 / 2)) * ulpF32 x :=
      mul_le_mul_of_nonneg_right (by linarith) hu.le
    nlinarith [hx]
  · have : (↑(roundHalfEven (x / ulpF32 x)) - x / ulpF32 x) * ulpF32 x
        ≤ (1 / 2) * ulpF32 x :=
      mul_le_mul_of_nonneg_right (by linarith) hu.le
    nlinarith [hx]

/-- The unit in the last place of a number below `2 ^ (e + 1)` in magnitude. -/
theorem ulpF32_le (x : ℚ) (e : ℤ) (he : 0 ≤ e) (h : |x| < (2 : ℚ) ^ (e + 1)) :
    ulpF32 x ≤ (2 : ℚ) ^ (e - 23) := by
  have hlog : Int.log 2 |x| ≤ e := by
    by_cases hx : x = 0
    · subst hx
      simp [Int.log_of_right_le_zero, he]
    · have := (Int.lt_zpow_iff_log_lt (b := 2) (by norm_num) (abs_pos.mpr hx)
        (x := e + 1)).mp (by simpa using h)
      omega
  unfold ulpF32 expF32
  apply zpow_le_zpow_right₀ (by norm_num)
  have : max (Int.log 2 |x|) (-126) ≤ e := max_le hlog (by omega)
  omega

/-- The rounding of a positive number of the binade `2 ^ e`, read off from the
nearest multiple of the unit in the last place. -/
theorem roundF32_of_binade (x : ℚ) (e n : ℤ) (he : -126 ≤ e)
    (h1 : (2 : ℚ) ^ e ≤ x) (h2 : x < (2 : ℚ) ^ (e + 1))
    (hn1 : (n : ℚ) - 1 / 2 < x / (2 : ℚ) ^ (e - 23))
    (hn2 : x / (2 : ℚ) ^ (e - 23) < (n : ℚ) + 1 / 2) :
    roundF32 x = n * (2 : ℚ) ^ (e - 23) := by
  have hx0 : 0 < x := lt_of_lt_of_le (zpow_pos (by norm_num) e) h1
  have habs : |x| = x := abs_of_pos hx0
  have hlog : Int.log 2 |x| = e := by
    rw [habs]
    apply le_antisymm
    · have := (Int.lt_zpow_iff_log_lt (b := 2) (by norm_num) hx0 (x := e + 1)).mp
        (by simpa using h2)
      omega
    · exact (Int.zpow_le_iff_le_log (b := 2) (by norm_num) hx0).mp (by simpa using h1)
  have hexp : expF32 x = e := by
    unfold expF32
    rw [hlog]
    exact max_eq_left he
  have hulp : ulpF32 x = (2 : ℚ) ^ (e - 23) := by
    unfold ulpF32
    rw [hexp]
  have hr : roundHalfEven (x / (2 : ℚ) ^ (e - 23)) = n := by
    obtain ⟨b1, b2⟩ := roundHalfEven_bounds (x / (2 : ℚ) ^ (e - 23))
    have l1 : ((roundHalfEven (x / (2 : ℚ) ^ (e - 23)) : ℤ) : ℚ) < (n : ℚ) + 1 := by linarith
    have l2 : (n : ℚ) - 1 < ((roundHalfEven (x / (2 : ℚ) ^ (e - 23)) : ℤ) : ℚ) := by linarith
    have l1z : roundHalfEven (x / (2 : ℚ) ^ (e - 23)) < n + 1 := by exact_mod_cast l1
    have l2z : n - 1 < roundHalfEven (x / (2 : ℚ) ^ (e - 23)) := by exact_mod_cast l2
    omega
  unfold roundF32
  rw [hulp, hr]

/-- A lower bound by an integer passes through `a * b + c`, fused or not. -/
theorem le_fmadd (env : Env) (a b : ℚ) (c k : ℤ) (hk : |k| < 2 ^ 24) (hkc : |k - c| < 2 ^ 24)
    (h : (k : ℚ) ≤ a * b + c) : (k : ℚ) ≤ fmadd env a b c := by
  unfold fmadd
  split_ifs
  · have := roundF32_mono h
    rwa [roundF32_int _ hk] at this
  · have hm : ((k - c : ℤ) : ℚ) ≤ fmul a b := by
      have := roundF32_mono (show ((k - c : ℤ) : ℚ) ≤ a * b by push_cast; linarith)
      rwa [roundF32_int _ hkc] at this
    have := roundF32_mono (show (k : ℚ) ≤ fmul a b + c by push_cast at hm; linarith)
    rwa [roundF32_int _ hk] at this

/-- An upper bound by an integer passes through `a * b + c`, fused or not. -/
theorem fmadd_le (env : Env) (a b : ℚ) (c k : ℤ) (hk : |k| < 2 ^ 24) (hkc : |k - c| < 2 ^ 24)
    (h : a * b + c ≤ (k : ℚ)) : fmadd env a b c ≤ (k : ℚ) := by
  unfold fmadd
  split_ifs
  · have := roundF32_mono h
    rwa [roundF32_int _ hk] at this
  · have hm : fmul a b ≤ ((k - c : ℤ) : ℚ) := by
      have := roundF32_mono (show a * b ≤ ((k - c : ℤ) : ℚ) by push_cast; linarith)
      rwa [roundF32_int _ hkc] at this
    have := roundF32_mono (show fmul a b + c ≤ (k : ℚ) by push_cast at hm; linarith)
    rwa [roundF32_int _ hk] at this

/-- Where the product is an integer, `a * b + c` is exact, fused or not. -/
theorem fmadd_of_int (env : Env) (a b : ℚ) (c m : ℤ) (hm : a * b = m)
    (h1 : |m + c| < 2 ^ 24) (h2 : |m| < 2 ^ 24) : fmadd env a b c = ((m + c : ℤ) : ℚ) := by
  apply le_antisymm
  · exact fmadd_le env a b c (m + c) h1 (by simpa using h2) (by rw [hm]; push_cast; exact le_rfl)
  · exact le_fmadd env a b c (m + c) h1 (by simpa using h2) (by rw [hm]; push_cast; exact le_rfl)

/-- The value of `a * b + c` is monotone in `a` for a factor `b` ≥ 0, fused or
not. -/
theorem fmadd_mono (env : Env) {a a' : ℚ} (b c : ℚ) (hb : 0 ≤ b) (h : a ≤ a') :
    fmadd env a b c ≤ fmadd env a' b c := by
  have hab : a * b ≤ a' * b := mul_le_mul_of_nonneg_right h hb
  unfold fmadd
  split_ifs
  · exact roundF32_mono (by linarith)
  · unfold fadd fmul
    exact roundF32_mono (by linarith [roundF32_mono hab])

/-- The value of `a * b + c`, fused or not, differs from the exact one by less
than `2 ^ (-13)` when the product is below 1024 and the sum at most 2000 in
magnitude. -/
theorem fmadd_error (env : Env) (a b c : ℚ) (h1 : |a * b| < 1024) (h2 : |a * b + c| ≤ 2000) :
    |fmadd env a b c - (a * b + c)| ≤ 3 / 32768 := by
  have e14 : (2 : ℚ) ^ ((10 : ℤ) - 23) = 1 / 8192 := by norm_num
  have e15 : (2 : ℚ) ^ ((9 : ℤ) - 23) = 1 / 16384 := by norm_num
  unfold fmadd
  split_ifs
  · have hu := ulpF32_le (a * b + c) 10 (by norm_num)
      (lt_of_le_of_lt h2 (by norm_num))
    rw [e14] at hu
    have := roundF32_error (a * b + c)
    linarith
  · have hu1 := ulpF32_le (a * b) 9 (by norm_num) (lt_of_lt_of_le h1 (by norm_num))
    rw [e15] at hu1
    have he1 := roundF32_error (a * b)
    have hm : |fmul a b - a * b| ≤ 1 / 32768 := by unfold fmul; linarith
    have hs : |fmul a b + c| < (2 : ℚ) ^ ((10 : ℤ) + 1) := by
      have : fmul a b + c = (fmul a b - a * b) + (a * b + c) := by ring
      rw [this]
      calc |fmul a b - a * b + (a * b + c)| ≤ |fmul a b - a * b| + |a * b + c| := abs_add _ _
        _ ≤ 1 / 32768 + 2000 := by linarith
        _ < (2 : ℚ) ^ ((10 : ℤ) + 1) := by norm_num
    have hu2 := ulpF32_le (fmul a b + c) 10 (by norm_num) hs
    rw [e14] at hu2
    have he2 := roundF32_error (fmul a b + c)
    have hsplit : fadd (fmul a b) c - (a * b + c)
        = (roundF32 (fmul a b + c) - (fmul a b + c)) + (fmul a b - a * b) := by
      unfold fadd
      ring
    rw [hsplit]
    calc |roundF32 (fmul a b + c) - (fmul a b + c) + (fmul a b - a * b)|
        ≤ |roundF32 (fmul a b + c) - (fmul a b + c)| + |fmul a b - a * b| := abs_add _ _
      _ ≤ 3 / 32768 := by linarith

/-- The single-precision value of `percent*500 + 1500` stays between 1000 and
2000 on the stick range, fused or not. -/
theorem scale_rc_float_range (env : Env) (p : ℚ) (h1 : -1 ≤ p) (h2 : p ≤ 1) :
    1000 ≤ fmadd env p 500 1500 ∧ fmadd env p 500 1500 ≤ 2000 := by
  constructor
  · have := le_fmadd env p 500 1500 1000 (by norm_num) (by norm_num)
      (by push_cast; linarith)
    simpa using this
  · have := fmadd_le env p 500 1500 2000 (by norm_num) (by norm_num)
      (by push_cast; linarith)
    simpa using this

theorem scale_rc_trunc_range (env : Env) (p : ℚ) (h1 : -1 ≤ p) (h2 : p ≤ 1) :
    1000 ≤ truncf (fmadd env p 500 1500) ∧ truncf (fmadd env p 500 1500) ≤ 2000 := by
  obtain ⟨hlo, hhi⟩ := scale_rc_float_range env p h1 h2
  constructor
  · have := truncf_mono (show ((1000 : ℤ) : ℚ) ≤ fmadd env p 500 1500 by push_cast; exact hlo)
    rwa [truncf_intCast] at this
  · have := truncf_mono (show fmadd env p 500 1500 ≤ ((2000 : ℤ) : ℚ) by push_cast; exact hhi)
    rwa [truncf_intCast] at this

/-- On the stick range the conversion to `uint16_t` is defined and is the
truncation. -/
theorem msp_scale_rc_eq_trunc (env : Env) (p : ℚ) (h1 : -1 ≤ p) (h2 : p ≤ 1) :
    (msp_scale_rc env p : ℤ) = truncf (fmadd env p 500 1500) := by
  obtain ⟨hlo, hhi⟩ := scale_rc_trunc_range env p h1 h2
  unfold msp_scale_rc
  exact f2u16_of_range env _ (by omega) (by omega)

/-- Where `percent*500` is an integer the scaling is exact. -/
theorem msp_scale_rc_of_int (env : Env) (p : ℚ) (a : ℤ) (hp : p * 500 = a)
    (h1 : -500 ≤ a) (h2 : a ≤ 500) : (msp_scale_rc env p : ℤ) = a + 1500 := by
  have hp1 : -1 ≤ p := by
    have : (-500 : ℚ) ≤ a := by exact_mod_cast h1
    linarith
  have hp2 : p ≤ 1 := by
    have : (a : ℚ) ≤ 500 := by exact_mod_cast h2
    linarith
  rw [msp_scale_rc_eq_trunc env p hp1 hp2]
  have ha := fmadd_of_int env p 500 1500 a hp (by rw [abs_lt]; constructor <;> omega)
    (by rw [abs_lt]; constructor <;> omega)
  have hc : ((1500 : ℤ) : ℚ) = 1500 := by norm_num
  rw [hc] at ha
  rw [ha, truncf_intCast]

/-- Negating one half in single precision is exact, and the symmetric map
sends the result to 1250. -/
theorem msp_scale_rc_neg_half (env : Env) : msp_scale_rc env (fmul (1 / 2) (-1)) = 1250 := by
  have hneg : fmul (1 / 2) (-1) = -1 / 2 := by
    have := roundF32_exact (-1) (-1) (by norm_num) (by norm_num)
    have h2 : ((-1 : ℤ) : ℚ) * (2 : ℚ) ^ (-1 : ℤ) = -1 / 2 := by norm_num
    rw [h2] at this
    unfold fmul
    have h3 : (1 / 2 : ℚ) * (-1) = -1 / 2 := by norm_num
    rw [h3]
    exact this
  rw [hneg]
  have := msp_scale_rc_of_int env (-1 / 2) (-250) (by norm_num) (by norm_num) (by norm_num)
  have h4 : ((msp_scale_rc env (-1 / 2) : ℕ) : ℤ) = ((1250 : ℕ) : ℤ) := by rw [this]; norm_num
  exact_mod_cast h4

/-- The result is within one of the truncation of the exact value of
`500 * p + 1500`, and never below it. -/
theorem msp_scale_rc_near_exact (env : Env) (p : ℚ) (h1 : -1 ≤ p) (h2 : p ≤ 1) :
    truncf (500 * p + 1500) ≤ msp_scale_rc env p
      ∧ (msp_scale_rc env p : ℤ) ≤ truncf (500 * p + 1500) + 1 := by
  rw [msp_scale_rc_eq_trunc env p h1 h2]
  have hpos : (0 : ℚ) ≤ 500 * p + 1500 := by linarith
  have htr : truncf (500 * p + 1500) = Int.floor (500 * p + 1500) := by
    unfold truncf
    rw [if_pos hpos]
  rw [htr]
  set k := Int.floor (500 * p + 1500) with hk
  have hk1 : (k : ℚ) ≤ 500 * p + 1500 := Int.floor_le _
  have hk2 : 500 * p + 1500 < (k : ℚ) + 1 := Int.lt_floor_add_one _
  have hk1000 : 1000 ≤ k := Int.le_floor.mpr (by push_cast; linarith)
  have hk2000 : k ≤ 2000 := by
    have : (k : ℚ) ≤ 2000 := by linarith
    exact_mod_cast this
  have hlo2 : ((k : ℤ) : ℚ) ≤ fmadd env p 500 1500 := by
    have := le_fmadd env p 500 1500 k (by rw [abs_lt]; constructor <;> omega)
      (by rw [abs_lt]; constructor <;> omega) (by push_cast; linarith)
    simpa using this
  have hhi2 : fmadd env p 500 1500 ≤ ((k + 1 : ℤ) : ℚ) := by
    have := fmadd_le env p 500 1500 (k + 1) (by rw [abs_lt]; constructor <;> omega)
      (by rw [abs_lt]; constructor <;> omega) (by push_cast; linarith)
    simpa using this
  constructor
  · have := truncf_mono hlo2
    rwa [truncf_intCast] at this
  · have := truncf_mono hhi2
    rwa [truncf_intCast] at this

/-- The result is the truncation of the exact value of `500 * p + 1500` unless
that value lies within `3 / 32768` below the next integer. -/
theorem msp_scale_rc_exact_away (env : Env) (p : ℚ) (h1 : -1 ≤ p) (h2 : p ≤ 1)
    (h : 500 * p + 1500 + 3 / 32768 < truncf (500 * p + 1500) + 1) :
    (msp_scale_rc env p : ℤ) = truncf (500 * p + 1500) := by
  obtain ⟨hlo, -⟩ := msp_scale_rc_near_exact env p h1 h2
  apply le_antisymm _ hlo
  rw [msp_scale_rc_eq_trunc env p h1 h2]
  obtain ⟨hf1, -⟩ := scale_rc_float_range env p h1 h2
  have herr := fmadd_error env p 500 1500
    (by rw [abs_lt]; constructor <;> linarith)
    (by rw [abs_le]; constructor <;> linarith)
  rw [abs_le] at herr
  have hlt : fmadd env p 500 1500 < ((truncf (500 * p + 1500) + 1 : ℤ) : ℚ) := by
    push_cast
    linarith [herr.2]
  have hfl : truncf (fmadd env p 500 1500) = Int.floor (fmadd env p 500 1500) := by
    unfold truncf
    rw [if_pos (by linarith)]
  rw [hfl]
  have := Int.floor_lt.mpr hlt
  omega

/-- The scaling is monotone on the stick range. -/
theorem msp_scale_rc_mono (env : Env) (p q : ℚ) (h1 : -1 ≤ p) (h2 : p ≤ q) (h3 : q ≤ 1) :
    msp_scale_rc env p ≤ msp_scale_rc env q := by
  have hp := msp_scale_rc_eq_trunc env p h1 (le_trans h2 h3)
  have hq := msp_scale_rc_eq_trunc env q (le_trans h1 h2) h3
  have := truncf_mono (fmadd_mono env 500 1500 (by norm_num) h2)
  omega

/-- The binary32 value `1/2 - 2 ^ (-25)` is scaled to 1750, fused or not. -/
theorem msp_scale_rc_below_half (env : Env) :
    msp_scale_rc env (16777215 / 33554432) = 1750 := by
  have hval : fmadd env (16777215 / 33554432) 500 1500 = ((1750 : ℤ) : ℚ) := by
    have e13 : (2 : ℚ) ^ ((10 : ℤ) - 23) = 1 / 8192 := by norm_num
    unfold fmadd
    split_ifs
    · have h := roundF32_of_binade (16777215 / 33554432 * 500 + 1500) 10 14336000
        (by norm_num) (by norm_num) (by norm_num) (by norm_num) (by norm_num)
      rw [h, e13]
      norm_num
    · have e16 : (2 : ℚ) ^ ((7 : ℤ) - 23) = 1 / 65536 := by norm_num
      have hm : fmul (16777215 / 33554432) 500 = 16383999 / 65536 := by
        unfold fmul
        have h := roundF32_of_binade (16777215 / 33554432 * 500) 7 16383999
          (by norm_num) (by norm_num) (by norm_num) (by norm_num) (by norm_num)
        rw [h, e16]
        norm_num
      unfold fadd
      rw [hm]
      have h := roundF32_of_binade (16383999 / 65536 + 1500) 10 14336000
        (by norm_num) (by norm_num) (by norm_num) (by norm_num) (by norm_num)
      rw [h, e13]
      norm_num
  have h0 : (msp_scale_rc env (16777215 / 33554432) : ℤ) = 1750 := by
    unfold msp_scale_rc
    rw [hval]
    exact f2u16_intCast env 1750 (by norm_num) (by norm_num)
  exact_mod_cast h0

/-- The exact value of `500 * p + 1500` at `p = 1/2 - 2 ^ (-25)` truncates to
1749. -/
theorem truncf_below_1750 : truncf (500 * (16777215 / 33554432) + 1500) = 1749 := by
  unfold truncf
  rw [if_pos (by norm_num)]
  rw [Int.floor_eq_iff]
  constructor <;> norm_num

/-- The number `1/2 - 2 ^ (-25)` is a binary32 value. -/
theorem below_half_is_float : roundF32 (16777215 / 33554432) = 16777215 / 33554432 := by
  have h := roundF32_exact 16777215 (-25) (by norm_num) (by norm_num)
  have e : ((16777215 : ℤ) : ℚ) * (2 : ℚ) ^ (-25 : ℤ) = 16777215 / 33554432 := by norm_num
  rw [e] at h
  exact h

/-- The pitch channel is the second entry of the channel array. -/
theorem msp_channels_pitch (env : Env) :
    (msp_channels env).getD 1 0
      = msp_scale_rc env (fmul env.ManualControlCommand_Pitch (-1)) :=
  rfl

/-- The pitch channel occupies payload bytes 2 and 3. -/
theorem msp_channels_pitch_wire (env : Env) :
    (((msp_channels env).flatMap le16).drop 2).take 2 = le16 ((msp_channels env).getD 1 0) :=
  rfl

theorem pitch_channel_of_half (env : Env) (h : env.ManualControlCommand_Pitch = 1 / 2) :
    (msp_channels env).getD 1 0 = 1250 := by
  rw [msp_channels_pitch, h]
  exact msp_scale_rc_neg_half env

/-- The single-precision value of `percent*800 + 1100` stays between 1100 and
1900 on the upper half of the stick range, fused or not. -/
theorem scale_rc_thr_float_range (env : Env) (p : ℚ) (h1 : 0 ≤ p) (h2 : p ≤ 1) :
    1100 ≤ fmadd env p 800 1100 ∧ fmadd env p 800 1100 ≤ 1900 := by
  constructor
  · have := le_fmadd env p 800 1100 1100 (by norm_num) (by norm_num)
      (by push_cast; linarith)
    simpa using this
  · have := fmadd_le env p 800 1100 1900 (by norm_num) (by norm_num)
      (by push_cast; linarith)
    simpa using this

theorem scale_rc_thr_trunc_range (env : Env) (p : ℚ) (h1 : 0 ≤ p) (h2 : p ≤ 1) :
    1100 ≤ truncf (fmadd env p 800 1100) ∧ truncf (fmadd env p 800 1100) ≤ 1900 := by
  obtain ⟨hlo, hhi⟩ := scale_rc_thr_float_range env p h1 h2
  constructor
  · have := truncf_mono (show ((1100 : ℤ) : ℚ) ≤ fmadd env p 800 1100 by push_cast; exact hlo)
    rwa [truncf_intCast] at this
  · have := truncf_mono (show fmadd env p 800 1100 ≤ ((1900 : ℤ) : ℚ) by push_cast; exact hhi)
    rwa [truncf_intCast] at this

/-- At or below mid-stick the throttle output is the constant 1100. -/
theorem msp_scale_rc_thr_nonpos (env : Env) (p : ℚ) (h : p ≤ 0) :
    msp_scale_rc_thr env p = 1100 := by
  unfold msp_scale_rc_thr
  rw [if_pos h]
  have h1 := f2u16_intCast env 1100 (by norm_num) (by norm_num)
  have h2 : ((1100 : ℤ) : ℚ) = (1100 : ℚ) := by norm_num
  rw [h2] at h1
  exact_mod_cast h1

/-- Above mid-stick the conversion to `uint16_t` is defined and is the
truncation. -/
theorem msp_scale_rc_thr_pos (env : Env) (p : ℚ) (h1 : 0 < p) (h2 : p ≤ 1) :
    (msp_scale_rc_thr env p : ℤ) = truncf (fmadd env p 800 1100) := by
  obtain ⟨hlo, hhi⟩ := scale_rc_thr_trunc_range env p h1.le h2
  unfold msp_scale_rc_thr
  rw [if_neg (not_le.mpr h1)]
  exact f2u16_of_range env _ (by omega) (by omega)

/-- Where `percent*800` is an integer the throttle scaling is exact. -/
theorem msp_scale_rc_thr_of_int (env : Env) (p : ℚ) (a : ℤ) (hp : p * 800 = a)
    (h1 : 0 < a) (h2 : a ≤ 800) : (msp_scale_rc_thr env p : ℤ) = a + 1100 := by
  have hp1 : 0 < p := by
    have : (0 : ℚ) < a := by exact_mod_cast h1
    linarith
  have hp2 : p ≤ 1 := by
    have : (a : ℚ) ≤ 800 := by exact_mod_cast h2
    linarith
  rw [msp_scale_rc_thr_pos env p hp1 hp2]
  have ha := fmadd_of_int env p 800 1100 a hp (by rw [abs_lt]; constructor <;> omega)
    (by rw [abs_lt]; constructor <;> omega)
  have hc : ((1100 : ℤ) : ℚ) = 1100 := by norm_num
  rw [hc] at ha
  rw [ha, truncf_intCast]

theorem msp_scale_rc_thr_one (env : Env) : msp_scale_rc_thr env 1 = 1900 := by
  have h := msp_scale_rc_thr_of_int env 1 800 (by norm_num) (by norm_num) (by norm_num)
  omega

/-- Above mid-stick the result is within one of the truncation of the exact
value of `800 * p + 1100`, and never below it. -/
theorem msp_scale_rc_thr_near_exact (env : Env) (p : ℚ) (h1 : 0 < p) (h2 : p ≤ 1) :
    truncf (800 * p + 1100) ≤ msp_scale_rc_thr env p
      ∧ (msp_scale_rc_thr env p : ℤ) ≤ truncf (800 * p + 1100) + 1 := by
  rw [msp_scale_rc_thr_pos env p h1 h2]
  have hpos : (0 : ℚ) ≤ 800 * p + 1100 := by linarith
  have htr : truncf (800 * p + 1100) = Int.floor (800 * p + 1100) := by
    unfold truncf
    rw [if_pos hpos]
  rw [htr]
  set k := Int.floor (800 * p + 1100) with hk
  have hk1 : (k : ℚ) ≤ 800 * p + 1100 := Int.floor_le _
  have hk2 : 800 * p + 1100 < (k : ℚ) + 1 := Int.lt_floor_add_one _
  have hk1100 : 1100 ≤ k := Int.le_floor.mpr (by push_cast; linarith)
  have hk1900 : k ≤ 1900 := by
    have : (k : ℚ) ≤ 1900 := by linarith
    exact_mod_cast this
  have hlo2 : ((k : ℤ) : ℚ) ≤ fmadd env p 800 1100 := by
    have := le_fmadd env p 800 1100 k (by rw [abs_lt]; constructor <;> omega)
      (by rw [abs_lt]; constructor <;> omega) (by push_cast; linarith)
    simpa using this
  have hhi2 : fmadd env p 800 1100 ≤ ((k + 1 : ℤ) : ℚ) := by
    have := fmadd_le env p 800 1100 (k + 1) (by rw [abs_lt]; constructor <;> omega)
      (by rw [abs_lt]; constructor <;> omega) (by push_cast; linarith)
    simpa using this
  constructor
  · have := truncf_mono hlo2
    rwa [truncf_intCast] at this
  · have := truncf_mono hhi2
    rwa [truncf_intCast] at this

/-- Above mid-stick the result is the truncation of the exact value of
`800 * p + 1100` unless that value lies within `3 / 32768` below the next
integer. -/
theorem msp_scale_rc_thr_exact_away (env : Env) (p : ℚ) (h1 : 0 < p) (h2 : p ≤ 1)
    (h : 800 * p + 1100 + 3 / 32768 < truncf (800 * p + 1100) + 1) :
    (msp_scale_rc_thr env p : ℤ) = truncf (800 * p + 1100) := by
  obtain ⟨hlo, -⟩ := msp_scale_rc_thr_near_exact env p h1 h2
  apply le_antisymm _ hlo
  rw [msp_scale_rc_thr_pos env p h1 h2]
  obtain ⟨hf1, -⟩ := scale_rc_thr_float_range env p h1.le h2
  have herr := fmadd_error env p 800 1100
    (by rw [abs_lt]; constructor <;> linarith)
    (by rw [abs_le]; constructor <;> linarith)
  rw [abs_le] at herr
  have hlt : fmadd env p 800 1100 < ((truncf (800 * p + 1100) + 1 : ℤ) : ℚ) := by
    push_cast
    linarith [herr.2]
  have hfl : truncf (fmadd env p 800 1100) = Int.floor (fmadd env p 800 1100) := by
    unfold truncf
    rw [if_pos (by linarith)]
  rw [hfl]
  have := Int.floor_lt.mpr hlt
  omega

/-- The binary32 value `1/2 - 2 ^ (-25)` is scaled to 1500 by the throttle
map, fused or not. -/
theorem msp_scale_rc_thr_below_half (env : Env) :
    msp_scale_rc_thr env (16777215 / 33554432) = 1500 := by
  have hval : fmadd env (16777215 / 33554432) 800 1100 = ((1500 : ℤ) : ℚ) := by
    have e13 : (2 : ℚ) ^ ((10 : ℤ) - 23) = 1 / 8192 := by norm_num
    unfold fmadd
    split_ifs
    · have h := roundF32_of_binade (16777215 / 33554432 * 800 + 1100) 10 12288000
        (by norm_num) (by norm_num) (by norm_num) (by norm_num) (by norm_num)
      rw [h, e13]
      norm_num
    · have e15 : (2 : ℚ) ^ ((8 : ℤ) - 23) = 1 / 32768 := by norm_num
      have hm : fmul (16777215 / 33554432) 800 = 13107199 / 32768 := by
        unfold fmul
        have h := roundF32_of_binade (16777215 / 33554432 * 800) 8 13107199
          (by norm_num) (by norm_num) (by norm_num) (by norm_num) (by norm_num)
        rw [h, e15]
        norm_num
      unfold fadd
      rw [hm]
      have h := roundF32_of_binade (13107199 / 32768 + 1100) 10 12288000
        (by norm_num) (by norm_num) (by norm_num) (by norm_num) (by norm_num)
      rw [h, e13]
      norm_num
  have h0 : (msp_scale_rc_thr env (16777215 / 33554432) : ℤ) = 1500 := by
    unfold msp_scale_rc_thr
    rw [if_neg (by norm_num), hval]
    exact f2u16_intCast env 1500 (by norm_num) (by norm_num)
  exact_mod_cast h0

/-- The exact value of `800 * p + 1100` at `p = 1/2 - 2 ^ (-25)` truncates to
1499. -/
theorem truncf_below_1500 : truncf (800 * (16777215 / 33554432) + 1100) = 1499 := by
  unfold truncf
  rw [if_pos (by norm_num)]
  rw [Int.floor_eq_iff]
  constructor <;> norm_num

/-- The unit in the last place of a positive number of the binade `2 ^ e`. -/
theorem ulpF32_of_binade (x : ℚ) (e : ℤ) (he : -126 ≤ e)
    (h1 : (2 : ℚ) ^ e ≤ x) (h2 : x < (2 : ℚ) ^ (e + 1)) :
    ulpF32 x = (2 : ℚ) ^ (e - 23) := by
  have hx0 : 0 < x := lt_of_lt_of_le (zpow_pos (by norm_num) e) h1
  have habs : |x| = x := abs_of_pos hx0
  have hlog : Int.log 2 |x| = e := by
    rw [habs]
    apply le_antisymm
    · have := (Int.lt_zpow_iff_log_lt (b := 2) (by norm_num) hx0 (x := e + 1)).mp
        (by simpa using h2)
      omega
    · exact (Int.zpow_le_iff_le_log (b := 2) (by norm_num) hx0).mp (by simpa using h1)
  unfold ulpF32 expF32
  rw [hlog, max_eq_left he]

/-- The rounding of a positive number of the binade `2 ^ e` that lies half-way
between two neighbours, the lower one with an odd significand: ties go to the
even significand, which is the upper one. -/
theorem roundF32_of_binade_tie (x : ℚ) (e f : ℤ) (he : -126 ≤ e)
    (h1 : (2 : ℚ) ^ e ≤ x) (h2 : x < (2 : ℚ) ^ (e + 1))
    (hx : x / (2 : ℚ) ^ (e - 23) = (f : ℚ) + 1 / 2) (hodd : f % 2 = 1) :
    roundF32 x = ((f + 1 : ℤ) : ℚ) * (2 : ℚ) ^ (e - 23) := by
  have hfl : Int.floor ((f : ℚ) + 1 / 2) = f := by
    rw [Int.floor_eq_iff]
    constructor <;> linarith
  have hr : roundHalfEven ((f : ℚ) + 1 / 2) = f + 1 := by
    unfold roundHalfEven
    simp only [hfl]
    have e1 : (f : ℚ) + 1 / 2 - f = 1 / 2 := by ring
    rw [e1, if_neg (lt_irrefl _), if_neg (lt_irrefl _), if_neg (by omega)]
  unfold roundF32
  rw [ulpF32_of_binade x e he h1 h2, hx, hr]

theorem truncf_of_floor (q : ℚ) (k : ℤ) (h1 : (k : ℚ) ≤ q) (h2 : q < (k : ℚ) + 1)
    (h0 : 0 ≤ q) : truncf q = k := by
  unfold truncf
  rw [if_pos h0, Int.floor_eq_iff]
  exact ⟨h1, h2⟩

/-- The two evaluations of `percent*500 + 1500` can differ: at the binary32
value `1866465 / 2 ^ 21` a build that fuses returns 1944, the truncation of
the exact value, and a build that does not returns 1945. -/
theorem msp_scale_rc_contraction (env : Env) :
    (env.FP_CONTRACT = true → msp_scale_rc env (1866465 / 2097152) = 1944)
      ∧ (env.FP_CONTRACT = false → msp_scale_rc env (1866465 / 2097152) = 1945) := by
  have e13 : (2 : ℚ) ^ ((10 : ℤ) - 23) = 1 / 8192 := by norm_num
  have e15 : (2 : ℚ) ^ ((8 : ℤ) - 23) = 1 / 32768 := by norm_num
  constructor
  · intro hc
    have hval : fmadd env (1866465 / 2097152) 500 1500 = 15933439 / 8192 := by
      unfold fmadd
      rw [if_pos hc]
      have h := roundF32_of_binade (1866465 / 2097152 * 500 + 1500) 10 15933439
        (by norm_num) (by norm_num) (by norm_num) (by norm_num) (by norm_num)
      rw [h, e13]
      norm_num
    have ht : truncf (15933439 / 8192 : ℚ) = 1944 :=
      truncf_of_floor _ 1944 (by norm_num) (by norm_num) (by norm_num)
    have h0 : (msp_scale_rc env (1866465 / 2097152) : ℤ) = 1944 := by
      unfold msp_scale_rc
      rw [hval, f2u16_of_range env _ (by rw [ht]; norm_num) (by rw [ht]; norm_num), ht]
    exact_mod_cast h0
  · intro hc
    have hval : fmadd env (1866465 / 2097152) 500 1500 = ((1945 : ℤ) : ℚ) := by
      unfold fmadd
      rw [if_neg (by rw [hc]; exact Bool.false_ne_true)]
      have hm : fmul (1866465 / 2097152) 500 = 14581758 / 32768 := by
        unfold fmul
        have h := roundF32_of_binade (1866465 / 2097152 * 500) 8 14581758
          (by norm_num) (by norm_num) (by norm_num) (by norm_num) (by norm_num)
        rw [h, e15]
        norm_num
      unfold fadd
      rw [hm]
      have h := roundF32_of_binade_tie (14581758 / 32768 + 1500) 10 15933439
        (by norm_num) (by norm_num) (by norm_num) (by rw [e13]; norm_num) (by norm_num)
      rw [h, e13]
      norm_num
    have h0 : (msp_scale_rc env (1866465 / 2097152) : ℤ) = 1945 := by
      unfold msp_scale_rc
      rw [hval]
      exact f2u16_intCast env 1945 (by norm_num) (by norm_num)
    exact_mod_cast h0

/-- The two evaluations of `percent*800 + 1100` can differ: at the binary32
value `2081423 / 2 ^ 22` a build that fuses returns 1496, the truncation of
the exact value, and a build that does not returns 1497. -/
theorem msp_scale_rc_thr_contraction (env : Env) :
    (env.FP_CONTRACT = true → msp_scale_rc_thr env (2081423 / 4194304) = 1496)
      ∧ (env.FP_CONTRACT = false → msp_scale_rc_thr env (2081423 / 4194304) = 1497) := by
  have e13 : (2 : ℚ) ^ ((10 : ℤ) - 23) = 1 / 8192 := by norm_num
  have e15 : (2 : ℚ) ^ ((8 : ℤ) - 23) = 1 / 32768 := by norm_num
  constructor
  · intro hc
    have hval : fmadd env (2081423 / 4194304) 800 1100 = 12263423 / 8192 := by
      unfold fmadd
      rw [if_pos hc]
      have h := roundF32_of_binade (2081423 / 4194304 * 800 + 1100) 10 12263423
        (by norm_num) (by norm_num) (by norm_num) (by norm_num) (by norm_num)
      rw [h, e13]
      norm_num
    have ht : truncf (12263423 / 8192 : ℚ) = 1496 :=
      truncf_of_floor _ 1496 (by norm_num) (by norm_num) (by norm_num)
    have h0 : (msp_scale_rc_thr env (2081423 / 4194304) : ℤ) = 1496 := by
      unfold msp_scale_rc_thr
      rw [if_neg (by norm_num), hval,
        f2u16_of_range env _ (by rw [ht]; norm_num) (by rw [ht]; norm_num), ht]
    exact_mod_cast h0
  · intro hc
    have hval : fmadd env (2081423 / 4194304) 800 1100 = ((1497 : ℤ) : ℚ) := by
      unfold fmadd
      rw [if_neg (by rw [hc]; exact Bool.false_ne_true)]
      have hm : fmul (2081423 / 4194304) 800 = 13008894 / 32768 := by
        unfold fmul
        have h := roundF32_of_binade (2081423 / 4194304 * 800) 8 13008894
          (by norm_num) (by norm_num) (by norm_num) (by norm_num) (by norm_num)
        rw [h, e15]
        norm_num
      unfold fadd
      rw [hm]
      have h := roundF32_of_binade_tie (13008894 / 32768 + 1100) 10 12263423
        (by norm_num) (by norm_num) (by norm_num) (by rw [e13]; norm_num) (by norm_num)
      rw [h, e13]
      norm_num
    have h0 : (msp_scale_rc_thr env (2081423 / 4194304) : ℤ) = 1497 := by
      unfold msp_scale_rc_thr
      rw [if_neg (by norm_num), hval]
      exact f2u16_intCast env 1497 (by norm_num) (by norm_num)
    exact_mod_cast h0

/-! ## The claims -/

/-- C1: in `MSP_CHECKSUM`, with a command id that is none of the 20 dispatched
ids and a byte equal to the checksum accumulator, `msp_receive_byte` appends
exactly the six bytes `'$' 'M' '|' 0 id id` to what was sent, sets the state
to `MSP_IDLE` and returns true. -/
theorem checksum_unsupported_emits_error_frame (env : Env) (w : World) (b : Nat)
    (hs : w.m.state = MSP_CHECKSUM) (hx : w.m.cmd_id ∉ dispatched) (hb : b = w.m.checksum) :
    (msp_receive_byte env w b).1.sent = w.sent ++ [36, 77, 124, 0, w.m.cmd_id, w.m.cmd_id]
      ∧ (msp_receive_byte env w b).1.m.state = MSP_IDLE
      ∧ (msp_receive_byte env w b).2 = true := by
  subst hb
  rw [checksum_match env w hs, dispatch_unsupported env w hx]
  simp [setState]

/-- C1, at a request for `MSP_IDENT` (100). -/
theorem checksum_unsupported_emits_error_frame_witness :
    sampleWorldIdent.m.state = MSP_CHECKSUM ∧ sampleWorldIdent.m.cmd_id ∉ dispatched
      ∧ 100 = sampleWorldIdent.m.checksum
      ∧ (msp_receive_byte sampleEnv sampleWorldIdent 100).1.sent = [36, 77, 124, 0, 100, 100]
      ∧ (msp_receive_byte sampleEnv sampleWorldIdent 100).1.m.state = MSP_IDLE
      ∧ (msp_receive_byte sampleEnv sampleWorldIdent 100).2 = true :=
  ⟨rfl, by decide, rfl,
    checksum_unsupported_emits_error_frame sampleEnv sampleWorldIdent 100 rfl (by decide) rfl⟩

/-- C2 as stated fails: the well-framed request for the unsupported id 100
with declared length 3, payload 7, 8, 9 and the correct checksum 97 is
discarded, so nothing is sent and no error frame appears. -/
theorem unknown_command_oversized_no_error_frame :
    100 ∉ dispatched ∧ xorAll (3 ^^^ 100) [7, 8, 9] = 97
      ∧ (feed sampleEnv sampleWorld (inFrame 3 100 [7, 8, 9] 97)).sent = []
      ∧ (feed sampleEnv sampleWorld (inFrame 3 100 [7, 8, 9] 97)).sent
          ≠ sampleWorld.sent ++ [36, 77, 124, 0, 100, 100] := by
  decide

/-- C2, amended: for a command id that is none of the dispatched ones, a
declared length of at most the buffer capacity `sizeof(cmd_data)` = 2, a
payload of that length and the correct XOR checksum, feeding the frame from
`MSP_IDLE` appends exactly the error frame `'$' 'M' '|' 0 id id` to what was
sent and ends in `MSP_IDLE`. -/
theorem unknown_command_fitting_frame_error (env : Env) (w : World) (X L : Nat)
    (payload : List Nat) (hs : w.m.state = MSP_IDLE) (hx : X ∉ dispatched)
    (hL : L ≤ sizeof_cmd_data) (hp : payload.length = L) :
    (feed env w (inFrame L X payload (xorAll (L ^^^ X) payload))).sent
        = w.sent ++ [36, 77, 124, 0, X, X]
      ∧ (feed env w (inFrame L X payload (xorAll (L ^^^ X) payload))).m.state = MSP_IDLE := by
  obtain ⟨h1, h2, -, h4, -, -, h7, -⟩ := feed_to_checksum env w L X payload hs hL hp
  rw [feed_inFrame]
  have := checksum_unsupported_emits_error_frame env _ (xorAll (L ^^^ X) payload) h1
    (by rw [h2]; exact hx) h4.symm
  rw [h2, h7] at this
  exact ⟨this.1, this.2.1⟩

/-- C2 amended, at the request for `MSP_IDENT` with payload 7, 8. -/
theorem unknown_command_fitting_frame_error_witness :
    sampleWorld.m.state = MSP_IDLE ∧ 100 ∉ dispatched ∧ 2 ≤ sizeof_cmd_data
      ∧ [7, 8].length = 2
      ∧ (feed sampleEnv sampleWorld (inFrame 2 100 [7, 8] (xorAll (2 ^^^ 100) [7, 8]))).sent
          = sampleWorld.sent ++ [36, 77, 124, 0, 100, 100]
      ∧ (feed sampleEnv sampleWorld
          (inFrame 2 100 [7, 8] (xorAll (2 ^^^ 100) [7, 8]))).m.state = MSP_IDLE :=
  ⟨rfl, by decide, by decide, rfl,
    unknown_command_fitting_frame_error sampleEnv sampleWorld 100 2 [7, 8] rfl (by decide)
      (by decide) rfl⟩


/-- C3 as stated fails twice: the valid zero-length altitude request (command
109, checksum 109) sends nothing when there is no position-estimate source,
and the valid request for the API version (command 1) with declared length 3,
payload 7, 8, 9 and checksum 4 is discarded, so it sends nothing either. -/
theorem supported_command_without_response :
    109 ∈ dispatched ∧ xorAll (0 ^^^ 109) [] = 109
      ∧ (feed sampleEnvNoPosition sampleWorld (inFrame 0 109 [] 109)).sent = []
      ∧ 1 ∈ dispatched ∧ xorAll (3 ^^^ 1) [7, 8, 9] = 4
      ∧ (feed sampleEnv sampleWorld (inFrame 3 1 [7, 8, 9] 4)).sent = [] := by
  decide

/-- C3, amended: for a dispatched command id, a declared length of at most the
buffer capacity `sizeof(cmd_data)` = 2, a payload of that length, the correct
XOR checksum and any flight-data model in which the position-estimate source
exists when the command is the altitude one (`AlarmString` being taken to
return a length below the size of the buffer it fills), feeding the frame from
`MSP_IDLE` appends to what was sent exactly one frame
`'$' 'M' '>' len cmd payload checksum` with `cmd` the requested id, `len` the
payload length (at most 255) and `checksum` the XOR of `len`, `cmd` and the
payload, and ends in `MSP_IDLE`. -/
theorem supported_command_one_response (env : Env) (w : World) (c L : Nat)
    (payload : List Nat) (hs : w.m.state = MSP_IDLE) (hc : c ∈ dispatched)
    (hL : L ≤ sizeof_cmd_data) (hp : payload.length = L)
    (halt : c = MSP_ALTITUDE → env.PositionActualHandle = true)
    (halarm : env.AlarmString_len < MAX_ALARM_LEN) :
    (∃ p, p.length ≤ 255
        ∧ (feed env w (inFrame L c payload (xorAll (L ^^^ c) payload))).sent
            = w.sent ++ outFrame c p)
      ∧ (feed env w (inFrame L c payload (xorAll (L ^^^ c) payload))).m.state = MSP_IDLE := by
  obtain ⟨h1, h2, -, h4, -, -, h7, -⟩ := feed_to_checksum env w L c payload hs hL hp
  rw [feed_inFrame, ← h4, checksum_match env _ h1]
  obtain ⟨p, hp255, hsent⟩ := dispatch_supported env _ (by rw [h2]; exact hc)
    (by rw [h2]; exact halt) halarm
  rw [h2, h7] at hsent
  exact ⟨⟨p, hp255, by simpa [setState] using hsent⟩, by simp [setState]⟩

/-- C3 amended, at a zero-length altitude request with a position source. -/
theorem supported_command_one_response_witness :
    sampleWorld.m.state = MSP_IDLE ∧ 109 ∈ dispatched ∧ 0 ≤ sizeof_cmd_data
      ∧ ([] : List Nat).length = 0
      ∧ (109 = MSP_ALTITUDE → sampleEnv.PositionActualHandle = true)
      ∧ sampleEnv.AlarmString_len < MAX_ALARM_LEN
      ∧ (∃ p, p.length ≤ 255
          ∧ (feed sampleEnv sampleWorld (inFrame 0 109 [] (xorAll (0 ^^^ 109) []))).sent
              = sampleWorld.sent ++ outFrame 109 p)
      ∧ (feed sampleEnv sampleWorld (inFrame 0 109 [] (xorAll (0 ^^^ 109) []))).m.state
          = MSP_IDLE :=
  ⟨rfl, by decide, by decide, rfl, fun _ => rfl, by decide,
    supported_command_one_response sampleEnv sampleWorld 109 0 [] rfl (by decide) (by decide)
      rfl (fun _ => rfl) (by decide)⟩

/-- C4: for a frame `'$' 'M' '<' L cmd payload c` whose declared length `L` is
at most the buffer capacity, whose payload has `L` bytes and whose last byte
`c` differs from `L xor cmd xor (XOR of the payload)`, feeding it from
`MSP_IDLE` sends nothing and ends in `MSP_IDLE`; this holds in particular when
`c` is the correct checksum with bit `k` flipped. -/
theorem bad_checksum_frame_dropped (env : Env) (w : World) (L cmd : Nat)
    (payload : List Nat) (hs : w.m.state = MSP_IDLE) (hL : L ≤ sizeof_cmd_data)
    (hp : payload.length = L) :
    (∀ c, c ≠ xorAll (L ^^^ cmd) payload →
        (feed env w (inFrame L cmd payload c)).sent = w.sent
          ∧ (feed env w (inFrame L cmd payload c)).m.state = MSP_IDLE)
      ∧ (∀ k, (feed env w (inFrame L cmd payload
                (xorAll (L ^^^ cmd) payload ^^^ 2 ^ k))).sent = w.sent
          ∧ (feed env w (inFrame L cmd payload
                (xorAll (L ^^^ cmd) payload ^^^ 2 ^ k))).m.state = MSP_IDLE) := by
  obtain ⟨h1, -, -, h4, -, -, h7, -⟩ := feed_to_checksum env w L cmd payload hs hL hp
  have main : ∀ c, c ≠ xorAll (L ^^^ cmd) payload →
      (feed env w (inFrame L cmd payload c)).sent = w.sent
        ∧ (feed env w (inFrame L cmd payload c)).m.state = MSP_IDLE := by
    intro c hc
    rw [feed_inFrame, checksum_mismatch env _ c h1 (by rw [h4]; exact hc)]
    exact ⟨h7, rfl⟩
  refine ⟨main, fun k => main _ ?_⟩
  intro h
  have h0 : xorAll (L ^^^ cmd) payload ^^^ (xorAll (L ^^^ cmd) payload ^^^ 2 ^ k) = 0 := by
    rw [h, Nat.xor_self]
  rw [← Nat.xor_assoc, Nat.xor_self, Nat.zero_xor] at h0
  exact absurd h0 (by positivity)

/-- C4, at the altitude request of length 1 with payload 5. -/
theorem bad_checksum_frame_dropped_witness :
    sampleWorld.m.state = MSP_IDLE ∧ 1 ≤ sizeof_cmd_data ∧ [5].length = 1
      ∧ (∀ c, c ≠ xorAll (1 ^^^ 109) [5] →
          (feed sampleEnv sampleWorld (inFrame 1 109 [5] c)).sent = sampleWorld.sent
            ∧ (feed sampleEnv sampleWorld (inFrame 1 109 [5] c)).m.state = MSP_IDLE)
      ∧ (∀ k, (feed sampleEnv sampleWorld (inFrame 1 109 [5]
                  (xorAll (1 ^^^ 109) [5] ^^^ 2 ^ k))).sent = sampleWorld.sent
            ∧ (feed sampleEnv sampleWorld (inFrame 1 109 [5]
                  (xorAll (1 ^^^ 109) [5] ^^^ 2 ^ k))).m.state = MSP_IDLE) :=
  ⟨rfl, by decide, rfl, bad_checksum_frame_dropped sampleEnv sampleWorld 1 109 [5] rfl
    (by decide) rfl⟩

/-- C5: for a command id `c` and a payload `p` of `n` ≤ 255 bytes, `msp_send`
appends to what was sent exactly the `n + 6` bytes
`'$' 'M' '>' n c p[0] .. p[n-1] cs`, in that order, where
`cs = n xor c xor p[0] xor .. xor p[n-1]`. -/
theorem msp_send_frame (w : World) (c : Nat) (p : List Nat) (h : p.length ≤ 255) :
    (msp_send w c p p.length).sent
        = w.sent ++ ([36, 77, 62, p.length, c] ++ p ++ [xorAll (p.length ^^^ c) p])
      ∧ ([36, 77, 62, p.length, c] ++ p ++ [xorAll (p.length ^^^ c) p]).length
          = p.length + 6 := by
  have h256 : p.length % 256 = p.length := Nat.mod_eq_of_lt (by omega)
  rw [msp_send_sent, readBytes_self, h256]
  simp

/-- C5, at command 108 with payload 1, 2, 3. -/
theorem msp_send_frame_witness :
    [1, 2, 3].length ≤ 255
      ∧ (msp_send sampleWorld 108 [1, 2, 3] [1, 2, 3].length).sent
          = sampleWorld.sent
            ++ ([36, 77, 62, [1, 2, 3].length, 108] ++ [1, 2, 3]
              ++ [xorAll ([1, 2, 3].length ^^^ 108) [1, 2, 3]])
      ∧ ([36, 77, 62, [1, 2, 3].length, 108] ++ [1, 2, 3]
            ++ [xorAll ([1, 2, 3].length ^^^ 108) [1, 2, 3]]).length = [1, 2, 3].length + 6 :=
  ⟨by decide, msp_send_frame sampleWorld 108 [1, 2, 3] (by decide)⟩

/-- C6: for every byte sequence fed to `msp_receive_byte` from the
zero-initialised session, every store made by `msp_state_fill_buf` is at an
index strictly below the buffer capacity `sizeof(cmd_data)` = 2, and whenever
the state is `MSP_FILLBUF` the fill index is below the declared length, which
is at most 2. -/
theorem fill_buf_stores_within_capacity (env : Env) (com telem_rf : Nat) (bs : List Nat) :
    (∀ i ∈ (feed env (World.init com telem_rf) bs).stores, i < sizeof_cmd_data)
      ∧ sizeof_cmd_data = 2
      ∧ ((feed env (World.init com telem_rf) bs).m.state = MSP_FILLBUF →
          (feed env (World.init com telem_rf) bs).m.cmd_i
              < (feed env (World.init com telem_rf) bs).m.cmd_size
            ∧ (feed env (World.init com telem_rf) bs).m.cmd_size ≤ 2) := by
  have h0 : BufferSafe (World.init com telem_rf) := by
    simp [BufferSafe, World.init, msp_init]
  obtain ⟨h1, h2⟩ := bufferSafe_feed env bs _ h0
  exact ⟨h1, rfl, h2⟩

/-- C7: fed from `MSP_IDLE` the bytes `0x3C`, a byte with high nibble 2, any
byte and a byte with high nibble 0, the first three calls of
`msp_receive_byte` return true and the fourth returns false, having written
the bridge's transport handle into `PIOS_COM_TELEM_RF`; the task then parks,
so whatever is received afterwards reaches neither the parser nor the
transport. -/
theorem collision_handover (env : Env) (w : World) (b2 b3 b4 : Nat)
    (hs : w.m.state = MSP_IDLE) (h2 : b2 &&& 0xf0 = 0x20) (h4 : b4 &&& 0xf0 = 0) :
    feedReturns env w [0x3C, b2, b3, b4] = [true, true, true, false]
      ∧ (feed env w [0x3C, b2, b3, b4]).telem_rf = w.m.com
      ∧ (feed env w [0x3C, b2, b3, b4]).sent = w.sent
      ∧ ∀ rxs, uavoMSPBridgeTask env { w := w, parked := false }
            ([Rx.byte 0x3C, Rx.byte b2, Rx.byte b3, Rx.byte b4] ++ rxs)
          = { w := feed env w [0x3C, b2, b3, b4], parked := true } := by
  refine ⟨?_, ?_, ?_, ?_⟩
  · simp [feedReturns, msp_receive_byte, hs, setState, h2, h4]
  · simp [feed, msp_receive_byte, hs, setState, h2, h4]
  · simp [feed, msp_receive_byte, hs, setState, h2, h4]
  · intro rxs
    rw [task_append]
    have : uavoMSPBridgeTask env { w := w, parked := false }
        [Rx.byte 0x3C, Rx.byte b2, Rx.byte b3, Rx.byte b4]
        = { w := feed env w [0x3C, b2, b3, b4], parked := true } := by
      simp [uavoMSPBridgeTask, uavoMSPBridgeTask_step, feed, msp_receive_byte, hs, setState,
        h2, h4]
    rw [this]
    exact task_parked env rxs _ rfl

/-- C7, at the sequence `0x3C, 0x2D, 0x7F, 0x05`. -/
theorem collision_handover_witness :
    sampleWorld.m.state = MSP_IDLE ∧ 0x2D &&& 0xf0 = 0x20 ∧ 0x05 &&& 0xf0 = 0
      ∧ feedReturns sampleEnv sampleWorld [0x3C, 0x2D, 0x7F, 0x05] = [true, true, true, false]
      ∧ (feed sampleEnv sampleWorld [0x3C, 0x2D, 0x7F, 0x05]).telem_rf = sampleWorld.m.com
      ∧ (feed sampleEnv sampleWorld [0x3C, 0x2D, 0x7F, 0x05]).sent = sampleWorld.sent
      ∧ ∀ rxs, uavoMSPBridgeTask sampleEnv { w := sampleWorld, parked := false }
            ([Rx.byte 0x3C, Rx.byte 0x2D, Rx.byte 0x7F, Rx.byte 0x05] ++ rxs)
          = { w := feed sampleEnv sampleWorld [0x3C, 0x2D, 0x7F, 0x05], parked := true } :=
  ⟨rfl, by decide, by decide,
    collision_handover sampleEnv sampleWorld 0x2D 0x7F 0x05 rfl (by decide) (by decide)⟩

/-- C8: when the declared length `L` exceeds the buffer capacity (2 < `L` ≤
255), the parser fed a frame from `MSP_IDLE` is in `MSP_DISCARD` after the
command byte and after each of the `L` payload bytes, and in `MSP_IDLE` after
the byte that follows them, whatever that byte is; after every prefix of the
frame nothing has been sent, nothing has been stored in the payload buffer
and the registry is untouched. -/
theorem oversized_frame_discarded (env : Env) (w : World) (L cmd : Nat) (payload : List Nat)
    (cs : Nat) (hs : w.m.state = MSP_IDLE) (hL : sizeof_cmd_data < L) (h255 : L ≤ 255)
    (hp : payload.length = L) :
    (∀ k, k ≤ L → (feed env w ([36, 77, 60, L, cmd] ++ payload.take k)).m.state = MSP_DISCARD)
      ∧ (feed env w (inFrame L cmd payload cs)).m.state = MSP_IDLE
      ∧ ∀ n, (feed env w ((inFrame L cmd payload cs).take n)).sent = w.sent
          ∧ (feed env w ((inFrame L cmd payload cs).take n)).stores = w.stores
          ∧ (feed env w ((inFrame L cmd payload cs).take n)).m.cmd_data = w.m.cmd_data
          ∧ (feed env w ((inFrame L cmd payload cs).take n)).telem_rf = w.telem_rf := by
  have hgt : L > sizeof_cmd_data := hL
  have hw1 := feed_header env w L cmd hs
  simp only [hgt, if_true] at hw1
  have hdis : ∀ j, j ≤ L →
      feed env w ([36, 77, 60, L, cmd] ++ payload.take j)
        = { w with m := { w.m with state := MSP_DISCARD, cmd_size := L, cmd_id := cmd,
                                   cmd_i := j, checksum := L ^^^ cmd } } := by
    intro j hj
    have hlen : (payload.take j).length = j := by simp [hp, hj]
    rw [feed_append, hw1, feed_discard env _ _ rfl (by simp [hlen, hj]) (by simpa using h255)]
    simp [hlen]
  have hall : feed env w (inFrame L cmd payload cs)
      = { w with m := { w.m with state := MSP_IDLE, cmd_size := L, cmd_id := cmd,
                                 cmd_i := (L + 1) % 256, checksum := L ^^^ cmd } } := by
    rw [inFrame, List.append_assoc, feed_append, hw1,
      feed_discard_all env _ payload cs rfl rfl (by simpa using hp) (by simpa using h255)]
  refine ⟨fun k hk => by rw [hdis k hk], by rw [hall], ?_⟩
  intro n
  by_cases hn5 : n < 5
  · interval_cases n <;>
      simp [inFrame, feed, msp_receive_byte, hs, setState, assignState, msp_state_size,
        msp_state_cmd]
  · obtain ⟨j, rfl⟩ : ∃ j, n = 5 + j := ⟨n - 5, by omega⟩
    by_cases hj : j ≤ L
    · have htake : (inFrame L cmd payload cs).take (5 + j)
          = [36, 77, 60, L, cmd] ++ payload.take j := by
        have h5 : 5 + j = ([36, 77, 60, L, cmd] : List Nat).length + j := rfl
        rw [inFrame, List.append_assoc, h5, List.take_append,
          List.take_append_of_le_length (by omega)]
      rw [htake, hdis j hj]
      simp
    · have htake : (inFrame L cmd payload cs).take (5 + j) = inFrame L cmd payload cs := by
        apply List.take_of_length_le
        simp [inFrame, hp]
        omega
      rw [htake, hall]
      simp

/-- C8, at the frame with declared length 3, command 1, payload 7, 8, 9 and
the correct checksum 4. -/
theorem oversized_frame_discarded_witness :
    sampleWorld.m.state = MSP_IDLE ∧ sizeof_cmd_data < 3 ∧ 3 ≤ 255 ∧ [7, 8, 9].length = 3
      ∧ (∀ k, k ≤ 3 →
          (feed sampleEnv sampleWorld ([36, 77, 60, 3, 1] ++ [7, 8, 9].take k)).m.state
            = MSP_DISCARD)
      ∧ (feed sampleEnv sampleWorld (inFrame 3 1 [7, 8, 9] 4)).m.state = MSP_IDLE
      ∧ ∀ n, (feed sampleEnv sampleWorld ((inFrame 3 1 [7, 8, 9] 4).take n)).sent
            = sampleWorld.sent
          ∧ (feed sampleEnv sampleWorld ((inFrame 3 1 [7, 8, 9] 4).take n)).stores
            = sampleWorld.stores
          ∧ (feed sampleEnv sampleWorld ((inFrame 3 1 [7, 8, 9] 4).take n)).m.cmd_data
            = sampleWorld.m.cmd_data
          ∧ (feed sampleEnv sampleWorld ((inFrame 3 1 [7, 8, 9] 4).take n)).telem_rf
            = sampleWorld.telem_rf :=
  ⟨rfl, by decide, by decide, rfl,
    oversized_frame_discarded sampleEnv sampleWorld 3 1 [7, 8, 9] 4 rfl (by decide) (by decide)
      rfl⟩

/-- C6, non-vacuity: after the header of a two-byte frame and its first
payload byte the parser is in `MSP_FILLBUF`, one store at index 0 has been
made, and the bound of C6 holds there. -/
theorem fill_buf_stores_within_capacity_witness :
    (feed sampleEnv (World.init 1 0) [36, 77, 60, 2, 245, 5]).m.state = MSP_FILLBUF
      ∧ (feed sampleEnv (World.init 1 0) [36, 77, 60, 2, 245, 5]).stores = [0]
      ∧ (feed sampleEnv (World.init 1 0) [36, 77, 60, 2, 245, 5]).m.cmd_i
          < (feed sampleEnv (World.init 1 0) [36, 77, 60, 2, 245, 5]).m.cmd_size
      ∧ (feed sampleEnv (World.init 1 0) [36, 77, 60, 2, 245, 5]).m.cmd_size ≤ 2 :=
  ⟨by decide, by decide,
    (fill_buf_stores_within_capacity sampleEnv 1 0 [36, 77, 60, 2, 245, 5]).2.2 (by decide)⟩

/-- C9 as stated fails: with the pitch stick at 0.5 the pitch channel (index 1)
of the RC-channels array is 1250, not 1000. -/
theorem pitch_half_channel_not_1000 :
    sampleEnvPitchHalf.ManualControlCommand_Pitch = 1 / 2
      ∧ (msp_channels sampleEnvPitchHalf).getD 1 0 = 1250
      ∧ (msp_channels sampleEnvPitchHalf).getD 1 0 ≠ 1000 := by
  have h := pitch_channel_of_half sampleEnvPitchHalf rfl
  refine ⟨rfl, h, ?_⟩
  rw [h]
  decide

/-- C9, amended: for a pitch input of 0.5 the pitch channel (index 1) of the
RC-channels response is 1250: the input is sign-inverted to -0.5 and then
mapped by the symmetric map; on the wire it is the little-endian pair 226, 4
at payload offset 2. -/
theorem pitch_half_channel_1250 (env : Env) (h : env.ManualControlCommand_Pitch = 1 / 2) :
    (msp_channels env).getD 1 0
        = msp_scale_rc env (fmul env.ManualControlCommand_Pitch (-1))
      ∧ (msp_channels env).getD 1 0 = 1250
      ∧ (((msp_channels env).flatMap le16).drop 2).take 2 = [226, 4] := by
  refine ⟨msp_channels_pitch env, pitch_channel_of_half env h, ?_⟩
  rw [msp_channels_pitch_wire, pitch_channel_of_half env h]
  decide

/-- C9 amended, at the sample model with the pitch stick at one half. -/
theorem pitch_half_channel_1250_witness :
    sampleEnvPitchHalf.ManualControlCommand_Pitch = 1 / 2
      ∧ (msp_channels sampleEnvPitchHalf).getD 1 0
          = msp_scale_rc sampleEnvPitchHalf
              (fmul sampleEnvPitchHalf.ManualControlCommand_Pitch (-1))
      ∧ (msp_channels sampleEnvPitchHalf).getD 1 0 = 1250
      ∧ (((msp_channels sampleEnvPitchHalf).flatMap le16).drop 2).take 2 = [226, 4] :=
  ⟨rfl, pitch_half_channel_1250 sampleEnvPitchHalf rfl⟩

/-- C10 as stated fails: at the binary32 value `p = 1/2 - 2 ^ (-25)` of the
stick range `msp_scale_rc` returns 1750, in the sample build that does not
fuse `percent*500 + 1500` and in the one that does, and the truncation of
`500*p + 1500` is 1749. -/
theorem msp_scale_rc_not_truncation :
    (-1 : ℚ) ≤ 16777215 / 33554432 ∧ (16777215 / 33554432 : ℚ) ≤ 1
      ∧ roundF32 (16777215 / 33554432) = 16777215 / 33554432
      ∧ sampleEnv.FP_CONTRACT = false ∧ sampleEnvFused.FP_CONTRACT = true
      ∧ msp_scale_rc sampleEnv (16777215 / 33554432) = 1750
      ∧ msp_scale_rc sampleEnvFused (16777215 / 33554432) = 1750
      ∧ truncf (500 * (16777215 / 33554432) + 1500) = 1749
      ∧ (msp_scale_rc sampleEnv (16777215 / 33554432) : ℤ)
          ≠ truncf (500 * (16777215 / 33554432) + 1500) := by
  refine ⟨by norm_num, by norm_num, below_half_is_float, rfl, rfl,
    msp_scale_rc_below_half sampleEnv, msp_scale_rc_below_half sampleEnvFused,
    truncf_below_1750, ?_⟩
  rw [msp_scale_rc_below_half sampleEnv, truncf_below_1750]
  norm_num

/-- C10, amended: for every `p` in [-1, 1], `msp_scale_rc p` is the truncation
of `500*p + 1500` or that number plus one, and it is the truncation itself
unless `500*p + 1500` lies within `3 / 32768` below the next integer (the
expression is evaluated in single precision, fused or not, which can round up
to that integer); it is exact wherever `500*p` is an integer, so it maps -1
to 1000, 0 to 1500 and 1 to 2000; it is non-decreasing on [-1, 1] and its
result lies in [1000, 2000]. Which of the two values it is can depend on the
build: at the binary32 value `1866465 / 2 ^ 21` a build that fuses returns
1944 and one that does not returns 1945. -/
theorem msp_scale_rc_linear_map (env : Env) :
    (∀ p : ℚ, -1 ≤ p → p ≤ 1 →
        truncf (500 * p + 1500) ≤ msp_scale_rc env p
          ∧ (msp_scale_rc env p : ℤ) ≤ truncf (500 * p + 1500) + 1
          ∧ (500 * p + 1500 + 3 / 32768 < truncf (500 * p + 1500) + 1 →
              (msp_scale_rc env p : ℤ) = truncf (500 * p + 1500))
          ∧ 1000 ≤ msp_scale_rc env p ∧ msp_scale_rc env p ≤ 2000)
      ∧ (∀ (p : ℚ) (a : ℤ), p * 500 = a → -500 ≤ a → a ≤ 500 →
          (msp_scale_rc env p : ℤ) = a + 1500)
      ∧ msp_scale_rc env (-1) = 1000 ∧ msp_scale_rc env 0 = 1500 ∧ msp_scale_rc env 1 = 2000
      ∧ (∀ p q : ℚ, -1 ≤ p → p ≤ q → q ≤ 1 → msp_scale_rc env p ≤ msp_scale_rc env q)
      ∧ (env.FP_CONTRACT = true → msp_scale_rc env (1866465 / 2097152) = 1944)
      ∧ (env.FP_CONTRACT = false → msp_scale_rc env (1866465 / 2097152) = 1945) := by
  refine ⟨?_, msp_scale_rc_of_int env, ?_, ?_, ?_, msp_scale_rc_mono env,
    msp_scale_rc_contraction env⟩
  · intro p h1 h2
    obtain ⟨hlo, hhi⟩ := scale_rc_trunc_range env p h1 h2
    have heq := msp_scale_rc_eq_trunc env p h1 h2
    obtain ⟨n1, n2⟩ := msp_scale_rc_near_exact env p h1 h2
    refine ⟨n1, n2, msp_scale_rc_exact_away env p h1 h2, ?_, ?_⟩ <;> omega
  · have := msp_scale_rc_of_int env (-1) (-500) (by norm_num) (by norm_num) (by norm_num)
    omega
  · have := msp_scale_rc_of_int env 0 0 (by norm_num) (by norm_num) (by norm_num)
    omega
  · have := msp_scale_rc_of_int env 1 500 (by norm_num) (by norm_num) (by norm_num)
    omega

/-- C10 amended, at the inputs 1/4 (where `500*p + 1500` is the integer 1625)
and 1/2, and at `1866465 / 2 ^ 21` in the two sample builds. -/
theorem msp_scale_rc_linear_map_witness :
    (-1 : ℚ) ≤ 1 / 4 ∧ (1 / 4 : ℚ) ≤ 1 / 2 ∧ (1 / 2 : ℚ) ≤ 1
      ∧ (1 / 4 : ℚ) * 500 = ((125 : ℤ) : ℚ)
      ∧ sampleEnv.FP_CONTRACT = false ∧ sampleEnvFused.FP_CONTRACT = true
      ∧ msp_scale_rc sampleEnv (1866465 / 2097152) = 1945
      ∧ msp_scale_rc sampleEnvFused (1866465 / 2097152) = 1944
      ∧ truncf (500 * (1 / 4) + 1500) ≤ msp_scale_rc sampleEnv (1 / 4)
      ∧ (msp_scale_rc sampleEnv (1 / 4) : ℤ) = 125 + 1500
      ∧ 1000 ≤ msp_scale_rc sampleEnv (1 / 4) ∧ msp_scale_rc sampleEnv (1 / 4) ≤ 2000
      ∧ msp_scale_rc sampleEnv (1 / 4) ≤ msp_scale_rc sampleEnv (1 / 2) :=
  ⟨by norm_num, by norm_num, by norm_num, by norm_num, rfl, rfl,
    (msp_scale_rc_linear_map sampleEnv).2.2.2.2.2.2.2 rfl,
    (msp_scale_rc_linear_map sampleEnvFused).2.2.2.2.2.2.1 rfl,
    ((msp_scale_rc_linear_map sampleEnv).1 (1 / 4) (by norm_num) (by norm_num)).1,
    (msp_scale_rc_linear_map sampleEnv).2.1 (1 / 4) 125 (by norm_num) (by norm_num)
      (by norm_num),
    ((msp_scale_rc_linear_map sampleEnv).1 (1 / 4) (by norm_num) (by norm_num)).2.2.2.1,
    ((msp_scale_rc_linear_map sampleEnv).1 (1 / 4) (by norm_num) (by norm_num)).2.2.2.2,
    (msp_scale_rc_linear_map sampleEnv).2.2.2.2.2.1 (1 / 4) (1 / 2) (by norm_num) (by norm_num)
      (by norm_num)⟩

theorem sentBy_send (w : World) (cmd : Nat) (data : List Nat) (len : Nat) :
    sentBy w (msp_send w cmd data len)
      = [36, 77, 62, len % 256, cmd] ++ readBytes data len
          ++ [xorAll ((len % 256) ^^^ cmd) (readBytes data len)] := by
  rw [sentBy, msp_send_sent, List.drop_left]

theorem framePayload_send (w : World) (cmd : Nat) (data : List Nat) (len : Nat) :
    framePayload (sentBy w (msp_send w cmd data len)) = readBytes data len := by
  rw [sentBy_send, framePayload]
  simp

theorem readBytes_of_length (data : List Nat) (len : Nat) (h : data.length = len) :
    readBytes data len = data := by
  subst h
  exact readBytes_self data

theorem msp_send_outFrame (w : World) (cmd : Nat) (data : List Nat) (len : Nat)
    (hl : data.length = len) (h : len ≤ 255) :
    (msp_send w cmd data len).sent = w.sent ++ outFrame cmd data := by
  have h256 : len % 256 = len := Nat.mod_eq_of_lt (by omega)
  rw [msp_send_sent, readBytes_of_length data len hl, h256, outFrame, hl]

/-- C11 as stated fails: at the binary32 value `p = 1/2 - 2 ^ (-25)` of (0, 1]
`msp_scale_rc_thr` returns 1500, in the sample build that does not fuse
`percent*800 + 1100` and in the one that does, and the truncation of
`800*p + 1100` is 1499. -/
theorem msp_scale_rc_thr_not_truncation :
    (0 : ℚ) < 16777215 / 33554432 ∧ (16777215 / 33554432 : ℚ) ≤ 1
      ∧ roundF32 (16777215 / 33554432) = 16777215 / 33554432
      ∧ sampleEnv.FP_CONTRACT = false ∧ sampleEnvFused.FP_CONTRACT = true
      ∧ msp_scale_rc_thr sampleEnv (16777215 / 33554432) = 1500
      ∧ msp_scale_rc_thr sampleEnvFused (16777215 / 33554432) = 1500
      ∧ truncf (800 * (16777215 / 33554432) + 1100) = 1499
      ∧ (msp_scale_rc_thr sampleEnv (16777215 / 33554432) : ℤ)
          ≠ truncf (800 * (16777215 / 33554432) + 1100) := by
  refine ⟨by norm_num, by norm_num, below_half_is_float, rfl, rfl,
    msp_scale_rc_thr_below_half sampleEnv, msp_scale_rc_thr_below_half sampleEnvFused,
    truncf_below_1500, ?_⟩
  rw [msp_scale_rc_thr_below_half sampleEnv, truncf_below_1500]
  norm_num

/-- C11, amended: `msp_scale_rc_thr p` is 1100 for every `p` ≤ 0 and, for `p`
in (0, 1], the truncation of `800*p + 1100` or that number plus one, and the
truncation itself unless `800*p + 1100` lies within `3 / 32768` below the next
integer (the expression is evaluated in single precision, fused or not, which
can round up to that integer); it is exact wherever `800*p` is an integer, so
it maps -1 to 1100, 0 to 1100 and 1 to 1900, and for `p` in [-1, 1] the result
lies in [1100, 1900]. Which of the two values it is can depend on the build:
at the binary32 value `2081423 / 2 ^ 22` a build that fuses returns 1496 and
one that does not returns 1497. -/
theorem msp_scale_rc_thr_map (env : Env) :
    (∀ p : ℚ, p ≤ 0 → msp_scale_rc_thr env p = 1100)
      ∧ (∀ p : ℚ, 0 < p → p ≤ 1 →
          truncf (800 * p + 1100) ≤ msp_scale_rc_thr env p
            ∧ (msp_scale_rc_thr env p : ℤ) ≤ truncf (800 * p + 1100) + 1
            ∧ (800 * p + 1100 + 3 / 32768 < truncf (800 * p + 1100) + 1 →
                (msp_scale_rc_thr env p : ℤ) = truncf (800 * p + 1100)))
      ∧ (∀ (p : ℚ) (a : ℤ), p * 800 = a → 0 < a → a ≤ 800 →
          (msp_scale_rc_thr env p : ℤ) = a + 1100)
      ∧ msp_scale_rc_thr env (-1) = 1100 ∧ msp_scale_rc_thr env 0 = 1100
      ∧ msp_scale_rc_thr env 1 = 1900
      ∧ (∀ p : ℚ, -1 ≤ p → p ≤ 1 →
          1100 ≤ msp_scale_rc_thr env p ∧ msp_scale_rc_thr env p ≤ 1900)
      ∧ (env.FP_CONTRACT = true → msp_scale_rc_thr env (2081423 / 4194304) = 1496)
      ∧ (env.FP_CONTRACT = false → msp_scale_rc_thr env (2081423 / 4194304) = 1497) := by
  refine ⟨msp_scale_rc_thr_nonpos env, ?_, msp_scale_rc_thr_of_int env,
    msp_scale_rc_thr_nonpos env _ (by norm_num), msp_scale_rc_thr_nonpos env _ le_rfl,
    msp_scale_rc_thr_one env, ?_, msp_scale_rc_thr_contraction env⟩
  · intro p h1 h2
    obtain ⟨n1, n2⟩ := msp_scale_rc_thr_near_exact env p h1 h2
    exact ⟨n1, n2, msp_scale_rc_thr_exact_away env p h1 h2⟩
  · intro p _ h2
    by_cases hp : p ≤ 0
    · rw [msp_scale_rc_thr_nonpos env p hp]
      exact ⟨le_rfl, by norm_num⟩
    · have hp' : 0 < p := not_le.mp hp
      have heq := msp_scale_rc_thr_pos env p hp' h2
      obtain ⟨hlo, hhi⟩ := scale_rc_thr_trunc_range env p hp'.le h2
      constructor <;> omega

/-- C11 amended, at the inputs -1/2 and 1/2 (where `800*p + 1100` is the
integer 1500), and at `2081423 / 2 ^ 22` in the two sample builds. -/
theorem msp_scale_rc_thr_map_witness :
    (-1 / 2 : ℚ) ≤ 0 ∧ (0 : ℚ) < 1 / 2 ∧ (1 / 2 : ℚ) ≤ 1 ∧ (-1 : ℚ) ≤ 1 / 2
      ∧ (1 / 2 : ℚ) * 800 = ((400 : ℤ) : ℚ)
      ∧ sampleEnv.FP_CONTRACT = false ∧ sampleEnvFused.FP_CONTRACT = true
      ∧ msp_scale_rc_thr sampleEnv (2081423 / 4194304) = 1497
      ∧ msp_scale_rc_thr sampleEnvFused (2081423 / 4194304) = 1496
      ∧ msp_scale_rc_thr sampleEnv (-1 / 2) = 1100
      ∧ truncf (800 * (1 / 2) + 1100) ≤ msp_scale_rc_thr sampleEnv (1 / 2)
      ∧ (msp_scale_rc_thr sampleEnv (1 / 2) : ℤ) = 400 + 1100
      ∧ 1100 ≤ msp_scale_rc_thr sampleEnv (1 / 2)
      ∧ msp_scale_rc_thr sampleEnv (1 / 2) ≤ 1900 :=
  ⟨by norm_num, by norm_num, by norm_num, by norm_num, by norm_num, rfl, rfl,
    (msp_scale_rc_thr_map sampleEnv).2.2.2.2.2.2.2.2 rfl,
    (msp_scale_rc_thr_map sampleEnvFused).2.2.2.2.2.2.2.1 rfl,
    (msp_scale_rc_thr_map sampleEnv).1 (-1 / 2) (by norm_num),
    ((msp_scale_rc_thr_map sampleEnv).2.1 (1 / 2) (by norm_num) (by norm_num)).1,
    (msp_scale_rc_thr_map sampleEnv).2.2.1 (1 / 2) 400 (by norm_num) (by norm_num)
      (by norm_num),
    ((msp_scale_rc_thr_map sampleEnv).2.2.2.2.2.2.1 (1 / 2) (by norm_num) (by norm_num)).1,
    ((msp_scale_rc_thr_map sampleEnv).2.2.2.2.2.2.1 (1 / 2) (by norm_num) (by norm_num)).2⟩

/-- The value `data.status.rssi` receives, as a function of the RSSI reading. -/
theorem analog_payload_shape (env : Env) (w : World) :
    ∃ vbat pms cur, framePayload (sentBy w (msp_send_analog env w))
      = [vbat] ++ le16 pms
          ++ le16 (if env.ManualControlCommand_Rssi ≤ 0 then 0
                   else if env.ManualControlCommand_Rssi ≥ 100 then 1023
                   else toBits 16 (env.ManualControlCommand_Rssi * 10))
          ++ le16 cur := by
  unfold msp_send_analog
  simp only []
  rw [framePayload_send, readBytes_of_length _ 7 (by simp [le16])]
  exact ⟨_, _, _, rfl⟩

theorem u16le_analog_rssi (vbat pms rssi cur : Nat) (h : rssi < 65536) :
    u16le ([vbat] ++ le16 pms ++ le16 rssi ++ le16 cur) 3 = rssi := by
  simp [u16le, le16]
  omega

/-- The RSSI field of the analog response as a function of the reading. -/
theorem analog_rssi_value (env : Env) (w : World) :
    (u16le (framePayload (sentBy w (msp_send_analog env w))) 3 : ℤ)
      = if env.ManualControlCommand_Rssi ≤ 0 then 0
        else if env.ManualControlCommand_Rssi ≥ 100 then 1023
        else 10 * env.ManualControlCommand_Rssi := by
  obtain ⟨vbat, pms, cur, h⟩ := analog_payload_shape env w
  rw [h]
  by_cases h0 : env.ManualControlCommand_Rssi ≤ 0
  · simp only [h0, if_true]
    rw [u16le_analog_rssi _ _ _ _ (by norm_num)]
    rfl
  · by_cases h100 : env.ManualControlCommand_Rssi ≥ 100
    · simp only [h0, h100, if_true, if_false]
      rw [u16le_analog_rssi _ _ _ _ (by norm_num)]
      rfl
    · simp only [h0, h100, if_false]
      have hb := toBits16_of_range (env.ManualControlCommand_Rssi * 10) (by omega) (by omega)
      rw [u16le_analog_rssi _ _ _ _ (by omega), hb]
      ring

/-- C12: the RSSI field of the analog response (the little-endian 16-bit field
at payload offset 3) is 0 when the reading `r` is at most 0, 1023 when `r` is
at least 100 and `10 * r` otherwise; so 0 gives 0, 50 gives 500, 100 gives
1023 and 150 gives 1023, the field never exceeds 1023 and it is
non-decreasing in `r`. -/
theorem analog_rssi_scaling :
    (∀ (env : Env) (w : World),
        (u16le (framePayload (sentBy w (msp_send_analog env w))) 3 : ℤ)
          = if env.ManualControlCommand_Rssi ≤ 0 then 0
            else if env.ManualControlCommand_Rssi ≥ 100 then 1023
            else 10 * env.ManualControlCommand_Rssi)
      ∧ (∀ (env : Env) (w : World),
          u16le (framePayload (sentBy w (msp_send_analog env w))) 3 ≤ 1023)
      ∧ (∀ (env env' : Env) (w w' : World),
          env.ManualControlCommand_Rssi ≤ env'.ManualControlCommand_Rssi →
          u16le (framePayload (sentBy w (msp_send_analog env w))) 3
            ≤ u16le (framePayload (sentBy w' (msp_send_analog env' w'))) 3)
      ∧ (∀ (env : Env) (w : World), env.ManualControlCommand_Rssi = 0 →
          u16le (framePayload (sentBy w (msp_send_analog env w))) 3 = 0)
      ∧ (∀ (env : Env) (w : World), env.ManualControlCommand_Rssi = 50 →
          u16le (framePayload (sentBy w (msp_send_analog env w))) 3 = 500)
      ∧ (∀ (env : Env) (w : World), env.ManualControlCommand_Rssi = 100 →
          u16le (framePayload (sentBy w (msp_send_analog env w))) 3 = 1023)
      ∧ (∀ (env : Env) (w : World), env.ManualControlCommand_Rssi = 150 →
          u16le (framePayload (sentBy w (msp_send_analog env w))) 3 = 1023) := by
  refine ⟨analog_rssi_value, ?_, ?_, ?_, ?_, ?_, ?_⟩
  · intro env w
    have h := analog_rssi_value env w
    split_ifs at h <;> omega
  · intro env env' w w' hle
    have h := analog_rssi_value env w
    have h' := analog_rssi_value env' w'
    split_ifs at h h' <;> omega
  all_goals
    intro env w hr
    have h := analog_rssi_value env w
    rw [hr] at h
    norm_num at h
    exact_mod_cast h

/-- C12, at the readings 50 and 150. -/
theorem analog_rssi_scaling_witness :
    sampleEnvRssi50.ManualControlCommand_Rssi = 50
      ∧ sampleEnvRssi150.ManualControlCommand_Rssi = 150
      ∧ sampleEnvRssi50.ManualControlCommand_Rssi ≤ sampleEnvRssi150.ManualControlCommand_Rssi
      ∧ u16le (framePayload (sentBy sampleWorld (msp_send_analog sampleEnvRssi50 sampleWorld))) 3
          = 500
      ∧ u16le (framePayload (sentBy sampleWorld (msp_send_analog sampleEnvRssi150 sampleWorld))) 3
          = 1023
      ∧ u16le (framePayload (sentBy sampleWorld (msp_send_analog sampleEnvRssi50 sampleWorld))) 3
          ≤ u16le (framePayload
              (sentBy sampleWorld (msp_send_analog sampleEnvRssi150 sampleWorld))) 3 :=
  ⟨rfl, rfl, by decide,
    analog_rssi_scaling.2.2.2.2.1 sampleEnvRssi50 sampleWorld rfl,
    analog_rssi_scaling.2.2.2.2.2.2 sampleEnvRssi150 sampleWorld rfl,
    analog_rssi_scaling.2.2.1 sampleEnvRssi50 sampleEnvRssi150 sampleWorld sampleWorld
      (by decide)⟩

theorem status_payload_shape (env : Env) (w : World) :
    ∃ sensors, framePayload (sentBy w (msp_send_status env w))
      = le16 0 ++ le16 0 ++ le16 sensors
          ++ le32 (if env.FlightStatusHandle then
              msp_send_status_loop env.FlightStatus_FlightMode ((msp_boxes env).drop 1) 1
                (if env.FlightStatus_Armed = env.FLIGHTSTATUS_ARMED_ARMED then 1 else 0)
            else 0)
          ++ [0] := by
  unfold msp_send_status
  simp only []
  rw [framePayload_send, readBytes_of_length _ 11 (by simp [le16, le32])]
  exact ⟨_, rfl⟩

theorem u32le_status_flags (a b c f s : Nat) (h : f < 4294967296) :
    u32le (le16 a ++ le16 b ++ le16 c ++ le32 f ++ [s]) 6 = f := by
  simp [u32le, le16, le32]
  omega

/-- The loop of `msp_send_status` over the table, row by row. -/
theorem status_loop_table (env : Env) (fm a : Nat) :
    msp_send_status_loop fm ((msp_boxes env).drop 1) 1 a
      = ((((((a ||| (if fm = env.FLIGHTSTATUS_FLIGHTMODE_LEVELING then 2 else 0))
          ||| (if fm = env.FLIGHTSTATUS_FLIGHTMODE_HORIZON then 4 else 0))
          ||| (if fm = env.FLIGHTSTATUS_FLIGHTMODE_ALTITUDEHOLD then 8 else 0))
          ||| (if fm = 0 then 16 else 0))
          ||| (if fm = 0 then 32 else 0))
          ||| (if fm = env.FLIGHTSTATUS_FLIGHTMODE_RETURNTOHOME then 64 else 0))
          ||| (if fm = env.FLIGHTSTATUS_FLIGHTMODE_POSITIONHOLD then 128 else 0) := by
  simp only [msp_boxes, List.drop_succ_cons, List.drop_zero, msp_send_status_loop,
    MSP_BOX_ANGLE, MSP_BOX_HORIZON, MSP_BOX_BARO, MSP_BOX_VARIO, MSP_BOX_MAG,
    MSP_BOX_GPSHOME, MSP_BOX_GPSHOLD, MSP_BOX_LAST]
  simp only [Nat.reduceEqDiff, if_false, if_true, Nat.reduceAdd, Nat.reduceShiftLeft]
  split_ifs <;> simp

/-- Bits of a byte-sized value above bit 7 are clear, so a check of bits 1 to 7
settles all higher positions. -/
theorem testBit_of_byte (n i : Nat) (hn : n < 256) (hi : i < 8)
    (h : ∀ j < 8, 1 ≤ j → (n.testBit j = true ↔ j = i)) :
    ∀ j, 1 ≤ j → (n.testBit j = true ↔ j = i) := by
  intro j hj
  by_cases hj8 : j < 8
  · exact h j hj8 hj
  · have hlt : n < 2 ^ j :=
      lt_of_lt_of_le hn (by
        calc 256 = 2 ^ 8 := by norm_num
          _ ≤ 2 ^ j := Nat.pow_le_pow_right (by norm_num) (by omega))
    rw [Nat.testBit_lt_two_pow hlt]
    constructor
    · intro hf; exact absurd hf (by simp)
    · intro hji; omega

/-- The flags field of the status response when the flight mode equals the
predicate of one of the slots 1, 2, 3, 6, 7, the predicates being distinct and
non-zero. -/
theorem status_flags_of_slot (env : Env) (w : World)
    (hh : env.FlightStatusHandle = true)
    (hd : [env.FLIGHTSTATUS_FLIGHTMODE_LEVELING, env.FLIGHTSTATUS_FLIGHTMODE_HORIZON,
            env.FLIGHTSTATUS_FLIGHTMODE_ALTITUDEHOLD, env.FLIGHTSTATUS_FLIGHTMODE_RETURNTOHOME,
            env.FLIGHTSTATUS_FLIGHTMODE_POSITIONHOLD, 0].Nodup)
    (i tl : Nat)
    (hmem : (i, tl) ∈ [(1, env.FLIGHTSTATUS_FLIGHTMODE_LEVELING),
                       (2, env.FLIGHTSTATUS_FLIGHTMODE_HORIZON),
                       (3, env.FLIGHTSTATUS_FLIGHTMODE_ALTITUDEHOLD),
                       (6, env.FLIGHTSTATUS_FLIGHTMODE_RETURNTOHOME),
                       (7, env.FLIGHTSTATUS_FLIGHTMODE_POSITIONHOLD)])
    (hfm : env.FlightStatus_FlightMode = tl) :
    u32le (framePayload (sentBy w (msp_send_status env w))) 6
      = (if env.FlightStatus_Armed = env.FLIGHTSTATUS_ARMED_ARMED then 1 else 0) + 2 ^ i := by
  obtain ⟨sensors, hp⟩ := status_payload_shape env w
  rw [hp, hh, if_pos rfl, status_loop_table, hfm]
  simp only [List.nodup_cons, List.mem_cons, List.mem_singleton, not_or, List.not_mem_nil,
    not_false_eq_true, List.nodup_nil, and_true] at hd
  obtain ⟨⟨h12, h13, h14, h15, h10⟩, ⟨h23, h24, h25, h20⟩, ⟨h34, h35, h30⟩, ⟨h45, h40⟩, h50⟩ := hd
  simp only [List.mem_cons, Prod.mk.injEq, List.mem_singleton, List.not_mem_nil, or_false]
    at hmem
  rcases hmem with ⟨rfl, rfl⟩ | ⟨rfl, rfl⟩ | ⟨rfl, rfl⟩ | ⟨rfl, rfl⟩ | ⟨rfl, rfl⟩
  all_goals
    simp only [h12, h13, h14, h15, h10, h23, h24, h25, h20, h34, h35, h30, h45, h40, h50,
      Ne.symm h12, Ne.symm h13, Ne.symm h14, Ne.symm h15, Ne.symm h23, Ne.symm h24,
      Ne.symm h25, Ne.symm h34, Ne.symm h35, Ne.symm h45, if_true, if_false]
    rw [u32le_status_flags _ _ _ _ _ (by split_ifs <;> decide)]
    split_ifs <;> decide

/-- The dispatcher hands an altitude request to `msp_send_altitude`. -/
theorem dispatch_altitude (env : Env) (w : World) (h : w.m.cmd_id = MSP_ALTITUDE) :
    (msp_state_checksum env w w.m.checksum).1 = msp_send_altitude env w := by
  simp only [MSP_ALTITUDE] at h
  simp only [msp_state_checksum, Nat.xor_self, ne_eq, not_true_eq_false, if_false, h,
    MSP_API_VERSION, MSP_FC_VERSION, MSP_FC_VARIANT, MSP_BOARD_INFO,
    MSP_BUILD_INFO, MSP_NAME, MSP_FEATURE, MSP_UID, MSP_MOTOR, MSP_RAW_GPS, MSP_COMP_GPS,
    MSP_ALTITUDE, if_true, Nat.reduceEqDiff, ↓reduceIte]

/-- The dispatcher hands an ESC-passthrough request to `msp_handle_4wif`. -/
theorem dispatch_4wif (env : Env) (w : World) (h : w.m.cmd_id = MSP_SET_4WAY_IF) :
    (msp_state_checksum env w w.m.checksum).1 = msp_handle_4wif w := by
  simp only [MSP_SET_4WAY_IF] at h
  simp only [msp_state_checksum, Nat.xor_self, ne_eq, not_true_eq_false, if_false, h,
    MSP_API_VERSION, MSP_FC_VERSION, MSP_FC_VARIANT, MSP_BOARD_INFO,
    MSP_BUILD_INFO, MSP_NAME, MSP_FEATURE, MSP_UID, MSP_MOTOR, MSP_RAW_GPS, MSP_COMP_GPS,
    MSP_ALTITUDE, MSP_ATTITUDE, MSP_STATUS, MSP_ANALOG, MSP_RC, MSP_MISC, MSP_BOXIDS,
    MSP_ALARMS, MSP_SET_4WAY_IF, if_true, Nat.reduceEqDiff, ↓reduceIte]

/-- A valid frame that fits the buffer runs the dispatcher on the world reached
after header and payload, and ends in `MSP_IDLE`. -/
theorem feed_valid_frame (env : Env) (w : World) (L c : Nat) (payload : List Nat)
    (hs : w.m.state = MSP_IDLE) (hL : L ≤ sizeof_cmd_data) (hp : payload.length = L) :
    feed env w (inFrame L c payload (xorAll (L ^^^ c) payload))
      = setState (msp_state_checksum env (feed env w ([36, 77, 60, L, c] ++ payload))
          (feed env w ([36, 77, 60, L, c] ++ payload)).m.checksum).1 MSP_IDLE := by
  obtain ⟨h1, -, -, h4, -⟩ := feed_to_checksum env w L c payload hs hL hp
  rw [feed_inFrame, ← h4, checksum_match env _ h1]

theorem altitude_payload_length (a b : Nat) : (le32 a ++ le16 b).length = 6 := by
  simp [le32, le16]

/-- With voltage sensing disabled `msp_send_analog` never writes the voltage
byte of its payload: what is sent is what the stack held. -/
theorem analog_vbat_disabled (env : Env) (w : World)
    (hh : env.FlightBatterySettingsHandle = true)
    (hpin : env.FlightBatterySettings_VoltagePin = env.FLIGHTBATTERYSETTINGS_VOLTAGEPIN_NONE) :
    (framePayload (sentBy w (msp_send_analog env w))).getD 0 0 = env.stack_analog_vbat := by
  unfold msp_send_analog
  simp only []
  rw [framePayload_send, readBytes_of_length _ 7 (by simp [le16])]
  simp only [hh, hpin, if_true, ne_eq, not_true_eq_false, if_false, List.singleton_append,
    List.cons_append, List.getD_cons_zero]

theorem u16le_analog_fields (vbat pms rssi cur : Nat) :
    u16le ([vbat] ++ le16 pms ++ le16 rssi ++ le16 cur) 1 = pms % 65536
      ∧ u16le ([vbat] ++ le16 pms ++ le16 rssi ++ le16 cur) 5 = cur % 65536 := by
  simp [u16le, le16]
  omega

/-- With current sensing disabled `msp_send_analog` leaves the consumed-energy
field at its initial 0 and never writes the current field: what is sent there
is what the stack held. -/
theorem analog_current_disabled (env : Env) (w : World)
    (hh : env.FlightBatterySettingsHandle = true)
    (hpin : env.FlightBatterySettings_CurrentPin = env.FLIGHTBATTERYSETTINGS_CURRENTPIN_NONE) :
    u16le (framePayload (sentBy w (msp_send_analog env w))) 1 = 0
      ∧ u16le (framePayload (sentBy w (msp_send_analog env w))) 5
          = env.stack_analog_current % 65536 := by
  unfold msp_send_analog
  simp only []
  rw [framePayload_send, readBytes_of_length _ 7 (by simp [le16])]
  simp only [hh, hpin, if_true, ne_eq, not_true_eq_false, if_false]
  exact ⟨(u16le_analog_fields _ _ _ _).1, (u16le_analog_fields _ _ _ _).2⟩

/-- C15 fails on the code: with voltage sensing disabled (`VoltagePin` is
`NONE`) and the byte 170 on the stack, the battery-voltage byte of the analog
payload is 170, not 0. -/
theorem analog_vbat_uninitialised :
    sampleEnvNoVoltagePin.FlightBatterySettingsHandle = true
      ∧ sampleEnvNoVoltagePin.FlightBatterySettings_VoltagePin
          = sampleEnvNoVoltagePin.FLIGHTBATTERYSETTINGS_VOLTAGEPIN_NONE
      ∧ (framePayload (sentBy sampleWorld
          (msp_send_analog sampleEnvNoVoltagePin sampleWorld))).getD 0 0 = 170 :=
  ⟨rfl, rfl, analog_vbat_disabled sampleEnvNoVoltagePin sampleWorld rfl rfl⟩

/-- C16 fails on the code for the current field: with current sensing disabled
(`CurrentPin` is `NONE`) and 48879 on the stack, the consumed-energy field of
the analog payload is 0 but the current field is 48879. -/
theorem analog_current_uninitialised :
    sampleEnvNoCurrentPin.FlightBatterySettingsHandle = true
      ∧ sampleEnvNoCurrentPin.FlightBatterySettings_CurrentPin
          = sampleEnvNoCurrentPin.FLIGHTBATTERYSETTINGS_CURRENTPIN_NONE
      ∧ u16le (framePayload (sentBy sampleWorld
          (msp_send_analog sampleEnvNoCurrentPin sampleWorld))) 1 = 0
      ∧ u16le (framePayload (sentBy sampleWorld
          (msp_send_analog sampleEnvNoCurrentPin sampleWorld))) 5 = 48879 :=
  ⟨rfl, rfl, (analog_current_disabled sampleEnvNoCurrentPin sampleWorld rfl rfl).1,
    (analog_current_disabled sampleEnvNoCurrentPin sampleWorld rfl rfl).2⟩

theorem channels_payload_length (env : Env) : ((msp_channels env).flatMap le16).length = 16 := by
  simp [msp_channels, le16, List.flatMap]

/-- C17: the RC-channels response is one frame for command 105 whose payload
is the 16 bytes of eight little-endian `uint16` values, in the order
scale(roll), scale(-pitch), scale(yaw), throttle scale(throttle),
scale(accessory 0), scale(accessory 1), scale(accessory 2), 1000; the eighth
value is the constant 1000 (bytes 232, 3) whatever the inputs. -/
theorem channels_response (env : Env) (w : World) :
    (msp_send_channels env w).sent
        = w.sent ++ outFrame 105 ((msp_channels env).flatMap le16)
      ∧ ((msp_channels env).flatMap le16).length = 16
      ∧ msp_channels env
          = [msp_scale_rc env env.ManualControlCommand_Roll,
             msp_scale_rc env (fmul env.ManualControlCommand_Pitch (-1)),
             msp_scale_rc env env.ManualControlCommand_Yaw,
             msp_scale_rc_thr env env.ManualControlCommand_Throttle,
             msp_scale_rc env env.ManualControlCommand_Accessory0,
             msp_scale_rc env env.ManualControlCommand_Accessory1,
             msp_scale_rc env env.ManualControlCommand_Accessory2,
             1000]
      ∧ (msp_channels env).getD 7 0 = 1000
      ∧ ((msp_channels env).flatMap le16).drop 14 = [232, 3] := by
  refine ⟨?_, channels_payload_length env, rfl, rfl, ?_⟩
  · unfold msp_send_channels
    exact msp_send_outFrame _ _ _ 16 (channels_payload_length env) (by norm_num)
  · simp [msp_channels, le16, List.flatMap]

theorem comp_gps_fields (d b v : Nat) :
    (le16 d ++ le16 b ++ [v]).length = 5 ∧ (le16 d ++ le16 b ++ [v]).getD 4 0 = v := by
  simp [le16]

theorem comp_gps_zero_payload : le16 0 ++ le16 0 ++ [0] = [0, 0, 0, 0, 0] := by
  simp [le16]

/-- The payload of the comp-GPS response when a source is absent, the fix is
below 2-D or home is not set. -/
theorem comp_gps_invalid (env : Env) (w : World)
    (h : env.GPSPositionHandle = false ∨ env.HomeLocationHandle = false
      ∨ env.GPSPosition_Status < env.GPSPOSITION_STATUS_FIX2D
      ∨ env.HomeLocation_Set = env.HOMELOCATION_SET_FALSE) :
    framePayload (sentBy w (msp_send_comp_gps env w)) = [0, 0, 0, 0, 0] := by
  unfold msp_send_comp_gps
  simp only []
  rw [framePayload_send]
  by_cases h1 : (!env.GPSPositionHandle || !env.HomeLocationHandle) = true
  · rw [if_pos h1, comp_gps_zero_payload]
    rfl
  · rw [if_neg h1]
    have h2 : env.GPSPosition_Status < env.GPSPOSITION_STATUS_FIX2D
        ∨ env.HomeLocation_Set = env.HOMELOCATION_SET_FALSE := by
      rcases h with h | h | h | h
      · exact absurd (by simp [h]) h1
      · exact absurd (by simp [h]) h1
      · exact Or.inl h
      · exact Or.inr h
    rw [if_pos h2, comp_gps_zero_payload]
    rfl

/-- The payload of the comp-GPS response in the remaining case: five bytes,
the last of which, the validity flag, is 1. -/
theorem comp_gps_valid (env : Env) (w : World)
    (h : ¬(env.GPSPositionHandle = false ∨ env.HomeLocationHandle = false
      ∨ env.GPSPosition_Status < env.GPSPOSITION_STATUS_FIX2D
      ∨ env.HomeLocation_Set = env.HOMELOCATION_SET_FALSE)) :
    (framePayload (sentBy w (msp_send_comp_gps env w))).length = 5
      ∧ (framePayload (sentBy w (msp_send_comp_gps env w))).getD 4 0 = 1 := by
  simp only [not_or] at h
  obtain ⟨hg, hh, hs, hset⟩ := h
  have h1 : ¬ ((!env.GPSPositionHandle || !env.HomeLocationHandle) = true) := by
    simp only [Bool.not_eq_false] at hg hh
    simp [hg, hh]
  have h2 : ¬ (env.GPSPosition_Status < env.GPSPOSITION_STATUS_FIX2D
        ∨ env.HomeLocation_Set = env.HOMELOCATION_SET_FALSE) := by
    simp only [not_or]
    exact ⟨hs, hset⟩
  unfold msp_send_comp_gps
  simp only []
  rw [framePayload_send, if_neg h1, if_neg h2,
    readBytes_of_length _ 5 (comp_gps_fields _ _ _).1]
  exact comp_gps_fields _ _ _

/-- C18: the comp-GPS response carries distance 0, bearing 0 and validity 0
(a payload of five zero bytes) whenever the GPS source or the home-location
source is absent, the fix status is below 2-D or home is not set; in every
other case its payload has five bytes and the validity flag, the last one,
is 1. -/
theorem comp_gps_validity (env : Env) (w : World) :
    ((env.GPSPositionHandle = false ∨ env.HomeLocationHandle = false
        ∨ env.GPSPosition_Status < env.GPSPOSITION_STATUS_FIX2D
        ∨ env.HomeLocation_Set = env.HOMELOCATION_SET_FALSE) →
      framePayload (sentBy w (msp_send_comp_gps env w)) = [0, 0, 0, 0, 0])
    ∧ (¬(env.GPSPositionHandle = false ∨ env.HomeLocationHandle = false
        ∨ env.GPSPosition_Status < env.GPSPOSITION_STATUS_FIX2D
        ∨ env.HomeLocation_Set = env.HOMELOCATION_SET_FALSE) →
      (framePayload (sentBy w (msp_send_comp_gps env w))).length = 5
        ∧ (framePayload (sentBy w (msp_send_comp_gps env w))).getD 4 0 = 1) :=
  ⟨comp_gps_invalid env w, comp_gps_valid env w⟩

/-- C18, at the sample model without a home location and at the sample model. -/
theorem comp_gps_validity_witness :
    (sampleEnvNoHome.GPSPositionHandle = false ∨ sampleEnvNoHome.HomeLocationHandle = false
        ∨ sampleEnvNoHome.GPSPosition_Status < sampleEnvNoHome.GPSPOSITION_STATUS_FIX2D
        ∨ sampleEnvNoHome.HomeLocation_Set = sampleEnvNoHome.HOMELOCATION_SET_FALSE)
      ∧ ¬(sampleEnv.GPSPositionHandle = false ∨ sampleEnv.HomeLocationHandle = false
        ∨ sampleEnv.GPSPosition_Status < sampleEnv.GPSPOSITION_STATUS_FIX2D
        ∨ sampleEnv.HomeLocation_Set = sampleEnv.HOMELOCATION_SET_FALSE)
      ∧ framePayload (sentBy sampleWorld (msp_send_comp_gps sampleEnvNoHome sampleWorld))
          = [0, 0, 0, 0, 0]
      ∧ (framePayload (sentBy sampleWorld (msp_send_comp_gps sampleEnv sampleWorld))).getD 4 0
          = 1 :=
  ⟨Or.inr (Or.inl rfl), by decide,
    (comp_gps_validity sampleEnvNoHome sampleWorld).1 (Or.inr (Or.inl rfl)),
    ((comp_gps_validity sampleEnv sampleWorld).2 (by decide)).2⟩

theorem roundF32_zero : roundF32 0 = 0 := by
  have := roundF32_int 0 (by norm_num)
  simpa using this

theorem fmul_zero_left (x : ℚ) : fmul 0 x = 0 := by
  unfold fmul
  rw [zero_mul]
  exact roundF32_zero

theorem fadd_zero_zero : fadd 0 0 = 0 := by
  unfold fadd
  rw [add_zero]
  exact roundF32_zero

theorem truncf_zero : truncf 0 = 0 := by
  have := truncf_intCast 0
  simpa using this

theorem toBits_zero (n : Nat) : toBits n 0 = 0 := by
  simp [toBits]

theorem wrap32_zero : wrap32 0 = 0 := by
  unfold wrap32
  norm_num

theorem comp_gps_home_payload : le16 0 ++ le16 0 ++ [1] = [0, 0, 0, 0, 1] := by
  simp [le16]

theorem f2u16_zero (env : Env) : f2u16 env 0 = 0 := by
  have h := f2u16_intCast env 0 (by norm_num) (by norm_num)
  have h2 : ((0 : ℤ) : ℚ) = 0 := by norm_num
  rw [h2] at h
  exact_mod_cast h

theorem fmadd2_zero (env : Env) : fmadd2 env 0 0 0 0 = 0 := by
  unfold fmadd2
  split_ifs <;>
    simp only [fmul_zero_left, fadd_zero_zero, mul_zero, add_zero, roundF32_zero]

/-- C19: with both sources present, a fix of at least 2-D, home set and the
current coordinates equal to the home coordinates, whatever they are, the
comp-GPS response reports distance 0, bearing 0 and validity 1. The C library
`sqrtf` is taken to return 0 at 0. -/
theorem comp_gps_at_home (env : Env) (w : World)
    (hg : env.GPSPositionHandle = true) (hh : env.HomeLocationHandle = true)
    (hfix : env.GPSPOSITION_STATUS_FIX2D ≤ env.GPSPosition_Status)
    (hset : env.HomeLocation_Set ≠ env.HOMELOCATION_SET_FALSE)
    (hlat : env.HomeLocation_Latitude = env.GPSPosition_Latitude)
    (hlon : env.HomeLocation_Longitude = env.GPSPosition_Longitude)
    (hsqrt : env.sqrtf 0 = 0) :
    framePayload (sentBy w (msp_send_comp_gps env w)) = [0, 0, 0, 0, 1]
      ∧ u16le (framePayload (sentBy w (msp_send_comp_gps env w))) 0 = 0
      ∧ u16le (framePayload (sentBy w (msp_send_comp_gps env w))) 2 = 0
      ∧ (framePayload (sentBy w (msp_send_comp_gps env w))).getD 4 0 = 1 := by
  have h1 : ¬ ((!env.GPSPositionHandle || !env.HomeLocationHandle) = true) := by
    simp [hg, hh]
  have h2 : ¬ (env.GPSPosition_Status < env.GPSPOSITION_STATUS_FIX2D
        ∨ env.HomeLocation_Set = env.HOMELOCATION_SET_FALSE) := by
    simp only [not_or, not_lt]
    exact ⟨hfix, hset⟩
  have hp : framePayload (sentBy w (msp_send_comp_gps env w)) = [0, 0, 0, 0, 1] := by
    unfold msp_send_comp_gps
    simp only []
    rw [framePayload_send, if_neg h1, if_neg h2,
      readBytes_of_length _ 5 (comp_gps_fields _ _ _).1]
    simp only [hlat, hlon, sub_self, wrap32_zero, hsqrt, Int.cast_zero, roundF32_zero,
      fmul_zero_left, fmadd2_zero, f2u16_zero, and_self, if_true]
    exact comp_gps_home_payload
  rw [hp]
  exact ⟨rfl, rfl, rfl, rfl⟩

theorem sampleEnvAtHome_sqrtf : sampleEnvAtHome.sqrtf 0 = 0 := by
  show (if (0 : ℚ) = 0 then (0 : ℚ) else 1) = 0
  rw [if_pos rfl]

/-- C19, at the sample model with vehicle and home at latitude 48.1234567 and
longitude -0.1234567. -/
theorem comp_gps_at_home_witness :
    sampleEnvAtHome.GPSPositionHandle = true ∧ sampleEnvAtHome.HomeLocationHandle = true
      ∧ sampleEnvAtHome.GPSPOSITION_STATUS_FIX2D ≤ sampleEnvAtHome.GPSPosition_Status
      ∧ sampleEnvAtHome.HomeLocation_Set ≠ sampleEnvAtHome.HOMELOCATION_SET_FALSE
      ∧ sampleEnvAtHome.HomeLocation_Latitude = sampleEnvAtHome.GPSPosition_Latitude
      ∧ sampleEnvAtHome.HomeLocation_Longitude = sampleEnvAtHome.GPSPosition_Longitude
      ∧ sampleEnvAtHome.sqrtf 0 = 0
      ∧ framePayload (sentBy sampleWorld (msp_send_comp_gps sampleEnvAtHome sampleWorld))
          = [0, 0, 0, 0, 1] :=
  ⟨rfl, rfl, by decide, by decide, rfl, rfl, sampleEnvAtHome_sqrtf,
    (comp_gps_at_home sampleEnvAtHome sampleWorld rfl rfl (by decide) (by decide) rfl rfl
      sampleEnvAtHome_sqrtf).1⟩

theorem raw_gps_fields (fix sat lat lon alt speed gc : Nat) :
    ([fix, sat] ++ le32 lat ++ le32 lon ++ le16 alt ++ le16 speed ++ le16 gc).length = 16
      ∧ ([fix, sat] ++ le32 lat ++ le32 lon ++ le16 alt ++ le16 speed ++ le16 gc).getD 0 0 = fix
      ∧ ([fix, sat] ++ le32 lat ++ le32 lon ++ le16 alt ++ le16 speed ++ le16 gc).getD 1 0 = sat
      ∧ (([fix, sat] ++ le32 lat ++ le32 lon ++ le16 alt ++ le16 speed ++ le16 gc).drop 2).take 4
          = le32 lat
      ∧ (([fix, sat] ++ le32 lat ++ le32 lon ++ le16 alt ++ le16 speed ++ le16 gc).drop 6).take 4
          = le32 lon := by
  simp [le32, le16]

theorem raw_gps_zero_payload :
    [0, 0] ++ le32 0 ++ le32 0 ++ le16 0 ++ le16 0 ++ le16 0 = List.replicate 16 0 := by
  simp [le32, le16, List.replicate]

theorem u32le_le32 (n : Nat) (h : n < 4294967296) : u32le (le32 n) 0 = n := by
  simp [u32le, le32]
  omega

/-- Storing an `int32_t` value and reading the four bytes back as a signed
number returns the value. -/
theorem wrap32_toBits (z : ℤ) (h1 : -2147483648 ≤ z) (h2 : z < 2147483648) :
    wrap32 (u32le (le32 (toBits 32 z)) 0 : ℕ) = z := by
  have hlt : toBits 32 z < 4294967296 := by
    unfold toBits
    have := Int.emod_lt_of_pos z (show (0 : ℤ) < 2 ^ 32 by norm_num)
    have h0 := Int.emod_nonneg z (show (2 : ℤ) ^ 32 ≠ 0 by norm_num)
    omega
  rw [u32le_le32 _ hlt]
  unfold toBits wrap32
  rw [Int.toNat_of_nonneg (Int.emod_nonneg _ (by norm_num))]
  norm_num
  omega

/-- C20: the raw-GPS response has a 16-byte payload. Without a GPS source all
16 bytes are 0. With one, the fix byte is 1 exactly when the fix status is at
least `FIX2D` and 0 otherwise, the satellite count is copied into the second
byte, and latitude and longitude follow as little-endian `int32`, which read
back give the values of the GPS object unchanged. -/
theorem raw_gps_response (env : Env) (w : World) :
    (framePayload (sentBy w (msp_send_raw_gps env w))).length = 16
      ∧ (env.GPSPositionHandle = false →
          framePayload (sentBy w (msp_send_raw_gps env w)) = List.replicate 16 0)
      ∧ (env.GPSPositionHandle = true →
          (framePayload (sentBy w (msp_send_raw_gps env w))).getD 0 0
              = (if env.GPSPosition_Status ≥ env.GPSPOSITION_STATUS_FIX2D then 1 else 0)
            ∧ (framePayload (sentBy w (msp_send_raw_gps env w))).getD 1 0
              = toBits 8 env.GPSPosition_Satellites
            ∧ ((framePayload (sentBy w (msp_send_raw_gps env w))).drop 2).take 4
              = le32 (toBits 32 env.GPSPosition_Latitude)
            ∧ ((framePayload (sentBy w (msp_send_raw_gps env w))).drop 6).take 4
              = le32 (toBits 32 env.GPSPosition_Longitude))
      ∧ (∀ z : ℤ, 0 ≤ z → z < 256 → (toBits 8 z : ℤ) = z)
      ∧ (∀ z : ℤ, -2147483648 ≤ z → z < 2147483648 →
          wrap32 (u32le (le32 (toBits 32 z)) 0 : ℕ) = z) := by
  have hp : framePayload (sentBy w (msp_send_raw_gps env w))
      = if env.GPSPositionHandle then
          [if env.GPSPosition_Status ≥ env.GPSPOSITION_STATUS_FIX2D then 1 else 0,
            toBits 8 env.GPSPosition_Satellites]
            ++ le32 (toBits 32 env.GPSPosition_Latitude)
            ++ le32 (toBits 32 env.GPSPosition_Longitude)
            ++ le16 (f2u16 env env.GPSPosition_Altitude)
            ++ le16 (f2u16 env (fmul env.GPSPosition_Groundspeed 100))
            ++ le16 (f2i16 env (fmul env.GPSPosition_Heading 10))
        else List.replicate 16 0 := by
    unfold msp_send_raw_gps
    simp only []
    rw [framePayload_send]
    by_cases hg : env.GPSPositionHandle = true
    · rw [if_pos hg, if_pos hg, readBytes_of_length _ 16 (raw_gps_fields _ _ _ _ _ _ _).1]
    · rw [if_neg hg, if_neg hg, raw_gps_zero_payload]
      rfl
  rw [hp]
  refine ⟨?_, ?_, ?_, ?_, wrap32_toBits⟩
  · by_cases hg : env.GPSPositionHandle = true
    · rw [if_pos hg]
      exact (raw_gps_fields _ _ _ _ _ _ _).1
    · rw [if_neg hg]
      rfl
  · intro hg
    rw [hg]
    rfl
  · intro hg
    rw [if_pos hg]
    exact (raw_gps_fields _ _ _ _ _ _ _).2
  · intro z h0 h1
    unfold toBits
    rw [Int.toNat_of_nonneg (Int.emod_nonneg _ (by norm_num))]
    exact Int.emod_eq_of_lt h0 (by norm_num; exact h1)

/-- C20, at the sample model without and with a GPS source. -/
theorem raw_gps_response_witness :
    sampleEnvNoGps.GPSPositionHandle = false ∧ sampleEnv.GPSPositionHandle = true
      ∧ framePayload (sentBy sampleWorld (msp_send_raw_gps sampleEnvNoGps sampleWorld))
          = List.replicate 16 0
      ∧ (framePayload (sentBy sampleWorld (msp_send_raw_gps sampleEnv sampleWorld))).getD 0 0
          = (if sampleEnv.GPSPosition_Status ≥ sampleEnv.GPSPOSITION_STATUS_FIX2D
              then 1 else 0) :=
  ⟨rfl, rfl, (raw_gps_response sampleEnvNoGps sampleWorld).2.1 rfl,
    ((raw_gps_response sampleEnv sampleWorld).2.2.1 rfl).1⟩

theorem boxids_loop_table (env : Env) :
    msp_send_boxids_loop (msp_boxes env) = [0, 1, 2, 3, 4, 5, 10, 11] := by
  simp [msp_send_boxids_loop, msp_boxes, MSP_BOX_ARM, MSP_BOX_ANGLE, MSP_BOX_HORIZON,
    MSP_BOX_BARO, MSP_BOX_VARIO, MSP_BOX_MAG, MSP_BOX_GPSHOME, MSP_BOX_GPSHOLD, MSP_BOX_LAST]

/-- C21: the Box IDs response is one frame for command 119 whose payload is
exactly the 8 bytes 0, 1, 2, 3, 4, 5, 10, 11: the `mwboxid` of every row of
`msp_boxes` before the sentinel, in table order, the sentinel's id `0xff` left
out. -/
theorem boxids_response (env : Env) (w : World) :
    (msp_send_boxids env w).sent = w.sent ++ outFrame 119 [0, 1, 2, 3, 4, 5, 10, 11]
      ∧ [0, 1, 2, 3, 4, 5, 10, 11]
          = (((msp_boxes env).takeWhile (fun b => b.mode != MSP_BOX_LAST)).map
              (fun b => b.mwboxid))
      ∧ ((msp_boxes env).getD 8 { mode := 0, mwboxid := 0, tlmode := 0 }).mwboxid = 0xff := by
  refine ⟨?_, ?_, rfl⟩
  · unfold msp_send_boxids
    simp only [boxids_loop_table]
    exact msp_send_outFrame _ _ _ 8 rfl (by norm_num)
  · simp [msp_boxes, MSP_BOX_ARM, MSP_BOX_ANGLE, MSP_BOX_HORIZON,
      MSP_BOX_BARO, MSP_BOX_VARIO, MSP_BOX_MAG, MSP_BOX_GPSHOME, MSP_BOX_GPSHOLD, MSP_BOX_LAST,
      List.takeWhile]

/-- C25: the Misc response is one frame for command 114 whose 20-byte payload
does not depend on anything: the little-endian `uint16` values 1500, 1150,
2000 and 1000 in that order, then 12 zero bytes. -/
theorem misc_response (w : World) :
    (msp_send_misc w).sent
        = w.sent ++ outFrame 114
            [220, 5, 126, 4, 208, 7, 232, 3, 0, 0, 0, 0, 0, 0, 0, 0, 0, 0, 0, 0]
      ∧ [220, 5, 126, 4, 208, 7, 232, 3, 0, 0, 0, 0, 0, 0, 0, 0, 0, 0, 0, 0]
          = le16 1500 ++ le16 1150 ++ le16 2000 ++ le16 1000 ++ List.replicate 12 0
      ∧ (le16 1500 ++ le16 1150 ++ le16 2000 ++ le16 1000 ++ List.replicate 12 0).length
          = 20 := by
  refine ⟨?_, by decide, by decide⟩
  unfold msp_send_misc
  simp only []
  rw [msp_send_outFrame _ _ _ 20 (by decide) (by norm_num)]
  rfl

/-- C24: a valid ESC-passthrough request (command 245) with a sub-payload of
0, 1 or 2 bytes, whatever they are, fed from `MSP_IDLE` is answered by exactly
the 7 bytes `'$' 'M' '>' 1 245 0 244`: one frame whose single payload byte,
the number of enumerated ESCs, is 0. -/
theorem esc_passthrough_response (env : Env) (w : World) (L : Nat) (payload : List Nat)
    (hs : w.m.state = MSP_IDLE) (hL : L ≤ 2) (hp : payload.length = L) :
    (feed env w (inFrame L MSP_SET_4WAY_IF payload
        (xorAll (L ^^^ MSP_SET_4WAY_IF) payload))).sent
        = w.sent ++ [36, 77, 62, 1, 245, 0, 244]
      ∧ [36, 77, 62, 1, 245, 0, 244] = outFrame 245 [0]
      ∧ (feed env w (inFrame L MSP_SET_4WAY_IF payload
          (xorAll (L ^^^ MSP_SET_4WAY_IF) payload))).m.state = MSP_IDLE := by
  obtain ⟨-, h2, -, -, -, -, h7, -⟩ :=
    feed_to_checksum env w L MSP_SET_4WAY_IF payload hs hL hp
  rw [feed_valid_frame env w L MSP_SET_4WAY_IF payload hs hL hp, dispatch_4wif env _ h2]
  refine ⟨?_, by decide, rfl⟩
  unfold msp_handle_4wif
  simp only [setState]
  rw [msp_send_outFrame _ MSP_SET_4WAY_IF [0] 1 rfl (by norm_num), h7]
  rfl

/-- C24, at the sub-payload 1, 3 (protocol BLHeli, ESC 3). -/
theorem esc_passthrough_response_witness :
    sampleWorld.m.state = MSP_IDLE ∧ 2 ≤ 2 ∧ [1, 3].length = 2
      ∧ (feed sampleEnv sampleWorld (inFrame 2 MSP_SET_4WAY_IF [1, 3]
          (xorAll (2 ^^^ MSP_SET_4WAY_IF) [1, 3]))).sent
          = sampleWorld.sent ++ [36, 77, 62, 1, 245, 0, 244] :=
  ⟨rfl, le_rfl, rfl,
    (esc_passthrough_response sampleEnv sampleWorld 2 [1, 3] rfl le_rfl rfl).1⟩

theorem readBytes_head (data : List Nat) (n : Nat) :
    (readBytes data (n + 1)).getD 0 0 = data.getD 0 0 := by
  simp [readBytes, List.range_succ_eq_map]

/-- After the boot window the first payload byte of the alarm response is the
severity computed by the `switch` of `msp_send_alarms`. -/
theorem alarm_severity_byte (env : Env) (w : World)
    (hboot : BOOT_DISPLAY_TIME_MS ≤ env.PIOS_Thread_Systime) :
    (framePayload (sentBy w (msp_send_alarms env w))).getD 0 0
      = if env.AlarmString_state = env.SYSTEMALARMS_ALARM_WARNING then ALARM_WARN
        else if env.AlarmString_state = env.SYSTEMALARMS_ALARM_ERROR then ALARM_OK
        else if env.AlarmString_state = env.SYSTEMALARMS_ALARM_CRITICAL then ALARM_CRIT
        else ALARM_OK := by
  unfold msp_send_alarms
  rw [if_neg (not_lt.mpr hboot)]
  simp only []
  rw [framePayload_send, readBytes_head]
  rfl

/-- C22: after the boot window the severity byte of the alarm response (the
first payload byte) is 1 when the state `AlarmString` reports is WARNING, 3
when it is CRITICAL and 0 when it is ERROR or any other value; it is never 2.
The three state values are enumeration values of a header outside this file
and are taken to be distinct. -/
theorem alarm_severity (env : Env) (w : World)
    (hboot : BOOT_DISPLAY_TIME_MS ≤ env.PIOS_Thread_Systime)
    (hd : [env.SYSTEMALARMS_ALARM_WARNING, env.SYSTEMALARMS_ALARM_ERROR,
            env.SYSTEMALARMS_ALARM_CRITICAL].Nodup) :
    (env.AlarmString_state = env.SYSTEMALARMS_ALARM_WARNING →
        (framePayload (sentBy w (msp_send_alarms env w))).getD 0 0 = 1)
      ∧ (env.AlarmString_state = env.SYSTEMALARMS_ALARM_CRITICAL →
        (framePayload (sentBy w (msp_send_alarms env w))).getD 0 0 = 3)
      ∧ (env.AlarmString_state = env.SYSTEMALARMS_ALARM_ERROR →
        (framePayload (sentBy w (msp_send_alarms env w))).getD 0 0 = 0)
      ∧ (env.AlarmString_state ≠ env.SYSTEMALARMS_ALARM_WARNING →
          env.AlarmString_state ≠ env.SYSTEMALARMS_ALARM_CRITICAL →
        (framePayload (sentBy w (msp_send_alarms env w))).getD 0 0 = 0)
      ∧ (framePayload (sentBy w (msp_send_alarms env w))).getD 0 0 ≠ ALARM_ERROR := by
  simp only [List.nodup_cons, List.mem_cons, List.mem_singleton, not_or, List.not_mem_nil,
    not_false_eq_true, List.nodup_nil, and_true] at hd
  obtain ⟨⟨hwe, hwc⟩, hec⟩ := hd
  rw [alarm_severity_byte env w hboot]
  simp only [ALARM_WARN, ALARM_OK, ALARM_CRIT, ALARM_ERROR]
  refine ⟨?_, ?_, ?_, ?_, ?_⟩
  · intro h
    rw [if_pos h]
  · intro h
    rw [h, if_neg (Ne.symm hwc), if_neg (Ne.symm hec), if_pos rfl]
  · intro h
    rw [h, if_neg (Ne.symm hwe), if_pos rfl]
  · intro h1 h2
    rw [if_neg h1]
    split_ifs <;> rfl
  · split_ifs <;> decide

/-- C22, at the sample model with the ERROR state: the severity byte is 0. -/
theorem alarm_severity_witness :
    BOOT_DISPLAY_TIME_MS ≤ sampleEnvAlarmError.PIOS_Thread_Systime
      ∧ [sampleEnvAlarmError.SYSTEMALARMS_ALARM_WARNING,
          sampleEnvAlarmError.SYSTEMALARMS_ALARM_ERROR,
          sampleEnvAlarmError.SYSTEMALARMS_ALARM_CRITICAL].Nodup
      ∧ sampleEnvAlarmError.AlarmString_state = sampleEnvAlarmError.SYSTEMALARMS_ALARM_ERROR
      ∧ (framePayload (sentBy sampleWorld
          (msp_send_alarms sampleEnvAlarmError sampleWorld))).getD 0 0 = 0 :=
  ⟨by decide, by decide, rfl,
    (alarm_severity sampleEnvAlarmError sampleWorld (by decide) (by decide)).2.2.1 rfl⟩

theorem readBytes_eq_take (data : List Nat) (len : Nat) (h : len ≤ data.length) :
    readBytes data len = data.take len := by
  apply List.ext_getElem
  · simp [readBytes, h]
  · intro i h1 h2
    simp only [readBytes_length] at h1
    simp [readBytes, List.getD_eq_getElem?_getD, List.getElem?_eq_getElem (show i < data.length by omega)]

theorem takeWhile_nonzero (s : List Nat) (h : ∀ c ∈ s, c ≠ 0) :
    s.takeWhile (fun c => c != 0) = s := by
  rw [List.takeWhile_eq_self_iff]
  intro c hc
  simpa using h c hc

theorem strlen_append_zeros (a : List Nat) (k : Nat) (h : ∀ c ∈ a, c ≠ 0) :
    strlen (a ++ List.replicate k 0) = a.length := by
  induction a with
  | nil =>
    cases k with
    | zero => simp [strlen]
    | succ k => simp [strlen, List.replicate_succ]
  | cons x t ih =>
    have hx : x ≠ 0 := h x (List.mem_cons_self _ _)
    have ht : ∀ c ∈ t, c ≠ 0 := fun c hc => h c (List.mem_cons_of_mem _ hc)
    have := ih ht
    simp only [strlen] at this ⊢
    simp [List.takeWhile_cons, hx, this]

/-- The message buffer of the boot-window branch: the first 29 characters of
the reason, then zeros up to 30 bytes. -/
theorem boot_msg_eq (reason : List Nat) (h : ∀ c ∈ reason, c ≠ 0) :
    (strncpy reason MAX_ALARM_LEN).set (MAX_ALARM_LEN - 1) 0
      = reason.take 29 ++ List.replicate (30 - min reason.length 29) 0 := by
  unfold strncpy
  simp only [takeWhile_nonzero reason h, MAX_ALARM_LEN]
  apply List.ext_getElem
  · simp
    omega
  · intro i h1 h2
    simp only [List.length_set, List.length_append, List.length_take, List.length_replicate]
      at h1
    simp only [List.getElem_set, List.getElem_append, List.length_take, List.getElem_take,
      List.getElem_replicate]
    split_ifs <;> first | rfl | omega

/-- C23: while the system time is below `BOOT_DISPLAY_TIME_MS` = 10000 ms, the
alarm response is one frame for command 242 whose payload is the severity
byte 3 followed by the first min(n, 29) characters of the boot-reason string
(`n` its length), without terminator, whatever the alarm state is; its length
is 1 + min(n, 29), at most 30. -/
theorem alarm_boot_window (env : Env) (w : World)
    (hboot : env.PIOS_Thread_Systime < BOOT_DISPLAY_TIME_MS)
    (hstr : ∀ c ∈ env.AlarmBootReason env.SystemAlarms_RebootCause, c ≠ 0) :
    (msp_send_alarms env w).sent
        = w.sent ++ outFrame 242
            ([3] ++ (env.AlarmBootReason env.SystemAlarms_RebootCause).take 29)
      ∧ ([3] ++ (env.AlarmBootReason env.SystemAlarms_RebootCause).take 29).length
          = 1 + min (env.AlarmBootReason env.SystemAlarms_RebootCause).length 29
      ∧ ([3] ++ (env.AlarmBootReason env.SystemAlarms_RebootCause).take 29).length ≤ 30
      ∧ BOOT_DISPLAY_TIME_MS = 10000 := by
  have hlen : ([3] ++ (env.AlarmBootReason env.SystemAlarms_RebootCause).take 29).length
      = 1 + min (env.AlarmBootReason env.SystemAlarms_RebootCause).length 29 := by
    simp [Nat.min_comm, Nat.add_comm]
  refine ⟨?_, hlen, by rw [hlen]; omega, rfl⟩
  have htake : ∀ c ∈ (env.AlarmBootReason env.SystemAlarms_RebootCause).take 29, c ≠ 0 :=
    fun c hc => hstr c (List.mem_of_mem_take hc)
  unfold msp_send_alarms
  rw [if_pos hboot]
  simp only []
  rw [boot_msg_eq _ hstr, strlen_append_zeros _ _ htake, msp_send_sent,
    readBytes_eq_take _ _ (by simp)]
  have hpay : List.take ((List.take 29 (env.AlarmBootReason env.SystemAlarms_RebootCause)).length + 1)
      ([ALARM_CRIT] ++ (List.take 29 (env.AlarmBootReason env.SystemAlarms_RebootCause)
        ++ List.replicate
          (30 - min (env.AlarmBootReason env.SystemAlarms_RebootCause).length 29) 0))
      = [3] ++ (env.AlarmBootReason env.SystemAlarms_RebootCause).take 29 := by
    rw [← List.append_assoc]
    have h1 : (List.take 29 (env.AlarmBootReason env.SystemAlarms_RebootCause)).length + 1
        = ([ALARM_CRIT] ++ List.take 29
            (env.AlarmBootReason env.SystemAlarms_RebootCause)).length := by
      simp
    rw [h1, List.take_left']
    rfl
    rfl
  rw [hpay]
  have h256 : ((List.take 29 (env.AlarmBootReason env.SystemAlarms_RebootCause)).length + 1)
      % 256 = ([3] ++ (env.AlarmBootReason env.SystemAlarms_RebootCause).take 29).length := by
    rw [Nat.mod_eq_of_lt (by simp; omega)]
    simp
  rw [h256]
  rfl

/-- C23, at the sample model 5 s after start, the boot reason being "Boot". -/
theorem alarm_boot_window_witness :
    sampleEnvBooting.PIOS_Thread_Systime < BOOT_DISPLAY_TIME_MS
      ∧ (∀ c ∈ sampleEnvBooting.AlarmBootReason sampleEnvBooting.SystemAlarms_RebootCause,
          c ≠ 0)
      ∧ (msp_send_alarms sampleEnvBooting sampleWorld).sent
          = sampleWorld.sent ++ outFrame 242
              ([3] ++ (sampleEnvBooting.AlarmBootReason
                sampleEnvBooting.SystemAlarms_RebootCause).take 29) :=
  ⟨by decide, by decide,
    (alarm_boot_window sampleEnvBooting sampleWorld (by decide) (by decide)).1⟩

theorem task_step_timeout (env : Env) (t : Task) :
    uavoMSPBridgeTask_step env t Rx.timeout = t := by
  unfold uavoMSPBridgeTask_step
  split_ifs <;> rfl

theorem task_cons (env : Env) (t : Task) (rx : Rx) (rxs : List Rx) :
    uavoMSPBridgeTask env t (rx :: rxs)
      = uavoMSPBridgeTask env (uavoMSPBridgeTask_step env t rx) rxs := rfl

/-- Receive results with a count of zero can be dropped from the input of the
task. -/
theorem task_filter_timeouts (env : Env) (rxs : List Rx) :
    ∀ t, uavoMSPBridgeTask env t rxs
      = uavoMSPBridgeTask env t (rxs.filter (fun r => decide (r ≠ Rx.timeout))) := by
  induction rxs with
  | nil => intro t; rfl
  | cons rx rxs ih =>
    intro t
    cases rx with
    | timeout =>
      rw [task_cons, task_step_timeout, ih t]
      simp
    | byte b =>
      rw [task_cons, ih]
      simp [task_cons]

/-- The task fed bytes only, none of which causes the handover, does what
`feed` does. -/
theorem task_bytes_eq_feed (env : Env) (bs : List Nat) :
    ∀ w, (∀ r ∈ feedReturns env w bs, r = true) →
      uavoMSPBridgeTask env { w := w, parked := false } (bs.map Rx.byte)
        = { w := feed env w bs, parked := false } := by
  induction bs with
  | nil => intro w _; rfl
  | cons b bs ih =>
    intro w h
    simp only [feedReturns, List.mem_cons, forall_eq_or_imp] at h
    rw [List.map_cons, task_cons, feed_cons]
    have hstep : uavoMSPBridgeTask_step env { w := w, parked := false } (Rx.byte b)
        = { w := (msp_receive_byte env w b).1, parked := false } := by
      simp [uavoMSPBridgeTask_step, h.1]
    rw [hstep]
    exact ih _ h.2

/-- C26: a receive timeout (a count of 0 from `PIOS_COM_ReceiveBuffer`) leaves
the task state unchanged, whole session, bytes sent and registry included; so
the task run on any sequence of receive results ends where it ends on the same
sequence with the timeouts removed: a frame split by timeouts is parsed like
the same bytes received back to back. -/
theorem timeout_changes_nothing :
    (∀ (env : Env) (t : Task), uavoMSPBridgeTask_step env t Rx.timeout = t)
      ∧ (∀ (env : Env) (t : Task) (rxs : List Rx),
          uavoMSPBridgeTask env t rxs
            = uavoMSPBridgeTask env t (rxs.filter (fun r => decide (r ≠ Rx.timeout))))
      ∧ (∀ (env : Env) (w : World) (a b : List Nat) (n : Nat),
          uavoMSPBridgeTask env { w := w, parked := false }
              (a.map Rx.byte ++ List.replicate n Rx.timeout ++ b.map Rx.byte)
            = uavoMSPBridgeTask env { w := w, parked := false } ((a ++ b).map Rx.byte)) := by
  refine ⟨task_step_timeout, fun env t rxs => task_filter_timeouts env rxs t, ?_⟩
  intro env w a b n
  rw [task_filter_timeouts env (a.map Rx.byte ++ List.replicate n Rx.timeout ++ b.map Rx.byte)]
  congr 1
  simp only [List.filter_append, List.map_append]
  have h1 : ∀ l : List Nat, (l.map Rx.byte).filter (fun r => decide (r ≠ Rx.timeout))
      = l.map Rx.byte := by
    intro l
    rw [List.filter_eq_self]
    intro r hr
    obtain ⟨x, -, rfl⟩ := List.mem_map.mp hr
    simp
  have h2 : (List.replicate n Rx.timeout).filter (fun r => decide (r ≠ Rx.timeout)) = [] := by
    rw [List.filter_eq_nil_iff]
    intro r hr
    rw [List.eq_of_mem_replicate hr]
    simp
  rw [h1, h1, h2, List.append_nil]

/-- C27: in `MSP_IDLE`, `'$'` leads to `MSP_HEADER_START`, `'<'` to the first
lookahead state and any other byte to `MSP_IDLE`; in `MSP_HEADER_START`, `'M'`
leads to `MSP_HEADER_M` and any other byte, `'$'` included, to `MSP_IDLE`; in
`MSP_HEADER_M`, `'<'` leads to `MSP_HEADER_SIZE` and any other byte to
`MSP_IDLE`. Each of these calls returns true and changes nothing but the
state field of the session. -/
theorem header_transitions (env : Env) (w : World) (b : Nat) :
    (w.m.state = MSP_IDLE →
        msp_receive_byte env w b
          = ({ w with m := { w.m with state :=
                if b = 36 then MSP_HEADER_START
                else if b = 60 then MSP_MAYBE_UAVTALK2 else MSP_IDLE } }, true))
      ∧ (w.m.state = MSP_HEADER_START →
        msp_receive_byte env w b
          = ({ w with m := { w.m with state :=
                if b = 77 then MSP_HEADER_M else MSP_IDLE } }, true))
      ∧ (w.m.state = MSP_HEADER_M →
        msp_receive_byte env w b
          = ({ w with m := { w.m with state :=
                if b = 60 then MSP_HEADER_SIZE else MSP_IDLE } }, true)) := by
  refine ⟨?_, ?_, ?_⟩
  · intro hs
    simp only [msp_receive_byte, hs, setState]
    by_cases h60 : b = 60
    · subst h60
      simp
    · simp [h60]
  · intro hs
    simp only [msp_receive_byte, hs, setState]
  · intro hs
    simp only [msp_receive_byte, hs, setState]

/-- C27, at the bytes `'$'` in `MSP_IDLE`, `'$'` in `MSP_HEADER_START` and
`'<'` in `MSP_HEADER_M`. -/
theorem header_transitions_witness :
    (sampleWorldIn MSP_IDLE).m.state = MSP_IDLE
      ∧ (sampleWorldIn MSP_HEADER_START).m.state = MSP_HEADER_START
      ∧ (sampleWorldIn MSP_HEADER_M).m.state = MSP_HEADER_M
      ∧ msp_receive_byte sampleEnv (sampleWorldIn MSP_IDLE) 36
          = (sampleWorldIn MSP_HEADER_START, true)
      ∧ msp_receive_byte sampleEnv (sampleWorldIn MSP_HEADER_START) 36
          = (sampleWorldIn MSP_IDLE, true)
      ∧ msp_receive_byte sampleEnv (sampleWorldIn MSP_HEADER_M) 60
          = (sampleWorldIn MSP_HEADER_SIZE, true) :=
  ⟨rfl, rfl, rfl,
    (header_transitions sampleEnv (sampleWorldIn MSP_IDLE) 36).1 rfl,
    (header_transitions sampleEnv (sampleWorldIn MSP_HEADER_START) 36).2.1 rfl,
    (header_transitions sampleEnv (sampleWorldIn MSP_HEADER_M) 60).2.2 rfl⟩

/-- C28: from `MSP_HEADER_SIZE`, after the byte `L` and the byte `c` the
session has `cmd_size = L`, `cmd_id = c`, fill index 0 and checksum
accumulator `L xor c`; the state is `MSP_DISCARD` if `L` > 2, the buffer
capacity `sizeof(cmd_data)`, `MSP_CHECKSUM` if `L` = 0 and `MSP_FILLBUF` if
`L` is 1 or 2. Nothing else changes, and in between the state is
`MSP_HEADER_CMD` with the accumulator equal to `L`. -/
theorem size_cmd_transitions (env : Env) (w : World) (L c : Nat)
    (hs : w.m.state = MSP_HEADER_SIZE) :
    feed env w [L]
        = { w with m := { w.m with state := MSP_HEADER_CMD, cmd_size := L, checksum := L } }
      ∧ feed env w [L, c]
        = { w with m := { w.m with
              state := if L > 2 then MSP_DISCARD
                       else if L = 0 then MSP_CHECKSUM else MSP_FILLBUF,
              cmd_size := L, cmd_id := c, cmd_i := 0, checksum := L ^^^ c } }
      ∧ sizeof_cmd_data = 2
      ∧ (2 < L → (feed env w [L, c]).m.state = MSP_DISCARD)
      ∧ (L = 0 → (feed env w [L, c]).m.state = MSP_CHECKSUM)
      ∧ (L = 1 ∨ L = 2 → (feed env w [L, c]).m.state = MSP_FILLBUF) := by
  have h1 : feed env w [L]
      = { w with m := { w.m with state := MSP_HEADER_CMD, cmd_size := L, checksum := L } } := by
    simp [feed, msp_receive_byte, hs, setState, assignState, msp_state_size]
  have h2 : feed env w [L, c]
      = { w with m := { w.m with
            state := if L > 2 then MSP_DISCARD
                     else if L = 0 then MSP_CHECKSUM else MSP_FILLBUF,
            cmd_size := L, cmd_id := c, cmd_i := 0, checksum := L ^^^ c } } := by
    simp [feed, msp_receive_byte, hs, setState, assignState, msp_state_size, msp_state_cmd,
      sizeof_cmd_data]
  refine ⟨h1, h2, rfl, ?_, ?_, ?_⟩
  · intro hL
    rw [h2]
    simp [hL]
  · intro hL
    rw [h2]
    simp [hL]
  · intro hL
    rw [h2]
    rcases hL with rfl | rfl <;> simp

/-- C28, at the declared length 2 and the command 245. -/
theorem size_cmd_transitions_witness :
    (sampleWorldIn MSP_HEADER_SIZE).m.state = MSP_HEADER_SIZE
      ∧ ((2 : Nat) = 1 ∨ (2 : Nat) = 2)
      ∧ (feed sampleEnv (sampleWorldIn MSP_HEADER_SIZE) [2, 245]).m.state = MSP_FILLBUF
      ∧ feed sampleEnv (sampleWorldIn MSP_HEADER_SIZE) [2, 245]
        = { sampleWorldIn MSP_HEADER_SIZE with m := { (sampleWorldIn MSP_HEADER_SIZE).m with
              state := if 2 > 2 then MSP_DISCARD
                       else if 2 = 0 then MSP_CHECKSUM else MSP_FILLBUF,
              cmd_size := 2, cmd_id := 245, cmd_i := 0, checksum := 2 ^^^ 245 } } :=
  ⟨rfl, Or.inr rfl,
    (size_cmd_transitions sampleEnv (sampleWorldIn MSP_HEADER_SIZE) 2 245 rfl).2.2.2.2.2
      (Or.inr rfl),
    (size_cmd_transitions sampleEnv (sampleWorldIn MSP_HEADER_SIZE) 2 245 rfl).2.1⟩

/-- C29: for a header with declared length `L` of 1 or 2, command `c` and a
payload `p` of `L` bytes, fed from `MSP_IDLE` into a session whose buffer has
its two bytes: after the header and the first `k` payload bytes (`k` ≤ `L`)
the parser is in `MSP_FILLBUF` while `k` < `L` and in `MSP_CHECKSUM` once
`k` = `L`; the fill index is `k`, the first `k` bytes of the buffer are the
bytes stored so far and the accumulator is `L xor c` XORed with them. In
particular at `k` = `L` the buffer starts with `p` and the accumulator is
`L xor c xor (XOR of p)`. -/
theorem fill_buf_progress (env : Env) (w : World) (L c : Nat) (p : List Nat)
    (hs : w.m.state = MSP_IDLE) (hL : L = 1 ∨ L = 2) (hp : p.length = L)
    (hbuf : w.m.cmd_data.length = sizeof_cmd_data) :
    (∀ k, k ≤ L →
        (feed env w ([36, 77, 60, L, c] ++ p.take k)).m.state
            = (if k = L then MSP_CHECKSUM else MSP_FILLBUF)
          ∧ (feed env w ([36, 77, 60, L, c] ++ p.take k)).m.cmd_i = k
          ∧ (feed env w ([36, 77, 60, L, c] ++ p.take k)).m.cmd_data.take k = p.take k
          ∧ (feed env w ([36, 77, 60, L, c] ++ p.take k)).m.checksum
              = xorAll (L ^^^ c) (p.take k))
      ∧ (feed env w ([36, 77, 60, L, c] ++ p)).m.state = MSP_CHECKSUM
      ∧ (feed env w ([36, 77, 60, L, c] ++ p)).m.cmd_data.take L = p
      ∧ (feed env w ([36, 77, 60, L, c] ++ p)).m.checksum = xorAll (L ^^^ c) p := by
  obtain ⟨x, y, hxy⟩ := List.length_eq_two.mp hbuf
  have main : ∀ k, k ≤ L →
      (feed env w ([36, 77, 60, L, c] ++ p.take k)).m.state
          = (if k = L then MSP_CHECKSUM else MSP_FILLBUF)
        ∧ (feed env w ([36, 77, 60, L, c] ++ p.take k)).m.cmd_i = k
        ∧ (feed env w ([36, 77, 60, L, c] ++ p.take k)).m.cmd_data.take k = p.take k
        ∧ (feed env w ([36, 77, 60, L, c] ++ p.take k)).m.checksum
            = xorAll (L ^^^ c) (p.take k) := by
    intro k hk
    rw [feed_append, feed_header env w L c hs]
    rcases hL with rfl | rfl
    · obtain ⟨a, rfl⟩ := List.length_eq_one.mp hp
      interval_cases k <;>
        simp [feed, sizeof_cmd_data, xorAll, msp_receive_byte, setState, assignState,
          msp_state_fill_buf, hxy]
    · obtain ⟨a, b, rfl⟩ := List.length_eq_two.mp hp
      interval_cases k <;>
        simp [feed, sizeof_cmd_data, xorAll, msp_receive_byte, setState, assignState,
          msp_state_fill_buf, hxy]
  have hfull := main L le_rfl
  have htake : p.take L = p := by rw [← hp]; exact List.take_length p
  rw [htake, if_pos rfl] at hfull
  exact ⟨main, hfull.1, hfull.2.2.1, hfull.2.2.2⟩

/-- C29, at the frame with declared length 2, command 245 and payload 1, 3. -/
theorem fill_buf_progress_witness :
    sampleWorld.m.state = MSP_IDLE ∧ ((2 : Nat) = 1 ∨ (2 : Nat) = 2) ∧ [1, 3].length = 2
      ∧ sampleWorld.m.cmd_data.length = sizeof_cmd_data
      ∧ (feed sampleEnv sampleWorld ([36, 77, 60, 2, 245] ++ [1, 3])).m.state = MSP_CHECKSUM
      ∧ (feed sampleEnv sampleWorld ([36, 77, 60, 2, 245] ++ [1, 3])).m.cmd_data.take 2 = [1, 3]
      ∧ (feed sampleEnv sampleWorld ([36, 77, 60, 2, 245] ++ [1, 3])).m.checksum
          = xorAll (2 ^^^ 245) [1, 3] :=
  ⟨rfl, Or.inr rfl, rfl, rfl,
    (fill_buf_progress sampleEnv sampleWorld 2 245 [1, 3] rfl (Or.inr rfl) rfl rfl).2⟩

/-- C30: the collision lookahead aborts without handover and without replay.
In the second-byte state a byte whose high nibble is not 2 (`'<'` and 0
included) leads to `MSP_IDLE`; in the third-byte state every byte leads to the
fourth-byte state; in the fourth-byte state a byte whose high nibble is not 0
(`'$'` and `'<'` included) leads to `MSP_IDLE`. Each of these calls returns
true and changes nothing but the state, so the registry is untouched, and the
state after an abort is `MSP_IDLE` whatever the aborting byte: it is not looked
at again as the start of a header or of a lookahead. -/
theorem lookahead_abort (env : Env) (w : World) (b : Nat) :
    (w.m.state = MSP_MAYBE_UAVTALK2 → b &&& 0xf0 ≠ 0x20 →
        msp_receive_byte env w b = ({ w with m := { w.m with state := MSP_IDLE } }, true))
      ∧ (w.m.state = MSP_MAYBE_UAVTALK3 →
        msp_receive_byte env w b
          = ({ w with m := { w.m with state := MSP_MAYBE_UAVTALK4 } }, true))
      ∧ (w.m.state = MSP_MAYBE_UAVTALK4 → b &&& 0xf0 ≠ 0 →
        msp_receive_byte env w b = ({ w with m := { w.m with state := MSP_IDLE } }, true))
      ∧ (60 &&& 0xf0 ≠ 0x20 ∧ 0 &&& 0xf0 ≠ 0x20 ∧ 36 &&& 0xf0 ≠ 0 ∧ 60 &&& 0xf0 ≠ 0) := by
  refine ⟨?_, ?_, ?_, by decide⟩
  · intro hs hb
    simp only [msp_receive_byte, hs, setState, hb, if_false]
  · intro hs
    simp only [msp_receive_byte, hs, setState]
  · intro hs hb
    simp only [msp_receive_byte, hs, setState, hb, if_false]

/-- C30, at `'<'` in the second-byte state and `'$'` in the fourth-byte state:
both end in `MSP_IDLE`, not in a lookahead or header state. -/
theorem lookahead_abort_witness :
    (sampleWorldIn MSP_MAYBE_UAVTALK2).m.state = MSP_MAYBE_UAVTALK2
      ∧ 60 &&& 0xf0 ≠ 0x20
      ∧ (sampleWorldIn MSP_MAYBE_UAVTALK4).m.state = MSP_MAYBE_UAVTALK4
      ∧ 36 &&& 0xf0 ≠ 0
      ∧ msp_receive_byte sampleEnv (sampleWorldIn MSP_MAYBE_UAVTALK2) 60
          = (sampleWorldIn MSP_IDLE, true)
      ∧ msp_receive_byte sampleEnv (sampleWorldIn MSP_MAYBE_UAVTALK4) 36
          = (sampleWorldIn MSP_IDLE, true) :=
  ⟨rfl, by decide, rfl, by decide,
    (lookahead_abort sampleEnv (sampleWorldIn MSP_MAYBE_UAVTALK2) 60).1 rfl (by decide),
    (lookahead_abort sampleEnv (sampleWorldIn MSP_MAYBE_UAVTALK4) 36).2.2.1 rfl (by decide)⟩

/-- Outside `MSP_CHECKSUM` a call of `msp_receive_byte` sends nothing. -/
theorem step_sent_of_ne_checksum (env : Env) (w : World) (b : Nat)
    (hs : w.m.state ≠ MSP_CHECKSUM) : (msp_receive_byte env w b).1.sent = w.sent := by
  unfold msp_receive_byte
  split
  case h_7 h => exact absurd h hs
  case h_11 h =>
    split_ifs <;> rfl
  all_goals rfl

/-- The value returned by `msp_receive_byte`. -/
theorem step_returns_false_iff (env : Env) (w : World) (b : Nat) :
    (msp_receive_byte env w b).2 = false
      ↔ (w.m.state = MSP_MAYBE_UAVTALK4 ∧ b &&& 0xf0 = 0) := by
  unfold msp_receive_byte
  split
  case h_11 h =>
    split_ifs with hb
    · simp [h, hb]
    · simp [hb]
  all_goals
    rename_i h
    simp [h]

/-- The registry entry after a call of `msp_receive_byte`. -/
theorem step_telem_rf (env : Env) (w : World) (b : Nat) :
    (msp_receive_byte env w b).1.telem_rf
      = if w.m.state = MSP_MAYBE_UAVTALK4 ∧ b &&& 0xf0 = 0 then w.m.com else w.telem_rf := by
  unfold msp_receive_byte
  split
  case h_7 h =>
    obtain ⟨-, ht, -, -⟩ := msp_state_checksum_onlySends env w b
    simp [h, assignState, setState, ht]
  case h_11 h =>
    split_ifs with hb h2 h2
    · simp [setState]
    · exact absurd ⟨h, hb⟩ h2
    · exact absurd h2.2 hb
    · simp [setState]
  all_goals
    rename_i h
    simp [h, setState, assignState, msp_state_size, msp_state_cmd, msp_state_fill_buf,
      msp_state_discard]

/-- The state after a call is the fourth-byte lookahead state only when the
state before was the third-byte one. -/
theorem pred_uavtalk4 (env : Env) (w : World) (b : Nat)
    (h : (msp_receive_byte env w b).1.m.state = MSP_MAYBE_UAVTALK4) :
    w.m.state = MSP_MAYBE_UAVTALK3 := by
  unfold msp_receive_byte at h
  split at h
  case h_10 hs => exact hs
  case h_7 hs =>
    simp [assignState, setState, msp_state_checksum_snd] at h
  case h_11 hs =>
    split_ifs at h <;> simp [setState] at h
  all_goals
    simp only [assignState, setState, msp_state_size, msp_state_cmd, msp_state_fill_buf,
      msp_state_discard] at h
    try split_ifs at h
    all_goals simp at h

/-- The state after a call is the third-byte lookahead state only when the
state before was the second-byte one and the byte has high nibble 2. -/
theorem pred_uavtalk3 (env : Env) (w : World) (b : Nat)
    (h : (msp_receive_byte env w b).1.m.state = MSP_MAYBE_UAVTALK3) :
    w.m.state = MSP_MAYBE_UAVTALK2 ∧ b &&& 0xf0 = 0x20 := by
  unfold msp_receive_byte at h
  split at h
  case h_9 hs =>
    refine ⟨hs, ?_⟩
    by_contra hb
    simp [setState, hb] at h
  case h_7 hs =>
    simp [assignState, setState, msp_state_checksum_snd] at h
  case h_11 hs =>
    split_ifs at h <;> simp [setState] at h
  all_goals
    simp only [assignState, setState, msp_state_size, msp_state_cmd, msp_state_fill_buf,
      msp_state_discard] at h
    try split_ifs at h
    all_goals simp at h

/-- The state after a call is the second-byte lookahead state only when the
state before was `MSP_IDLE` and the byte is `'<'`. -/
theorem pred_uavtalk2 (env : Env) (w : World) (b : Nat)
    (h : (msp_receive_byte env w b).1.m.state = MSP_MAYBE_UAVTALK2) :
    w.m.state = MSP_IDLE ∧ b = 60 := by
  unfold msp_receive_byte at h
  split at h
  case h_1 hs =>
    refine ⟨hs, ?_⟩
    by_contra hb
    simp only [setState, hb, if_false] at h
    split_ifs at h
  case h_7 hs =>
    simp [assignState, setState, msp_state_checksum_snd] at h
  case h_11 hs =>
    split_ifs at h <;> simp [setState] at h
  all_goals
    simp only [assignState, setState, msp_state_size, msp_state_cmd, msp_state_fill_buf,
      msp_state_discard] at h
    try split_ifs at h
    all_goals simp at h

theorem feed_take_succ (env : Env) (w : World) (bs : List Nat) (k : Nat)
    (hk : k < bs.length) :
    feed env w (bs.take (k + 1))
      = (msp_receive_byte env (feed env w (bs.take k)) (bs.getD k 0)).1 := by
  rw [List.take_succ, feed_append, List.getD_eq_getElem?_getD, List.getElem?_eq_getElem hk]
  rfl

theorem feedReturns_getD (env : Env) (bs : List Nat) :
    ∀ (w : World) (k : Nat), k < bs.length →
      (feedReturns env w bs).getD k true
        = (msp_receive_byte env (feed env w (bs.take k)) (bs.getD k 0)).2 := by
  induction bs with
  | nil => intro w k hk; simp at hk
  | cons b bs ih =>
    intro w k hk
    cases k with
    | zero => simp [feedReturns, feed]
    | succ k =>
      simp only [List.length_cons, Nat.add_lt_add_iff_right] at hk
      simp only [feedReturns, List.getD_cons_succ, List.take_succ_cons, feed_cons]
      exact ih _ k hk

/-- A call that returns false while bytes are fed from `MSP_IDLE` is at least
the fourth, and it ends a run `'<'`, high nibble 2, any byte, high nibble 0
that started in `MSP_IDLE`. -/
theorem handover_signature (env : Env) (w : World) (bs : List Nat) (k : Nat)
    (hs : w.m.state = MSP_IDLE) (hk : k < bs.length)
    (hret : (feedReturns env w bs).getD k true = false) :
    3 ≤ k ∧ (feed env w (bs.take (k - 3))).m.state = MSP_IDLE
      ∧ bs.getD (k - 3) 0 = 60 ∧ bs.getD (k - 2) 0 &&& 0xf0 = 0x20
      ∧ bs.getD k 0 &&& 0xf0 = 0 := by
  rw [feedReturns_getD env bs w k hk, step_returns_false_iff] at hret
  obtain ⟨h4, hb4⟩ := hret
  have hk1 : 1 ≤ k := by
    by_contra hc
    have : k = 0 := by omega
    subst this
    simp [feed, hs] at h4
  obtain ⟨k1, rfl⟩ : ∃ k1, k = k1 + 1 := ⟨k - 1, by omega⟩
  rw [feed_take_succ env w bs k1 (by omega)] at h4
  have h3 := pred_uavtalk4 env _ _ h4
  have hk2 : 1 ≤ k1 := by
    by_contra hc
    have : k1 = 0 := by omega
    subst this
    simp [feed, hs] at h3
  obtain ⟨k2, rfl⟩ : ∃ k2, k1 = k2 + 1 := ⟨k1 - 1, by omega⟩
  rw [feed_take_succ env w bs k2 (by omega)] at h3
  obtain ⟨h2, hb2⟩ := pred_uavtalk3 env _ _ h3
  have hk3 : 1 ≤ k2 := by
    by_contra hc
    have : k2 = 0 := by omega
    subst this
    simp [feed, hs] at h2
  obtain ⟨k3, rfl⟩ : ∃ k3, k2 = k3 + 1 := ⟨k2 - 1, by omega⟩
  rw [feed_take_succ env w bs k3 (by omega)] at h2
  obtain ⟨h1, hb1⟩ := pred_uavtalk2 env _ _ h2
  have e3 : k3 + 1 + 1 + 1 - 3 = k3 := by omega
  have e2 : k3 + 1 + 1 + 1 - 2 = k3 + 1 := by omega
  rw [e3, e2]
  exact ⟨by omega, h1, hb1, hb2, hb4⟩

/-- C32: `msp_receive_byte` returns false exactly when the state before the
call is the fourth-byte lookahead state and the byte has high nibble 0, and
only then is `PIOS_COM_TELEM_RF` written (with the bridge's handle); so when
bytes are fed from `MSP_IDLE` and the call on byte number `k + 1` returns
false, then `k + 1` ≥ 4, the parser was in `MSP_IDLE` before byte number
`k - 2`, that byte is `0x3C`, the next has high nibble 2 and byte number
`k + 1` has high nibble 0. -/
theorem handover_only_on_signature :
    (∀ (env : Env) (w : World) (b : Nat),
        (msp_receive_byte env w b).2 = false
          ↔ (w.m.state = MSP_MAYBE_UAVTALK4 ∧ b &&& 0xf0 = 0))
      ∧ (∀ (env : Env) (w : World) (b : Nat),
          (msp_receive_byte env w b).1.telem_rf
            = if w.m.state = MSP_MAYBE_UAVTALK4 ∧ b &&& 0xf0 = 0 then w.m.com
              else w.telem_rf)
      ∧ (∀ (env : Env) (w : World) (bs : List Nat) (k : Nat),
          w.m.state = MSP_IDLE → k < bs.length →
          (feedReturns env w bs).getD k true = false →
          3 ≤ k ∧ (feed env w (bs.take (k - 3))).m.state = MSP_IDLE
            ∧ bs.getD (k - 3) 0 = 60 ∧ bs.getD (k - 2) 0 &&& 0xf0 = 0x20
            ∧ bs.getD k 0 &&& 0xf0 = 0) :=
  ⟨step_returns_false_iff, step_telem_rf, handover_signature⟩

/-- C32, at the bytes 7, `0x3C`, `0x2D`, `0x7F`, `0x05`: the fifth call
returns false. -/
theorem handover_only_on_signature_witness :
    sampleWorld.m.state = MSP_IDLE ∧ 4 < [7, 0x3C, 0x2D, 0x7F, 0x05].length
      ∧ (feedReturns sampleEnv sampleWorld [7, 0x3C, 0x2D, 0x7F, 0x05]).getD 4 true = false
      ∧ 3 ≤ 4
      ∧ (feed sampleEnv sampleWorld ([7, 0x3C, 0x2D, 0x7F, 0x05].take (4 - 3))).m.state
          = MSP_IDLE
      ∧ [7, 0x3C, 0x2D, 0x7F, 0x05].getD (4 - 3) 0 = 60
      ∧ [7, 0x3C, 0x2D, 0x7F, 0x05].getD (4 - 2) 0 &&& 0xf0 = 0x20
      ∧ [7, 0x3C, 0x2D, 0x7F, 0x05].getD 4 0 &&& 0xf0 = 0 :=
  ⟨rfl, by decide, by decide,
    handover_only_on_signature.2.2 sampleEnv sampleWorld [7, 0x3C, 0x2D, 0x7F, 0x05] 4 rfl
      (by decide) (by decide)⟩

/-- C36: a call of `msp_receive_byte` made in a state other than
`MSP_CHECKSUM` hands no byte to the transport, and a call made in
`MSP_CHECKSUM` with a byte different from the checksum accumulator hands none
either: bytes are sent only by the `MSP_CHECKSUM` transition on a matching
byte. -/
theorem sends_only_on_checksum_match (env : Env) (w : World) (b : Nat) :
    (w.m.state ≠ MSP_CHECKSUM → (msp_receive_byte env w b).1.sent = w.sent)
      ∧ (w.m.state = MSP_CHECKSUM → b ≠ w.m.checksum →
          (msp_receive_byte env w b).1.sent = w.sent)
      ∧ ((msp_receive_byte env w b).1.sent ≠ w.sent →
          w.m.state = MSP_CHECKSUM ∧ b = w.m.checksum) := by
  have h1 : w.m.state ≠ MSP_CHECKSUM → (msp_receive_byte env w b).1.sent = w.sent :=
    step_sent_of_ne_checksum env w b
  have h2 : w.m.state = MSP_CHECKSUM → b ≠ w.m.checksum →
      (msp_receive_byte env w b).1.sent = w.sent := by
    intro hs hb
    rw [checksum_mismatch env w b hs hb]
    rfl
  refine ⟨h1, h2, ?_⟩
  intro hne
  by_contra hcon
  apply hne
  by_cases hs : w.m.state = MSP_CHECKSUM
  · exact h2 hs (fun hb => hcon ⟨hs, hb⟩)
  · exact h1 hs

/-- C36, at a byte in `MSP_IDLE` and at a wrong checksum byte for the pending
`MSP_IDENT` request. -/
theorem sends_only_on_checksum_match_witness :
    sampleWorld.m.state ≠ MSP_CHECKSUM ∧ sampleWorldIdent.m.state = MSP_CHECKSUM
      ∧ 99 ≠ sampleWorldIdent.m.checksum
      ∧ (msp_receive_byte sampleEnv sampleWorld 36).1.sent = sampleWorld.sent
      ∧ (msp_receive_byte sampleEnv sampleWorldIdent 99).1.sent = sampleWorldIdent.sent :=
  ⟨by decide, rfl, by decide,
    (sends_only_on_checksum_match sampleEnv sampleWorld 36).1 (by decide),
    (sends_only_on_checksum_match sampleEnv sampleWorldIdent 99).2.1 rfl (by decide)⟩

theorem inFrame_length (L cmd : Nat) (payload : List Nat) (cs : Nat) (hp : payload.length = L) :
    (inFrame L cmd payload cs).length = L + 6 := by
  simp [inFrame, hp]

theorem feedReturns_length (env : Env) (bs : List Nat) :
    ∀ w, (feedReturns env w bs).length = bs.length := by
  induction bs with
  | nil => intro w; rfl
  | cons b bs ih => intro w; simp [feedReturns, ih]

/-- Calls made in a state other than the fourth-byte lookahead state return
true. -/
theorem feedReturns_all_true (env : Env) (w : World) (bs : List Nat)
    (h : ∀ k, k < bs.length → (feed env w (bs.take k)).m.state ≠ MSP_MAYBE_UAVTALK4) :
    ∀ r ∈ feedReturns env w bs, r = true := by
  intro r hr
  obtain ⟨k, hk, rfl⟩ := List.mem_iff_getElem.mp hr
  rw [feedReturns_length] at hk
  have hget := feedReturns_getD env bs w k hk
  rw [List.getD_eq_getElem?_getD, List.getElem?_eq_getElem (by rw [feedReturns_length]; exact hk)]
    at hget
  simp only [Option.getD_some] at hget
  rw [hget]
  by_contra hfalse
  have hf : (msp_receive_byte env (feed env w (bs.take k)) (bs.getD k 0)).2 = false := by
    simpa using hfalse
  exact h k hk ((step_returns_false_iff env _ _).mp hf).1

/-- The world after the header of an oversized frame and `j` of its payload
bytes. -/
theorem feed_oversized_prefix (env : Env) (w : World) (L cmd : Nat) (payload : List Nat)
    (hs : w.m.state = MSP_IDLE) (hL : sizeof_cmd_data < L) (h255 : L ≤ 255)
    (hp : payload.length = L) (j : Nat) (hj : j ≤ L) :
    feed env w ([36, 77, 60, L, cmd] ++ payload.take j)
      = { w with m := { w.m with state := MSP_DISCARD, cmd_size := L, cmd_id := cmd,
                                 cmd_i := j, checksum := L ^^^ cmd } } := by
  have hgt : L > sizeof_cmd_data := hL
  have hw1 := feed_header env w L cmd hs
  simp only [hgt, if_true] at hw1
  have hlen : (payload.take j).length = j := by simp [hp, hj]
  rw [feed_append, hw1, feed_discard env _ _ rfl (by simp [hlen, hj]) (by simpa using h255)]
  simp [hlen]

/-- The world after a whole oversized frame. -/
theorem feed_oversized_frame (env : Env) (w : World) (L cmd : Nat) (payload : List Nat)
    (cs : Nat) (hs : w.m.state = MSP_IDLE) (hL : sizeof_cmd_data < L) (h255 : L ≤ 255)
    (hp : payload.length = L) :
    feed env w (inFrame L cmd payload cs)
      = { w with m := { w.m with state := MSP_IDLE, cmd_size := L, cmd_id := cmd,
                                 cmd_i := (L + 1) % 256, checksum := L ^^^ cmd } } := by
  have hgt : L > sizeof_cmd_data := hL
  have hw1 := feed_header env w L cmd hs
  simp only [hgt, if_true] at hw1
  rw [inFrame, List.append_assoc, feed_append, hw1,
    feed_discard_all env _ payload cs rfl rfl (by simpa using hp) (by simpa using h255)]

/-- After every proper, non-empty part of a frame fed from `MSP_IDLE` the
parser is inside the frame. -/
theorem frame_prefix_inside (env : Env) (w : World) (L cmd : Nat) (payload : List Nat)
    (cs : Nat) (hs : w.m.state = MSP_IDLE) (h255 : L ≤ 255) (hp : payload.length = L)
    (n : Nat) (h0 : 0 < n) (hn : n < L + 6) :
    (feed env w ((inFrame L cmd payload cs).take n)).m.state ∈ inFrameStates := by
  by_cases hL : L ≤ sizeof_cmd_data
  · have hL2 : L = 0 ∨ L = 1 ∨ L = 2 := by simp [sizeof_cmd_data] at hL; omega
    rcases hL2 with rfl | rfl | rfl
    · have : payload = [] := List.length_eq_zero.mp hp
      subst this
      interval_cases n <;>
        simp [inFrame, inFrameStates, feed, msp_receive_byte, hs, setState, assignState,
          msp_state_size, msp_state_cmd, sizeof_cmd_data]
    · obtain ⟨a, rfl⟩ := List.length_eq_one.mp hp
      interval_cases n <;>
        simp [inFrame, inFrameStates, feed, msp_receive_byte, hs, setState, assignState,
          msp_state_size, msp_state_cmd, msp_state_fill_buf, sizeof_cmd_data]
    · obtain ⟨a, b, rfl⟩ := List.length_eq_two.mp hp
      interval_cases n <;>
        simp [inFrame, inFrameStates, feed, msp_receive_byte, hs, setState, assignState,
          msp_state_size, msp_state_cmd, msp_state_fill_buf, sizeof_cmd_data]
  · have hgt : sizeof_cmd_data < L := not_le.mp hL
    by_cases hn5 : n < 5
    · interval_cases n <;>
        simp [inFrame, inFrameStates, feed, msp_receive_byte, hs, setState, assignState,
          msp_state_size, msp_state_cmd]
    · obtain ⟨j, rfl⟩ : ∃ j, n = 5 + j := ⟨n - 5, by omega⟩
      have hj : j ≤ L := by omega
      have htake : (inFrame L cmd payload cs).take (5 + j)
          = [36, 77, 60, L, cmd] ++ payload.take j := by
        have h5 : 5 + j = ([36, 77, 60, L, cmd] : List Nat).length + j := rfl
        rw [inFrame, List.append_assoc, h5, List.take_append,
          List.take_append_of_le_length (by omega)]
      rw [htake, feed_oversized_prefix env w L cmd payload hs hgt h255 hp j hj]
      simp [inFrameStates]

/-- The `MSP_CHECKSUM` transition always ends in `MSP_IDLE`. -/
theorem step_state_of_checksum (env : Env) (w : World) (b : Nat)
    (hs : w.m.state = MSP_CHECKSUM) : (msp_receive_byte env w b).1.m.state = MSP_IDLE := by
  simp [msp_receive_byte, hs, assignState, setState, msp_state_checksum_snd]

/-- The state and registry after a whole frame, whatever its last byte. -/
theorem frame_end (env : Env) (w : World) (L cmd : Nat) (payload : List Nat) (cs : Nat)
    (hs : w.m.state = MSP_IDLE) (h255 : L ≤ 255) (hp : payload.length = L) :
    (feed env w (inFrame L cmd payload cs)).m.state = MSP_IDLE
      ∧ (feed env w (inFrame L cmd payload cs)).telem_rf = w.telem_rf := by
  by_cases hL : L ≤ sizeof_cmd_data
  · obtain ⟨h1, -, -, -, -, -, -, h8⟩ := feed_to_checksum env w L cmd payload hs hL hp
    rw [feed_inFrame]
    constructor
    · exact step_state_of_checksum env _ cs h1
    · rw [step_telem_rf, if_neg (fun hc => by rw [h1] at hc; exact absurd hc.1 (by decide)), h8]
  · rw [feed_oversized_frame env w L cmd payload cs hs (not_le.mp hL) h255 hp]
    exact ⟨rfl, rfl⟩

/-- C31: for a declared length `L` ≤ 255, any command id, `L` payload bytes
and any last byte, correct checksum or not, the frame
`'$' 'M' '<' L cmd payload checksum` fed from `MSP_IDLE` has `L + 6` bytes,
every call of `msp_receive_byte` on it returns true, after every proper
non-empty part of it the parser is in one of the header, fill, checksum or
discard states (never in `MSP_IDLE` and never in the collision lookahead), and
after the whole of it the parser is in `MSP_IDLE` with the registry
untouched. -/
theorem frame_consumed_exactly (env : Env) (w : World) (L cmd : Nat) (payload : List Nat)
    (cs : Nat) (hs : w.m.state = MSP_IDLE) (h255 : L ≤ 255) (hp : payload.length = L) :
    (inFrame L cmd payload cs).length = L + 6
      ∧ (∀ r ∈ feedReturns env w (inFrame L cmd payload cs), r = true)
      ∧ (∀ n, 0 < n → n < L + 6 →
          (feed env w ((inFrame L cmd payload cs).take n)).m.state ∈ inFrameStates)
      ∧ (feed env w (inFrame L cmd payload cs)).m.state = MSP_IDLE
      ∧ (feed env w (inFrame L cmd payload cs)).telem_rf = w.telem_rf
      ∧ MSP_IDLE ∉ inFrameStates ∧ MSP_MAYBE_UAVTALK2 ∉ inFrameStates
      ∧ MSP_MAYBE_UAVTALK3 ∉ inFrameStates ∧ MSP_MAYBE_UAVTALK4 ∉ inFrameStates := by
  have hlen := inFrame_length L cmd payload cs hp
  have hin := frame_prefix_inside env w L cmd payload cs hs h255 hp
  obtain ⟨hend, htel⟩ := frame_end env w L cmd payload cs hs h255 hp
  refine ⟨hlen, ?_, hin, hend, htel, by decide, by decide, by decide, by decide⟩
  apply feedReturns_all_true
  intro k hk
  rw [hlen] at hk
  by_cases hk0 : k = 0
  · subst hk0
    simp [feed, hs]
  · intro h4
    have := hin k (by omega) hk
    rw [h4] at this
    exact absurd this (by decide)

/-- C31, at an oversized frame whose payload holds the lookahead signature
`0x3C, 0x2D, 0x7F, 0x05`. -/
theorem frame_consumed_exactly_witness :
    sampleWorld.m.state = MSP_IDLE ∧ 4 ≤ 255 ∧ [0x3C, 0x2D, 0x7F, 0x05].length = 4
      ∧ (∀ r ∈ feedReturns sampleEnv sampleWorld (inFrame 4 1 [0x3C, 0x2D, 0x7F, 0x05] 9),
          r = true)
      ∧ (feed sampleEnv sampleWorld (inFrame 4 1 [0x3C, 0x2D, 0x7F, 0x05] 9)).m.state
          = MSP_IDLE
      ∧ (feed sampleEnv sampleWorld (inFrame 4 1 [0x3C, 0x2D, 0x7F, 0x05] 9)).telem_rf
          = sampleWorld.telem_rf :=
  ⟨rfl, by decide, rfl,
    (frame_consumed_exactly sampleEnv sampleWorld 4 1 [0x3C, 0x2D, 0x7F, 0x05] 9 rfl
      (by decide) rfl).2.1,
    (frame_consumed_exactly sampleEnv sampleWorld 4 1 [0x3C, 0x2D, 0x7F, 0x05] 9 rfl
      (by decide) rfl).2.2.2.1,
    (frame_consumed_exactly sampleEnv sampleWorld 4 1 [0x3C, 0x2D, 0x7F, 0x05] 9 rfl
      (by decide) rfl).2.2.2.2.1⟩

/-- After header and payload of a frame that fits, the buffer of a session
that has its two bytes starts with the payload. -/
theorem feed_fill_buffer (env : Env) (w : World) (L c : Nat) (p : List Nat)
    (hs : w.m.state = MSP_IDLE) (hL : L ≤ sizeof_cmd_data) (hp : p.length = L)
    (hbuf : w.m.cmd_data.length = sizeof_cmd_data) :
    (feed env w ([36, 77, 60, L, c] ++ p)).m.cmd_data.take L = p := by
  obtain ⟨x, y, hxy⟩ := List.length_eq_two.mp hbuf
  obtain ⟨-, -, -, -, h5, -⟩ := feed_to_checksum env w L c p hs hL hp
  rw [h5, hxy]
  have hL2 : L = 0 ∨ L = 1 ∨ L = 2 := by simp [sizeof_cmd_data] at hL; omega
  rcases hL2 with rfl | rfl | rfl
  · have : p = [] := List.length_eq_zero.mp hp
    subst this
    rfl
  · obtain ⟨a, rfl⟩ := List.length_eq_one.mp hp
    simp [List.range_succ]
  · obtain ⟨a, b, rfl⟩ := List.length_eq_two.mp hp
    simp [List.range_succ]

/-- One call brings the parser at most one step closer to sending. -/
theorem step_sendDistance (env : Env) (w : World) (b : Nat) :
    sendDistance w.m.state ≤ sendDistance (msp_receive_byte env w b).1.m.state + 1 := by
  unfold msp_receive_byte
  split
  case h_7 hs =>
    simp [hs, sendDistance]
  case h_11 hs =>
    split_ifs <;> simp [hs, setState, sendDistance]
  all_goals
    rename_i hs
    simp only [hs, assignState, setState, msp_state_size, msp_state_cmd, msp_state_fill_buf,
      msp_state_discard]
    try split_ifs
    all_goals simp [sendDistance]

/-- Fewer bytes than the distance to sending send nothing. -/
theorem feed_short_sends_nothing (env : Env) (bs : List Nat) :
    ∀ w, bs.length ≤ sendDistance w.m.state → (feed env w bs).sent = w.sent := by
  induction bs with
  | nil => intro w _; rfl
  | cons b bs ih =>
    intro w h
    simp only [List.length_cons] at h
    have hne : w.m.state ≠ MSP_CHECKSUM := by
      intro hc
      rw [hc] at h
      simp [sendDistance] at h
    have hd := step_sendDistance env w b
    rw [feed_cons, ih _ (by omega), step_sent_of_ne_checksum env w b hne]

/-- C34: a stray `'<'` swallows the frame that follows it. Fed from
`MSP_IDLE`, the byte `'<'` and then a valid frame with declared length at
most 2 send nothing: the lookahead consumes `'$'` (high nibble 2), `'M'` and
`'<'` (high nibble 3, abort), each call returning true, which leaves the
parser in `MSP_IDLE` with the `L + 3` ≤ 5 bytes that remain, fewer than the 6
a response needs. -/
theorem stray_lookahead_swallows_frame (env : Env) (w : World) (L c : Nat)
    (payload : List Nat) (hs : w.m.state = MSP_IDLE) (hL : L ≤ 2)
    (hp : payload.length = L) :
    (feed env w (60 :: inFrame L c payload (xorAll (L ^^^ c) payload))).sent = w.sent
      ∧ feed env w [60, 36, 77, 60] = w
      ∧ feedReturns env w [60, 36, 77, 60] = [true, true, true, true]
      ∧ (feed env w [60]).m.state = MSP_MAYBE_UAVTALK2
      ∧ (feed env w [60, 36]).m.state = MSP_MAYBE_UAVTALK3
      ∧ (feed env w [60, 36, 77]).m.state = MSP_MAYBE_UAVTALK4
      ∧ 60 :: inFrame L c payload (xorAll (L ^^^ c) payload)
          = [60, 36, 77, 60] ++ ([L, c] ++ payload ++ [xorAll (L ^^^ c) payload])
      ∧ ([L, c] ++ payload ++ [xorAll (L ^^^ c) payload]).length ≤ 5 := by
  have h36 : (36 &&& 0xf0 : Nat) = 0x20 := by decide
  have h60 : ¬ ((60 &&& 0xf0 : Nat) = 0) := by decide
  have h4 : feed env w [60, 36, 77, 60] = w := by
    have : feed env w [60, 36, 77, 60] = { w with m := { w.m with state := MSP_IDLE } } := by
      simp [feed, msp_receive_byte, hs, setState, h36, h60]
    rw [this, ← hs]
  have hsplit : 60 :: inFrame L c payload (xorAll (L ^^^ c) payload)
      = [60, 36, 77, 60] ++ ([L, c] ++ payload ++ [xorAll (L ^^^ c) payload]) := by
    simp [inFrame]
  have hlen : ([L, c] ++ payload ++ [xorAll (L ^^^ c) payload]).length ≤ 5 := by
    simp [hp]
    omega
  refine ⟨?_, h4, ?_, ?_, ?_, ?_, hsplit, hlen⟩
  · rw [hsplit, feed_append, h4]
    exact feed_short_sends_nothing env _ w (by rw [hs]; exact hlen)
  · simp [feedReturns, msp_receive_byte, hs, setState, h36, h60]
  · simp [feed, msp_receive_byte, hs, setState, h36, h60]
  · simp [feed, msp_receive_byte, hs, setState, h36, h60]
  · simp [feed, msp_receive_byte, hs, setState, h36, h60]

/-- C34, at `'<'` followed by the valid API-version request. -/
theorem stray_lookahead_swallows_frame_witness :
    sampleWorld.m.state = MSP_IDLE ∧ 0 ≤ 2 ∧ ([] : List Nat).length = 0
      ∧ (feed sampleEnv sampleWorld (60 :: inFrame 0 1 [] (xorAll (0 ^^^ 1) []))).sent
          = sampleWorld.sent
      ∧ (feed sampleEnv sampleWorld (inFrame 0 1 [] (xorAll (0 ^^^ 1) []))).sent
          = [36, 77, 62, 3, 1, 0, 1, 31, 28] :=
  ⟨rfl, by decide, rfl,
    (stray_lookahead_swallows_frame sampleEnv sampleWorld 0 1 [] rfl (by decide) rfl).1,
    by decide⟩

/-- The flags field of the status response, row by row of the Box Table. -/
theorem status_flags_value (env : Env) (w : World) (hh : env.FlightStatusHandle = true) :
    u32le (framePayload (sentBy w (msp_send_status env w))) 6
      = (((((((if env.FlightStatus_Armed = env.FLIGHTSTATUS_ARMED_ARMED then 1 else 0)
          ||| (if env.FlightStatus_FlightMode = env.FLIGHTSTATUS_FLIGHTMODE_LEVELING
                then 2 else 0))
          ||| (if env.FlightStatus_FlightMode = env.FLIGHTSTATUS_FLIGHTMODE_HORIZON
                then 4 else 0))
          ||| (if env.FlightStatus_FlightMode = env.FLIGHTSTATUS_FLIGHTMODE_ALTITUDEHOLD
                then 8 else 0))
          ||| (if env.FlightStatus_FlightMode = 0 then 16 else 0))
          ||| (if env.FlightStatus_FlightMode = 0 then 32 else 0))
          ||| (if env.FlightStatus_FlightMode = env.FLIGHTSTATUS_FLIGHTMODE_RETURNTOHOME
                then 64 else 0))
          ||| (if env.FlightStatus_FlightMode = env.FLIGHTSTATUS_FLIGHTMODE_POSITIONHOLD
                then 128 else 0) := by
  obtain ⟨sensors, hp⟩ := status_payload_shape env w
  rw [hp, hh, if_pos rfl, status_loop_table]
  exact u32le_status_flags _ _ _ _ _ (by split_ifs <;> decide)

theorem status_flags_no_handle (env : Env) (w : World) (hh : env.FlightStatusHandle = false) :
    u32le (framePayload (sentBy w (msp_send_status env w))) 6 = 0 := by
  obtain ⟨sensors, hp⟩ := status_payload_shape env w
  rw [hp, hh]
  simp only [Bool.false_eq_true, if_false]
  exact u32le_status_flags _ _ _ _ _ (by norm_num)

/-- C35: in the status response the rows of the Box Table for VARIO (slot 4)
and MAG (slot 5) carry the predicate 0, so, the flight-status object existing,
bit 4 and bit 5 of the flags field are each set exactly when the flight mode
is 0; for a flight mode equal to no predicate of the slots 1 to 7 the flags
field is the armed bit alone; and the flags field is always below 256. -/
theorem status_vario_mag_bits (env : Env) (w : World) :
    ((msp_boxes env).getD 4 { mode := 0, mwboxid := 0, tlmode := 1 }
        = { mode := MSP_BOX_VARIO, mwboxid := 4, tlmode := 0 }
      ∧ (msp_boxes env).getD 5 { mode := 0, mwboxid := 0, tlmode := 1 }
        = { mode := MSP_BOX_MAG, mwboxid := 5, tlmode := 0 })
      ∧ u32le (framePayload (sentBy w (msp_send_status env w))) 6 < 256
      ∧ (env.FlightStatusHandle = true →
          ((u32le (framePayload (sentBy w (msp_send_status env w))) 6).testBit 4 = true
              ↔ env.FlightStatus_FlightMode = 0)
          ∧ ((u32le (framePayload (sentBy w (msp_send_status env w))) 6).testBit 5 = true
              ↔ env.FlightStatus_FlightMode = 0))
      ∧ (env.FlightStatusHandle = true →
          env.FlightStatus_FlightMode ∉
            [env.FLIGHTSTATUS_FLIGHTMODE_LEVELING, env.FLIGHTSTATUS_FLIGHTMODE_HORIZON,
             env.FLIGHTSTATUS_FLIGHTMODE_ALTITUDEHOLD, 0, 0,
             env.FLIGHTSTATUS_FLIGHTMODE_RETURNTOHOME,
             env.FLIGHTSTATUS_FLIGHTMODE_POSITIONHOLD] →
          u32le (framePayload (sentBy w (msp_send_status env w))) 6
            = (if env.FlightStatus_Armed = env.FLIGHTSTATUS_ARMED_ARMED then 1 else 0)) := by
  refine ⟨⟨rfl, rfl⟩, ?_, ?_, ?_⟩
  · cases hh : env.FlightStatusHandle
    · rw [status_flags_no_handle env w hh]
      decide
    · rw [status_flags_value env w hh]
      split_ifs <;> decide
  · intro hh
    rw [status_flags_value env w hh]
    by_cases h0 : env.FlightStatus_FlightMode = 0
    · simp only [h0, if_true, iff_true]
      split_ifs <;> exact ⟨by decide, by decide⟩
    · simp only [h0, if_false, iff_false]
      split_ifs <;> exact ⟨by decide, by decide⟩
  · intro hh hnot
    rw [status_flags_value env w hh]
    simp only [List.mem_cons, List.mem_singleton, List.not_mem_nil, or_false, not_or] at hnot
    obtain ⟨h1, h2, h3, h4, -, h6, h7⟩ := hnot
    simp only [h1, h2, h3, h4, h6, h7, if_false]
    split_ifs <;> rfl

/-- C35, at the sample model in flight mode 0 (bits 4 and 5 set) and at the
armed sample model in a mode outside the table (flags 1). -/
theorem status_vario_mag_bits_witness :
    sampleEnvModeZero.FlightStatusHandle = true
      ∧ sampleEnvModeZero.FlightStatus_FlightMode = 0
      ∧ (u32le (framePayload (sentBy sampleWorld
          (msp_send_status sampleEnvModeZero sampleWorld))) 6).testBit 4 = true
      ∧ (u32le (framePayload (sentBy sampleWorld
          (msp_send_status sampleEnvModeZero sampleWorld))) 6).testBit 5 = true
      ∧ sampleEnvModeOther.FlightStatusHandle = true
      ∧ sampleEnvModeOther.FlightStatus_FlightMode ∉
          [sampleEnvModeOther.FLIGHTSTATUS_FLIGHTMODE_LEVELING,
           sampleEnvModeOther.FLIGHTSTATUS_FLIGHTMODE_HORIZON,
           sampleEnvModeOther.FLIGHTSTATUS_FLIGHTMODE_ALTITUDEHOLD, 0, 0,
           sampleEnvModeOther.FLIGHTSTATUS_FLIGHTMODE_RETURNTOHOME,
           sampleEnvModeOther.FLIGHTSTATUS_FLIGHTMODE_POSITIONHOLD]
      ∧ u32le (framePayload (sentBy sampleWorld
          (msp_send_status sampleEnvModeOther sampleWorld))) 6
          = (if sampleEnvModeOther.FlightStatus_Armed
                = sampleEnvModeOther.FLIGHTSTATUS_ARMED_ARMED then 1 else 0) :=
  ⟨rfl, rfl,
    ((status_vario_mag_bits sampleEnvModeZero sampleWorld).2.2.1 rfl).1.mpr rfl,
    ((status_vario_mag_bits sampleEnvModeZero sampleWorld).2.2.1 rfl).2.mpr rfl,
    rfl, by decide,
    (status_vario_mag_bits sampleEnvModeOther sampleWorld).2.2.2 rfl (by decide)⟩

theorem roundf_intCast (z : ℤ) : roundf (z : ℚ) = z := by
  unfold roundf
  split_ifs with h
  · rw [Int.floor_eq_iff]
    constructor <;> linarith
  · have : Int.floor (-(z : ℚ) + 1 / 2) = -z := by
      rw [Int.floor_eq_iff]
      constructor <;> push_cast <;> linarith
    rw [this]
    ring

theorem roundf_mono {a b : ℚ} (h : a ≤ b) : roundf a ≤ roundf b := by
  unfold roundf
  split_ifs with ha hb hb
  · exact Int.floor_le_floor (by linarith)
  · exact absurd (le_trans ha h) hb
  · have h1 : 0 ≤ Int.floor (-a + 1 / 2) := Int.le_floor.mpr (by push_cast; linarith)
    have h2 : 0 ≤ Int.floor (b + 1 / 2) := Int.le_floor.mpr (by push_cast; linarith)
    omega
  · have := Int.floor_le_floor (show -b + 1 / 2 ≤ -a + 1 / 2 by linarith)
    omega

/-- The function `roundf` moves a number by at most one half. -/
theorem roundf_error (q : ℚ) : |(roundf q : ℚ) - q| ≤ 1 / 2 := by
  unfold roundf
  split_ifs with h
  · have h1 := Int.floor_le (q + 1 / 2)
    have h2 := Int.lt_floor_add_one (q + 1 / 2)
    rw [abs_le]
    constructor <;> linarith
  · have h1 := Int.floor_le (-q + 1 / 2)
    have h2 := Int.lt_floor_add_one (-q + 1 / 2)
    rw [abs_le]
    push_cast
    constructor <;> linarith

theorem roundf_small (q : ℚ) (h : |q| < 1 / 2) : roundf q = 0 := by
  rw [abs_lt] at h
  unfold roundf
  split_ifs with h0
  · rw [Int.floor_eq_iff]
    constructor <;> push_cast <;> linarith
  · have : Int.floor (-q + 1 / 2) = 0 := by
      rw [Int.floor_eq_iff]
      constructor <;> push_cast <;> linarith
    rw [this]
    rfl

/-- An integer that is a value of `int32_t` is converted to itself. -/
theorem f2i32_intCast (env : Env) (z : ℤ) (h1 : -2147483648 ≤ z) (h2 : z ≤ 2147483647) :
    f2i32 env (z : ℚ) = toBits 32 z := by
  unfold f2i32
  rw [floatToInt_of_range env _ _ _ (by rw [truncf_intCast]; exact h1)
    (by rw [truncf_intCast]; exact h2), truncf_intCast]

/-- Rounding a normal number to binary32 moves it by at most the fraction
`2 ^ (-24)` of its magnitude. -/
theorem roundF32_rel_error (v : ℚ) (h : (2 : ℚ) ^ (-126 : ℤ) ≤ |v|) :
    |roundF32 v - v| ≤ |v| / 2 ^ 24 := by
  have hv : v ≠ 0 := by
    intro h0
    rw [h0, abs_zero] at h
    have : (0 : ℚ) < (2 : ℚ) ^ (-126 : ℤ) := zpow_pos (by norm_num) _
    linarith
  have hlog : -126 ≤ Int.log 2 |v| :=
    (Int.zpow_le_iff_le_log (b := 2) (by norm_num) (abs_pos.mpr hv)).mp (by simpa using h)
  have h1 := two_zpow_expF32_le v hv hlog
  rw [two_zpow_eq] at h1
  have h2 := roundF32_error v
  have hu := ulpF32_pos v
  have e23 : (((2 ^ 23 : ℤ)) : ℚ) = 8388608 := by norm_num
  rw [e23] at h1
  have e24 : ((2 : ℚ) ^ 24) = 16777216 := by norm_num
  rw [e24]
  rw [le_div_iff₀ (by norm_num)]
  linarith

/-- The altitude in centimetres is within a half of the exact product, plus the
rounding of the product. -/
theorem altitude_cm_error (v : ℚ) :
    |(roundf (roundF32 v) : ℚ) - v| ≤ 1 / 2 + |v| / 2 ^ 24 := by
  by_cases h : (2 : ℚ) ^ (-126 : ℤ) ≤ |v|
  · have h1 := roundf_error (roundF32 v)
    have h2 := roundF32_rel_error v h
    have : (roundf (roundF32 v) : ℚ) - v
        = ((roundf (roundF32 v) : ℚ) - roundF32 v) + (roundF32 v - v) := by ring
    rw [this]
    calc |(roundf (roundF32 v) : ℚ) - roundF32 v + (roundF32 v - v)|
        ≤ |(roundf (roundF32 v) : ℚ) - roundF32 v| + |roundF32 v - v| := abs_add _ _
      _ ≤ 1 / 2 + |v| / 2 ^ 24 := by linarith
  · push_neg at h
    have hsmall : (2 : ℚ) ^ (-126 : ℤ) < 1 / 2 := by norm_num
    have hex := roundF32_exact 1 (-126) (by norm_num) (by norm_num)
    have hex' := roundF32_exact (-1) (-126) (by norm_num) (by norm_num)
    rw [abs_lt] at h
    have hup : roundF32 v ≤ (2 : ℚ) ^ (-126 : ℤ) := by
      have := roundF32_mono (show v ≤ ((1 : ℤ) : ℚ) * (2 : ℚ) ^ (-126 : ℤ) by
        push_cast; linarith)
      rw [hex] at this
      simpa using this
    have hlo : -(2 : ℚ) ^ (-126 : ℤ) ≤ roundF32 v := by
      have := roundF32_mono (show ((-1 : ℤ) : ℚ) * (2 : ℚ) ^ (-126 : ℤ) ≤ v by
        push_cast; linarith)
      rw [hex'] at this
      simpa using this
    clear hex hex'
    generalize (2 : ℚ) ^ (-126 : ℤ) = t at h hsmall hup hlo
    have hz : roundf (roundF32 v) = 0 :=
      roundf_small _ (by rw [abs_lt]; constructor <;> linarith)
    rw [hz]
    have hv : |v| < 1 / 2 := by rw [abs_lt]; constructor <;> linarith
    have hnn : 0 ≤ |v| / 2 ^ 24 := by positivity
    simp only [Int.cast_zero, zero_sub, abs_neg]
    linarith

/-- Where the exact product is an integer below `2 ^ 24` in magnitude, the
altitude in centimetres is that integer. -/
theorem altitude_cm_of_int (v : ℚ) (n : ℤ) (hv : v = n) (h : |n| < 2 ^ 24) :
    roundf (roundF32 v) = n := by
  rw [hv, roundF32_int n h, roundf_intCast]

/-- A product of at most `2147483520` in magnitude is converted to `int32_t`
within the range of the type. -/
theorem altitude_cm_range (v : ℚ) (h : |v| ≤ 2147483520) :
    -2147483648 ≤ roundf (roundF32 v) ∧ roundf (roundF32 v) ≤ 2147483647 := by
  rw [abs_le] at h
  have e : ((16777215 : ℤ) : ℚ) * (2 : ℚ) ^ (7 : ℤ) = ((2147483520 : ℤ) : ℚ) := by norm_num
  have e' : ((-16777215 : ℤ) : ℚ) * (2 : ℚ) ^ (7 : ℤ) = ((-2147483520 : ℤ) : ℚ) := by
    norm_num
  have hex := roundF32_exact 16777215 7 (by norm_num) (by norm_num)
  have hex' := roundF32_exact (-16777215) 7 (by norm_num) (by norm_num)
  rw [e] at hex
  rw [e'] at hex'
  have hup : roundF32 v ≤ ((2147483520 : ℤ) : ℚ) := by
    have := roundF32_mono (show v ≤ ((2147483520 : ℤ) : ℚ) by push_cast; linarith)
    rwa [hex] at this
  have hlo : ((-2147483520 : ℤ) : ℚ) ≤ roundF32 v := by
    have := roundF32_mono (show ((-2147483520 : ℤ) : ℚ) ≤ v by push_cast; linarith)
    rwa [hex'] at this
  have h1 := roundf_mono hup
  have h2 := roundf_mono hlo
  rw [roundf_intCast] at h1 h2
  constructor <;> omega

/-- The bytes a valid altitude request makes the bridge send when a position
source exists. -/
theorem feed_altitude_request (env : Env) (w : World) (L : Nat) (payload : List Nat)
    (hs : w.m.state = MSP_IDLE) (hL : L ≤ sizeof_cmd_data) (hp : payload.length = L)
    (hyes : env.PositionActualHandle = true) :
    (feed env w (inFrame L MSP_ALTITUDE payload (xorAll (L ^^^ MSP_ALTITUDE) payload))).sent
      = w.sent ++ outFrame 109
          (le32 (f2i32 env (roundf (fmul (-env.PositionActual_Down) 100)))
            ++ le16 env.stack_altitude_vario) := by
  obtain ⟨-, h2, -, -, -, -, h7, -⟩ := feed_to_checksum env w L MSP_ALTITUDE payload hs hL hp
  rw [feed_valid_frame env w L MSP_ALTITUDE payload hs hL hp, dispatch_altitude env _ h2]
  simp only [msp_send_altitude, hyes, if_true, setState]
  rw [msp_send_outFrame _ _ _ 6 (altitude_payload_length _ _) (by norm_num), h7]
  rfl

/-- The single-precision product of the binary32 value nearest to 0.005 and
100 is one half, which `roundf` takes to 1. -/
theorem half_cm_product :
    roundf (fmul (-(-5368709 / 1073741824)) 100) = 1 := by
  have e25 : (2 : ℚ) ^ ((-2 : ℤ) - 23) = 1 / 33554432 := by norm_num
  have hm : fmul (-(-5368709 / 1073741824)) 100 = 1 / 2 := by
    unfold fmul
    have h := roundF32_of_binade (-(-5368709 / 1073741824) * 100) (-2) 16777216
      (by norm_num) (by norm_num) (by norm_num) (by norm_num) (by norm_num)
    rw [h, e25]
    norm_num
  rw [hm]
  unfold roundf
  rw [if_pos (by norm_num), Int.floor_eq_iff]
  constructor <;> norm_num

theorem half_cm_exact : roundf (-(-5368709 / 1073741824) * 100) = 0 := by
  unfold roundf
  rw [if_pos (by norm_num), Int.floor_eq_iff]
  constructor <;> norm_num

theorem half_cm_is_float :
    roundF32 (-5368709 / 1073741824) = -5368709 / 1073741824 := by
  have h := roundF32_exact (-5368709) (-30) (by norm_num) (by norm_num)
  have e : ((-5368709 : ℤ) : ℚ) * (2 : ℚ) ^ (-30 : ℤ) = -5368709 / 1073741824 := by norm_num
  rw [e] at h
  exact h

/-- Where `roundf` of the product is no value of `int32_t` the conversion is
undefined, and the altitude field is what the environment gives for it. -/
theorem f2i32_out_of_range (env : Env) (z : ℤ) (h : z < -2147483648 ∨ 2147483647 < z) :
    f2i32 env (z : ℚ)
      = toBits 32 (env.float_conversion_undefined (-2147483648) 2147483647 (z : ℚ)) := by
  unfold f2i32 floatToInt
  rw [truncf_intCast, if_neg (by omega)]

/-- C14 as stated fails: with the position estimate at the binary32 value
nearest to 5 mm above the origin, a valid altitude request is answered with
the altitude 1 cm (payload bytes 1, 0, 0, 0), while `round(-Down * 100)` is 0:
the product is formed in single precision, where it rounds to one half. -/
theorem altitude_not_exact_round :
    sampleWorld.m.state = MSP_IDLE
      ∧ sampleEnvHalfCm.PositionActualHandle = true
      ∧ roundF32 sampleEnvHalfCm.PositionActual_Down = sampleEnvHalfCm.PositionActual_Down
      ∧ (feed sampleEnvHalfCm sampleWorld
            (inFrame 0 MSP_ALTITUDE [] (xorAll (0 ^^^ MSP_ALTITUDE) []))).sent
          = sampleWorld.sent
            ++ outFrame 109 ([1, 0, 0, 0] ++ le16 sampleEnvHalfCm.stack_altitude_vario)
      ∧ roundf (-sampleEnvHalfCm.PositionActual_Down * 100) = 0 := by
  have hD : sampleEnvHalfCm.PositionActual_Down = -5368709 / 1073741824 := rfl
  refine ⟨rfl, rfl, ?_, ?_, ?_⟩
  · rw [hD]
    exact half_cm_is_float
  · rw [feed_altitude_request sampleEnvHalfCm sampleWorld 0 [] rfl (by decide) rfl rfl, hD,
      half_cm_product]
    have h := f2i32_intCast sampleEnvHalfCm 1 (by norm_num) (by norm_num)
    rw [h]
    rfl
  · rw [hD]
    exact half_cm_exact

/-- C14, amended: a valid altitude request (command 109) fed from `MSP_IDLE`
whose declared length is within the buffer capacity of 2 bytes sends nothing
at all when there is no position-estimate source, and leaves the parser in
`MSP_IDLE`. When there is a source, let `z` be `roundf` of the
single-precision product of `-Down` and 100. Where `z` is a value of
`int32_t` (outside, the conversion is undefined), exactly one frame for
command 109 is sent, whose 6-byte payload starts with the little-endian
`int32_t` `z`, which reads back as `z`. That `z` is within
`1/2 + |Down * 100| / 2 ^ 24` of `-Down * 100`, equals `-Down * 100` where
that is an integer below `2 ^ 24` in magnitude, and is a value of `int32_t`
whenever `|Down * 100|` is at most 2147483520. A request with a longer
declared length is discarded whatever its last byte: nothing is sent, source
or not, and the parser returns to `MSP_IDLE`. -/
theorem altitude_request (env : Env) (w : World) (L : Nat) (payload : List Nat)
    (hs : w.m.state = MSP_IDLE) (hp : payload.length = L) :
    (L ≤ sizeof_cmd_data → env.PositionActualHandle = false →
        (feed env w (inFrame L MSP_ALTITUDE payload (xorAll (L ^^^ MSP_ALTITUDE) payload))).sent
          = w.sent)
      ∧ (L ≤ sizeof_cmd_data → env.PositionActualHandle = true →
          ∀ z : ℤ, z = roundf (fmul (-env.PositionActual_Down) 100) →
            -2147483648 ≤ z → z ≤ 2147483647 →
            (feed env w
                (inFrame L MSP_ALTITUDE payload (xorAll (L ^^^ MSP_ALTITUDE) payload))).sent
              = w.sent ++ outFrame 109 (le32 (toBits 32 z) ++ le16 env.stack_altitude_vario)
            ∧ (le32 (toBits 32 z) ++ le16 env.stack_altitude_vario).length = 6
            ∧ wrap32 (u32le (le32 (toBits 32 z) ++ le16 env.stack_altitude_vario) 0 : ℕ) = z)
      ∧ (L ≤ sizeof_cmd_data →
          (feed env w (inFrame L MSP_ALTITUDE payload
            (xorAll (L ^^^ MSP_ALTITUDE) payload))).m.state = MSP_IDLE)
      ∧ (sizeof_cmd_data < L → L ≤ 255 → ∀ cs : Nat,
          (feed env w (inFrame L MSP_ALTITUDE payload cs)).sent = w.sent
            ∧ (feed env w (inFrame L MSP_ALTITUDE payload cs)).m.state = MSP_IDLE)
      ∧ |(roundf (fmul (-env.PositionActual_Down) 100) : ℚ) - -env.PositionActual_Down * 100|
          ≤ 1 / 2 + |env.PositionActual_Down * 100| / 2 ^ 24
      ∧ (∀ n : ℤ, -env.PositionActual_Down * 100 = n → |n| < 2 ^ 24 →
          roundf (fmul (-env.PositionActual_Down) 100) = n)
      ∧ (|env.PositionActual_Down * 100| ≤ 2147483520 →
          -2147483648 ≤ roundf (fmul (-env.PositionActual_Down) 100)
            ∧ roundf (fmul (-env.PositionActual_Down) 100) ≤ 2147483647) := by
  refine ⟨?_, ?_, ?_, ?_, ?_, ?_, ?_⟩
  · intro hL hno
    obtain ⟨-, h2, -, -, -, -, h7, -⟩ := feed_to_checksum env w L MSP_ALTITUDE payload hs hL hp
    rw [feed_valid_frame env w L MSP_ALTITUDE payload hs hL hp, dispatch_altitude env _ h2]
    simp only [msp_send_altitude, hno, setState]
    exact h7
  · intro hL hyes z hz h1 h2
    refine ⟨?_, altitude_payload_length _ _, ?_⟩
    · rw [feed_altitude_request env w L payload hs hL hp hyes, ← hz, f2i32_intCast env z h1 h2]
    · have hrb := wrap32_toBits z h1 (by omega)
      have hsame : u32le (le32 (toBits 32 z) ++ le16 env.stack_altitude_vario) 0
          = u32le (le32 (toBits 32 z)) 0 := by
        simp [u32le, le32]
      rw [hsame]
      exact hrb
  · intro hL
    rw [feed_valid_frame env w L MSP_ALTITUDE payload hs hL hp, setState]
  · intro hgt h255 cs
    rw [feed_oversized_frame env w L MSP_ALTITUDE payload cs hs hgt h255 hp]
    exact ⟨rfl, rfl⟩
  · have h := altitude_cm_error (-env.PositionActual_Down * 100)
    have habs : |(-env.PositionActual_Down * 100)| = |env.PositionActual_Down * 100| := by
      rw [neg_mul, abs_neg]
    rw [habs] at h
    exact h
  · intro n hn hlt
    exact altitude_cm_of_int _ n hn hlt
  · intro hr
    have habs : |(-env.PositionActual_Down * 100)| = |env.PositionActual_Down * 100| := by
      rw [neg_mul, abs_neg]
    exact altitude_cm_range _ (by rw [habs]; exact hr)

/-- C14 amended, at a zero-length request without a position source and with
one that reports 1.25 m above the origin, where the altitude sent is 125 cm,
and at a request with a declared length of 3, which is not answered. -/
theorem altitude_request_witness :
    sampleWorld.m.state = MSP_IDLE ∧ 0 ≤ sizeof_cmd_data ∧ ([] : List Nat).length = 0
      ∧ sampleEnvNoPosition.PositionActualHandle = false
      ∧ sampleEnvDown.PositionActualHandle = true
      ∧ -sampleEnvDown.PositionActual_Down * 100 = ((125 : ℤ) : ℚ)
      ∧ [7, 8, 9].length = 3 ∧ sizeof_cmd_data < 3
      ∧ (feed sampleEnvDown sampleWorld (inFrame 3 MSP_ALTITUDE [7, 8, 9] 96)).sent
          = sampleWorld.sent
      ∧ (feed sampleEnvNoPosition sampleWorld
          (inFrame 0 MSP_ALTITUDE [] (xorAll (0 ^^^ MSP_ALTITUDE) []))).sent = sampleWorld.sent
      ∧ roundf (fmul (-sampleEnvDown.PositionActual_Down) 100) = 125
      ∧ (feed sampleEnvDown sampleWorld
          (inFrame 0 MSP_ALTITUDE [] (xorAll (0 ^^^ MSP_ALTITUDE) []))).sent
          = sampleWorld.sent ++ outFrame 109
              (le32 (toBits 32 125) ++ le16 sampleEnvDown.stack_altitude_vario) := by
  have hD : -sampleEnvDown.PositionActual_Down * 100 = ((125 : ℤ) : ℚ) := by
    rw [show sampleEnvDown.PositionActual_Down = -5 / 4 from rfl]
    norm_num
  have hz := (altitude_request sampleEnvDown sampleWorld 0 [] rfl rfl).2.2.2.2.2.1
    125 hD (by norm_num)
  exact ⟨rfl, by decide, rfl, rfl, rfl, hD, rfl, by decide,
    ((altitude_request sampleEnvDown sampleWorld 3 [7, 8, 9] rfl rfl).2.2.2.1 (by decide)
      (by decide) 96).1,
    (altitude_request sampleEnvNoPosition sampleWorld 0 [] rfl rfl).1 (by decide) rfl,
    hz,
    ((altitude_request sampleEnvDown sampleWorld 0 [] rfl rfl).2.1 (by decide) rfl
      125 hz.symm (by norm_num) (by norm_num)).1⟩

/-- C13: in the status response, the flight-status object existing, bit 0 of
the 32-bit flags field at payload offset 6 is set exactly when the vehicle is
armed, whatever the flight mode is (flight mode 0 and modes that are no
predicate of the Box Table included: the scan of the table starts at slot 1
and never touches bit 0). When the flight mode equals the predicate of slot
`i` of the Box Table, for `i` among 1, 2, 3, 6, 7 (slot 2 being HORIZON), the
flags field is the armed flag plus `2 ^ i`: among the bits 1 to 31 exactly bit
`i` is set. For this second part the predicates, enumeration values of a
header outside this file, are taken to be distinct and different from 0. -/
theorem status_mode_bit (env : Env) (w : World) (hh : env.FlightStatusHandle = true) :
    ((u32le (framePayload (sentBy w (msp_send_status env w))) 6).testBit 0 = true
        ↔ env.FlightStatus_Armed = env.FLIGHTSTATUS_ARMED_ARMED)
      ∧ ([env.FLIGHTSTATUS_FLIGHTMODE_LEVELING, env.FLIGHTSTATUS_FLIGHTMODE_HORIZON,
            env.FLIGHTSTATUS_FLIGHTMODE_ALTITUDEHOLD, env.FLIGHTSTATUS_FLIGHTMODE_RETURNTOHOME,
            env.FLIGHTSTATUS_FLIGHTMODE_POSITIONHOLD, 0].Nodup →
          ∀ i tl : Nat,
            (i, tl) ∈ [(1, env.FLIGHTSTATUS_FLIGHTMODE_LEVELING),
                       (2, env.FLIGHTSTATUS_FLIGHTMODE_HORIZON),
                       (3, env.FLIGHTSTATUS_FLIGHTMODE_ALTITUDEHOLD),
                       (6, env.FLIGHTSTATUS_FLIGHTMODE_RETURNTOHOME),
                       (7, env.FLIGHTSTATUS_FLIGHTMODE_POSITIONHOLD)] →
            env.FlightStatus_FlightMode = tl →
            u32le (framePayload (sentBy w (msp_send_status env w))) 6
                = (if env.FlightStatus_Armed = env.FLIGHTSTATUS_ARMED_ARMED then 1 else 0)
                  + 2 ^ i
              ∧ (∀ j, 1 ≤ j →
                  ((u32le (framePayload (sentBy w (msp_send_status env w))) 6).testBit j = true
                    ↔ j = i))) := by
  constructor
  · rw [status_flags_value env w hh]
    by_cases ha : env.FlightStatus_Armed = env.FLIGHTSTATUS_ARMED_ARMED
    · simp only [ha, if_true, iff_true]
      split_ifs <;> decide
    · simp only [ha, if_false, iff_false]
      split_ifs <;> decide
  · intro hd i tl hmem hfm
    have hf := status_flags_of_slot env w hh hd i tl hmem hfm
    have hi : i = 1 ∨ i = 2 ∨ i = 3 ∨ i = 6 ∨ i = 7 := by
      simp only [List.mem_cons, Prod.mk.injEq, List.mem_singleton, List.not_mem_nil, or_false]
        at hmem
      rcases hmem with ⟨h, -⟩ | ⟨h, -⟩ | ⟨h, -⟩ | ⟨h, -⟩ | ⟨h, -⟩ <;> simp [h]
    refine ⟨hf, ?_⟩
    rw [hf]
    by_cases ha : env.FlightStatus_Armed = env.FLIGHTSTATUS_ARMED_ARMED
    · rw [if_pos ha]
      rcases hi with rfl | rfl | rfl | rfl | rfl <;>
        exact testBit_of_byte _ _ (by decide) (by decide) (by decide)
    · rw [if_neg ha]
      rcases hi with rfl | rfl | rfl | rfl | rfl <;>
        exact testBit_of_byte _ _ (by decide) (by decide) (by decide)

/-- C13, at the sample model in HORIZON mode, where the flags field is 4, and
at the disarmed sample model in flight mode 0, where bit 0 is clear. -/
theorem status_mode_bit_witness :
    sampleEnvHorizon.FlightStatusHandle = true
      ∧ [sampleEnvHorizon.FLIGHTSTATUS_FLIGHTMODE_LEVELING,
          sampleEnvHorizon.FLIGHTSTATUS_FLIGHTMODE_HORIZON,
          sampleEnvHorizon.FLIGHTSTATUS_FLIGHTMODE_ALTITUDEHOLD,
          sampleEnvHorizon.FLIGHTSTATUS_FLIGHTMODE_RETURNTOHOME,
          sampleEnvHorizon.FLIGHTSTATUS_FLIGHTMODE_POSITIONHOLD, 0].Nodup
      ∧ sampleEnvHorizon.FlightStatus_FlightMode = sampleEnvHorizon.FLIGHTSTATUS_FLIGHTMODE_HORIZON
      ∧ (u32le (framePayload (sentBy sampleWorld (msp_send_status sampleEnvHorizon sampleWorld))) 6
            = (if sampleEnvHorizon.FlightStatus_Armed = sampleEnvHorizon.FLIGHTSTATUS_ARMED_ARMED
                then 1 else 0) + 2 ^ 2
          ∧ (∀ j, 1 ≤ j →
              ((u32le (framePayload
                  (sentBy sampleWorld (msp_send_status sampleEnvHorizon sampleWorld))) 6).testBit j
                = true ↔ j = 2)))
      ∧ sampleEnvModeZero.FlightStatusHandle = true
      ∧ sampleEnvModeZero.FlightStatus_FlightMode = 0
      ∧ sampleEnvModeZero.FlightStatus_Armed ≠ sampleEnvModeZero.FLIGHTSTATUS_ARMED_ARMED
      ∧ ¬ ((u32le (framePayload
            (sentBy sampleWorld (msp_send_status sampleEnvModeZero sampleWorld))) 6).testBit 0
          = true) :=
  ⟨rfl, by decide, rfl,
    (status_mode_bit sampleEnvHorizon sampleWorld rfl).2 (by decide) 2
      sampleEnvHorizon.FLIGHTSTATUS_FLIGHTMODE_HORIZON (by decide) rfl,
    rfl, rfl, by decide,
    fun h => absurd ((status_mode_bit sampleEnvModeZero sampleWorld rfl).1.mp h) (by decide)⟩

/-- The dispatcher, case by case: with the checksum byte equal to the
accumulator, a command id of the switch runs its encoder on the session. -/
theorem dispatch_cases (env : Env) (v : World) :
    ∀ idh ∈ [(MSP_API_VERSION, msp_send_api_version), (MSP_FC_VERSION, msp_send_fc_version),
        (MSP_FC_VARIANT, msp_send_fc_variant), (MSP_BOARD_INFO, msp_send_board_info env),
        (MSP_BUILD_INFO, msp_send_build_info), (MSP_NAME, msp_send_name),
        (MSP_FEATURE, msp_send_feature), (MSP_UID, msp_send_uid env),
        (MSP_MOTOR, msp_send_motor), (MSP_RAW_GPS, msp_send_raw_gps env),
        (MSP_COMP_GPS, msp_send_comp_gps env), (MSP_ALTITUDE, msp_send_altitude env),
        (MSP_ATTITUDE, msp_send_attitude env), (MSP_STATUS, msp_send_status env),
        (MSP_ANALOG, msp_send_analog env), (MSP_RC, msp_send_channels env),
        (MSP_MISC, msp_send_misc), (MSP_BOXIDS, msp_send_boxids env),
        (MSP_ALARMS, msp_send_alarms env), (MSP_SET_4WAY_IF, msp_handle_4wif)],
      v.m.cmd_id = idh.1 → (msp_state_checksum env v v.m.checksum).1 = idh.2 v := by
  intro idh hmem h
  simp only [List.mem_cons, List.mem_singleton, List.not_mem_nil, or_false] at hmem
  rcases hmem with rfl | rfl | rfl | rfl | rfl | rfl | rfl | rfl | rfl | rfl | rfl | rfl | rfl
    | rfl | rfl | rfl | rfl | rfl | rfl | rfl
  all_goals
    simp only [MSP_API_VERSION, MSP_FC_VERSION, MSP_FC_VARIANT, MSP_BOARD_INFO,
      MSP_BUILD_INFO, MSP_NAME, MSP_FEATURE, MSP_UID, MSP_MOTOR, MSP_RAW_GPS, MSP_COMP_GPS,
      MSP_ALTITUDE, MSP_ATTITUDE, MSP_STATUS, MSP_ANALOG, MSP_RC, MSP_MISC, MSP_BOXIDS,
      MSP_ALARMS, MSP_SET_4WAY_IF] at h
    simp only [msp_state_checksum, Nat.xor_self, ne_eq, not_true_eq_false, if_false, h,
      MSP_API_VERSION, MSP_FC_VERSION, MSP_FC_VARIANT, MSP_BOARD_INFO,
      MSP_BUILD_INFO, MSP_NAME, MSP_FEATURE, MSP_UID, MSP_MOTOR, MSP_RAW_GPS, MSP_COMP_GPS,
      MSP_ALTITUDE, MSP_ATTITUDE, MSP_STATUS, MSP_ANALOG, MSP_RC, MSP_MISC, MSP_BOXIDS,
      MSP_ALARMS, MSP_SET_4WAY_IF, if_true, Nat.reduceEqDiff, ↓reduceIte]

/-- Every call of `msp_receive_byte` on the bytes of a frame fed from
`MSP_IDLE` returns true. -/
theorem frame_returns_true (env : Env) (w : World) (L cmd : Nat) (payload : List Nat)
    (cs : Nat) (hs : w.m.state = MSP_IDLE) (h255 : L ≤ 255) (hp : payload.length = L) :
    ∀ r ∈ feedReturns env w (inFrame L cmd payload cs), r = true := by
  have hlen := inFrame_length L cmd payload cs hp
  have hin := frame_prefix_inside env w L cmd payload cs hs h255 hp
  apply feedReturns_all_true
  intro k hk
  rw [hlen] at hk
  by_cases hk0 : k = 0
  · subst hk0
    simp [feed, hs]
  · intro h4
    have := hin k (by omega) hk
    rw [h4] at this
    exact absurd this (by decide)

/-- C33: for a command id `c` and a payload `p` of at most 2 bytes, the bytes
`msp_send` emits for them, with the direction marker `'>'` (third byte)
replaced by `'<'`, are the inbound frame with declared length `|p|`, command
`c`, payload `p` and the correct checksum. Fed from `MSP_IDLE` into a session
whose buffer has its two bytes, header and payload leave the parser in
`MSP_CHECKSUM` with `cmd_id = c`, `cmd_size = |p|`, the buffer starting with
`p` and the accumulator equal to the last byte. The last byte is accepted and
the dispatcher runs on that session: every call returns true, the parser ends
in `MSP_IDLE`, a `c` that is no case of the switch is answered with the error
frame `'$' 'M' '|' 0 c c`, a `c` that is one is handled by the encoder the
switch names for it, applied to the session just described, and (the altitude
encoder having a source and `AlarmString` keeping to its buffer) answered with
exactly one frame for command `c`; with any other last byte nothing is
sent. -/
theorem codec_round_trip (env : Env) (w w0 : World) (c : Nat) (p : List Nat)
    (hs : w.m.state = MSP_IDLE) (hp : p.length ≤ 2)
    (hbuf : w.m.cmd_data.length = sizeof_cmd_data) :
    (sentBy w0 (msp_send w0 c p p.length)).set 2 60
        = inFrame p.length c p (xorAll (p.length ^^^ c) p)
      ∧ (feed env w ([36, 77, 60, p.length, c] ++ p)).m.state = MSP_CHECKSUM
      ∧ (feed env w ([36, 77, 60, p.length, c] ++ p)).m.cmd_id = c
      ∧ (feed env w ([36, 77, 60, p.length, c] ++ p)).m.cmd_size = p.length
      ∧ (feed env w ([36, 77, 60, p.length, c] ++ p)).m.cmd_data.take p.length = p
      ∧ (feed env w ([36, 77, 60, p.length, c] ++ p)).m.checksum
          = xorAll (p.length ^^^ c) p
      ∧ (feed env w ([36, 77, 60, p.length, c] ++ p)).sent = w.sent
      ∧ (∀ r ∈ feedReturns env w ((sentBy w0 (msp_send w0 c p p.length)).set 2 60), r = true)
      ∧ (feed env w ((sentBy w0 (msp_send w0 c p p.length)).set 2 60)).m.state = MSP_IDLE
      ∧ (c ∉ dispatched →
          (feed env w ((sentBy w0 (msp_send w0 c p p.length)).set 2 60)).sent
            = w.sent ++ [36, 77, 124, 0, c, c])
      ∧ (∀ idh ∈ [(MSP_API_VERSION, msp_send_api_version),
            (MSP_FC_VERSION, msp_send_fc_version), (MSP_FC_VARIANT, msp_send_fc_variant),
            (MSP_BOARD_INFO, msp_send_board_info env), (MSP_BUILD_INFO, msp_send_build_info),
            (MSP_NAME, msp_send_name), (MSP_FEATURE, msp_send_feature),
            (MSP_UID, msp_send_uid env), (MSP_MOTOR, msp_send_motor),
            (MSP_RAW_GPS, msp_send_raw_gps env), (MSP_COMP_GPS, msp_send_comp_gps env),
            (MSP_ALTITUDE, msp_send_altitude env), (MSP_ATTITUDE, msp_send_attitude env),
            (MSP_STATUS, msp_send_status env), (MSP_ANALOG, msp_send_analog env),
            (MSP_RC, msp_send_channels env), (MSP_MISC, msp_send_misc),
            (MSP_BOXIDS, msp_send_boxids env), (MSP_ALARMS, msp_send_alarms env),
            (MSP_SET_4WAY_IF, msp_handle_4wif)],
          c = idh.1 →
            feed env w ((sentBy w0 (msp_send w0 c p p.length)).set 2 60)
              = setState (idh.2 (feed env w ([36, 77, 60, p.length, c] ++ p))) MSP_IDLE)
      ∧ (c ∈ dispatched → (c = MSP_ALTITUDE → env.PositionActualHandle = true) →
          env.AlarmString_len < MAX_ALARM_LEN →
          ∃ q, q.length ≤ 255
            ∧ (feed env w ((sentBy w0 (msp_send w0 c p p.length)).set 2 60)).sent
                = w.sent ++ outFrame c q)
      ∧ (∀ b, b ≠ xorAll (p.length ^^^ c) p →
          (feed env w (inFrame p.length c p b)).sent = w.sent) := by
  have hframe : (sentBy w0 (msp_send w0 c p p.length)).set 2 60
      = inFrame p.length c p (xorAll (p.length ^^^ c) p) := by
    rw [sentBy_send, readBytes_self, Nat.mod_eq_of_lt (by omega : p.length < 256)]
    rfl
  obtain ⟨h1, h2, h3, h4, -, -, h7, -⟩ := feed_to_checksum env w p.length c p hs hp rfl
  have hfeed := feed_valid_frame env w p.length c p hs hp rfl
  refine ⟨hframe, h1, h2, h3, feed_fill_buffer env w p.length c p hs hp rfl hbuf, h4, h7,
    ?_, ?_, ?_, ?_, ?_, ?_⟩
  · rw [hframe]
    exact frame_returns_true env w p.length c p _ hs (by omega) rfl
  · rw [hframe, hfeed]
    rfl
  · intro hx
    rw [hframe, hfeed, dispatch_unsupported env _ (by rw [h2]; exact hx), h2]
    simp only [setState]
    rw [h7]
  · intro idh hmem hc
    rw [hframe, hfeed, dispatch_cases env _ idh hmem (by rw [h2]; exact hc)]
  · intro hc halt halarm
    obtain ⟨q, hq, hsent⟩ := dispatch_supported env (feed env w ([36, 77, 60, p.length, c] ++ p))
      (by rw [h2]; exact hc) (by rw [h2]; exact halt) halarm
    refine ⟨q, hq, ?_⟩
    rw [hframe, hfeed]
    simp only [setState]
    rw [hsent, h7, h2]
  · intro b hb
    rw [feed_inFrame, checksum_mismatch env _ b h1 (by rw [h4]; exact hb)]
    simp only [setState]
    exact h7

/-- C33, at command 245 with payload 1, 3, and at the unknown command 100
with the same payload. -/
theorem codec_round_trip_witness :
    sampleWorld.m.state = MSP_IDLE ∧ [1, 3].length ≤ 2
      ∧ sampleWorld.m.cmd_data.length = sizeof_cmd_data
      ∧ 100 ∉ dispatched
      ∧ (sentBy sampleWorld (msp_send sampleWorld 245 [1, 3] [1, 3].length)).set 2 60
          = inFrame [1, 3].length 245 [1, 3] (xorAll ([1, 3].length ^^^ 245) [1, 3])
      ∧ (feed sampleEnv sampleWorld ([36, 77, 60, [1, 3].length, 245] ++ [1, 3])).m.state
          = MSP_CHECKSUM
      ∧ (feed sampleEnv sampleWorld ([36, 77, 60, [1, 3].length, 245] ++ [1, 3])).m.cmd_id
          = 245
      ∧ (feed sampleEnv sampleWorld
            ((sentBy sampleWorld (msp_send sampleWorld 100 [1, 3] [1, 3].length)).set 2 60)).sent
          = sampleWorld.sent ++ [36, 77, 124, 0, 100, 100]
      ∧ feed sampleEnv sampleWorld
            ((sentBy sampleWorld (msp_send sampleWorld 245 [1, 3] [1, 3].length)).set 2 60)
          = setState (msp_handle_4wif
              (feed sampleEnv sampleWorld ([36, 77, 60, [1, 3].length, 245] ++ [1, 3])))
              MSP_IDLE :=
  ⟨rfl, by decide, rfl, by decide,
    (codec_round_trip sampleEnv sampleWorld sampleWorld 245 [1, 3] rfl (by decide) rfl).1,
    (codec_round_trip sampleEnv sampleWorld sampleWorld 245 [1, 3] rfl (by decide) rfl).2.1,
    (codec_round_trip sampleEnv sampleWorld sampleWorld 245 [1, 3] rfl (by decide) rfl).2.2.1,
    (codec_round_trip sampleEnv sampleWorld sampleWorld 100 [1, 3] rfl (by decide)
      rfl).2.2.2.2.2.2.2.2.2.1 (by decide),
    (codec_round_trip sampleEnv sampleWorld sampleWorld 245 [1, 3] rfl (by decide)
      rfl).2.2.2.2.2.2.2.2.2.2.1 (MSP_SET_4WAY_IF, msp_handle_4wif) (by simp) rfl⟩

end UAVOMSPBridge
